import Mathlib

/-!
Verification of the `localRAG` chat pipeline (normalizer, intent classifier,
context tracker, response selector, response cache) of the avatar-chat-folio
repository.  All definitions below are a shallow embedding of the TypeScript
source; JavaScript strings are modelled as `String`/`List Char`, JS numbers
used for scores as `ℚ`, timestamps as `Int`, `Map`/`Set` as insertion-ordered
association lists, and the regex literals of the source as values of a small
regex AST (`RE`) with a backtracking matcher mirroring `RegExp.test`.
All case-insensitive (`i` flag) tests are modelled by testing the
lowercased subject against the (lowercase) pattern, which is equivalent
for the ASCII patterns of the source.
-/

set_option maxRecDepth 100000

attribute [local semireducible] Rat.mul Rat.add Rat.sub Rat.inv

namespace LocalRAG

/-- JS regex `\w` character class: ASCII alphanumerics and underscore. -/
def isWordChar (c : Char) : Bool := c.isAlphanum || c == '_'

/-- Whitespace as used by `trim`/`\s` (the source only ever sees ASCII). -/
def isWsChar (c : Char) : Bool := c == ' ' || c == '\t' || c == '\n' || c == '\r'

/-- The punctuation class `[?!.]` collapsed by the normalizer. -/
def isPunctQ (c : Char) : Bool := c == '?' || c == '!' || c == '.'

/-- `sub` is a prefix of `hay` (used to implement `String.includes` etc.). -/
def prefixEq : List Char → List Char → Bool
  | [], _ => true
  | _ :: _, [] => false
  | a1 :: t1, b1 :: t2 => a1 == b1 && prefixEq t1 t2

/-- JS `hay.includes(sub)`: `sub` occurs as a contiguous substring. -/
def containsSub : List Char → List Char → Bool
  | [], sub => prefixEq sub []
  | c :: t, sub => prefixEq sub (c :: t) || containsSub t sub

/-- Lowercase a whole string (JS `toLowerCase`, ASCII as in the source). -/
def toLowerS (s : String) : String := ⟨s.data.map Char.toLower⟩

/-- `hay.match(new RegExp(sub, 'gi')).length` for a literal `sub = s0 :: ss`:
number of non-overlapping left-to-right occurrences. -/
def countOccF (s0 : Char) (ss : List Char) : Nat → List Char → Nat
  | _, [] => 0
  | 0, _ :: _ => 0
  | fuel + 1, c :: t =>
    if prefixEq (s0 :: ss) (c :: t) then 1 + countOccF s0 ss fuel (t.drop ss.length)
    else countOccF s0 ss fuel t

def countOcc (s0 : Char) (ss : List Char) (l : List Char) : Nat :=
  countOccF s0 ss l.length l

/-- Count of global matches of a literal pattern (0 for the empty pattern,
which never occurs in the source's keyword tables). -/
def countOccS (hay sub : String) : Nat :=
  match sub.data with
  | [] => 0
  | c :: cs => countOcc c cs hay.data

/-- Maximal runs of characters satisfying `p` (in order). -/
def splitRunsF (p : Char → Bool) : Nat → List Char → List (List Char)
  | _, [] => []
  | 0, _ :: _ => []
  | fuel + 1, c :: t =>
    if p c then (c :: t.takeWhile p) :: splitRunsF p fuel (t.dropWhile p)
    else splitRunsF p fuel t

def splitRuns (p : Char → Bool) (l : List Char) : List (List Char) :=
  splitRunsF p l.length l

/-- The maximal `\w`-runs ("words") of a string. -/
def wordRuns (l : List Char) : List (List Char) := splitRuns isWordChar l

/-- Replace every maximal run of `p`-characters by a single space
(JS `replace(/[c]+/g, ' ')` for a character class). -/
def squashRunsF (p : Char → Bool) : Nat → List Char → List Char
  | _, [] => []
  | 0, _ :: _ => []
  | fuel + 1, c :: t =>
    if p c then ' ' :: squashRunsF p fuel (t.dropWhile p)
    else c :: squashRunsF p fuel t

def squashRuns (p : Char → Bool) (l : List Char) : List Char :=
  squashRunsF p l.length l

/-- JS `trim`: drop whitespace from both ends. -/
def trimChars (l : List Char) : List Char :=
  ((l.dropWhile isWsChar).reverse.dropWhile isWsChar).reverse

def trimS (s : String) : String := ⟨trimChars s.data⟩

/-- Proof-side characterization of the fixed points of `squashRuns isWsChar`:
every whitespace character is a single space followed by a non-whitespace
character (or the end). -/
def wsOK : List Char → Bool
  | [] => true
  | c :: t =>
    if isWsChar c then
      (c == ' ') && (match t.head? with
        | some d => !isWsChar d
        | none => true) && wsOK t
    else wsOK t

/-- One step of `replace(new RegExp('\\b' + typo + '\\b', 'gi'), corr)` for a
typo `t0 :: ts` made of word characters: a left-to-right scan; `prevW` records
whether the previously emitted character was a word character (false at the
start of the string), which together with the character following the
occurrence decides the two `\b` boundary conditions. -/
def replaceWordAuxF (t0 : Char) (ts : List Char) (corr : List Char) :
    Nat → Bool → List Char → List Char
  | _, _, [] => []
  | 0, _, _ :: _ => []
  | fuel + 1, prevW, c :: rest =>
    if !prevW && prefixEq (t0 :: ts) (c :: rest)
        && !(match (rest.drop ts.length).head? with
             | some d => isWordChar d
             | none => false) then
      corr ++ replaceWordAuxF t0 ts corr fuel (isWordChar (ts.getLastD t0)) (rest.drop ts.length)
    else
      c :: replaceWordAuxF t0 ts corr fuel (isWordChar c) rest

def replaceWordAux (t0 : Char) (ts : List Char) (corr : List Char)
    (prevW : Bool) (l : List Char) : List Char :=
  replaceWordAuxF t0 ts corr l.length prevW l

/-- Whole-word global replacement of `typo` by `corr` (`\btypo\b` with flags
`gi`; the subject is already lowercased when this is used). -/
def replaceWordAll (s typo corr : List Char) : List Char :=
  match typo with
  | [] => s
  | t0 :: ts => replaceWordAux t0 ts corr false s

/-- `TYPO_CORRECTIONS`, in object-literal order. -/
def TYPO_CORRECTIONS : List (String × String) :=
  [("experiance", "experience"),
   ("expirience", "experience"),
   ("experince", "experience"),
   ("projct", "project"),
   ("proyect", "project"),
   ("skilz", "skills"),
   ("skils", "skills"),
   ("contct", "contact"),
   ("contat", "contact"),
   ("edcuation", "education"),
   ("educaton", "education"),
   ("resumee", "resume"),
   ("resum", "resume")]

/-- `SYNONYMS`, in object-literal order. -/
def SYNONYMS : List (String × List String) :=
  [("job", ["work", "employment", "position", "role", "career"]),
   ("project", ["app", "application", "build", "creation", "work"]),
   ("skill", ["ability", "expertise", "knowledge", "capability", "proficiency"]),
   ("contact", ["reach", "connect", "get in touch", "email", "call"]),
   ("education", ["degree", "school", "university", "study", "learning"]),
   ("achievement", ["accomplishment", "success", "award", "honor", "recognition"])]

def applyTypos (l : List Char) : List Char :=
  TYPO_CORRECTIONS.foldl (fun acc p => replaceWordAll acc p.1.data p.2.data) l

def applySynonyms (l : List Char) : List Char :=
  SYNONYMS.foldl
    (fun acc p =>
      if containsSub acc p.1.data then
        acc ++ (' ' :: (String.intercalate " " p.2).data)
      else acc) l

/-- `normalizeQuery`: lowercase and trim, fix typos (whole-word), append
synonym lists for any contained root word, then collapse `[?!.]+` runs and
whitespace runs each to a single space and trim. -/
def normalizeQuery (query : String) : String :=
  let n0 := trimChars (query.data.map Char.toLower)
  let n1 := applyTypos n0
  let n2 := applySynonyms n1
  let n3 := squashRuns isPunctQ n2
  let n4 := squashRuns isWsChar n3
  ⟨trimChars n4⟩

/-! ### A small regex AST covering the constructs used by the source

Constructors: literals, single-character classes (`oneP`), starred character
classes (`starP`, e.g. `[\s!?]*` and `\w*`), `.*` (`anyStar`, `.` does not
match a newline), alternation, concatenation, `(...)?` (`opt`) and the
zero-width word boundary `\b` (`bnd`).  The matcher returns every possible
(last consumed character, remaining suffix) pair, so `test` is existence of
a match, exactly as for a backtracking engine. -/

inductive RE where
  | eps : RE
  | lit : List Char → RE
  | oneP : (Char → Bool) → RE
  | starP : (Char → Bool) → RE
  | anyStar : RE
  | alt : RE → RE → RE
  | cat : RE → RE → RE
  | opt : RE → RE
  | bnd : RE

def isWordOpt : Option Char → Bool
  | none => false
  | some c => isWordChar c

/-- All stop points of `[p]*` (greedy or not — we collect every split). -/
def starStops (p : Char → Bool) : Option Char → List Char → List (Option Char × List Char)
  | prev, [] => [(prev, [])]
  | prev, c :: t =>
    (prev, c :: t) :: (if p c then starStops p (some c) t else [])

def matchRE : RE → Option Char → List Char → List (Option Char × List Char)
  | .eps, prev, l => [(prev, l)]
  | .lit w, prev, l =>
    if prefixEq w l then [(if w.isEmpty then prev else some (w.getLastD ' '), l.drop w.length)]
    else []
  | .oneP p, _, l =>
    match l with
    | [] => []
    | c :: t => if p c then [(some c, t)] else []
  | .starP p, prev, l => starStops p prev l
  | .anyStar, prev, l => starStops (fun c => !(c == '\n')) prev l
  | .alt a b, prev, l => matchRE a prev l ++ matchRE b prev l
  | .cat a b, prev, l => (matchRE a prev l).flatMap (fun pr => matchRE b pr.1 pr.2)
  | .opt a, prev, l => (prev, l) :: matchRE a prev l
  | .bnd, prev, l => if isWordOpt prev != isWordOpt l.head? then [(prev, l)] else []

/-- Unanchored `RegExp.test`: try a match at every start position. -/
def testREFrom (r : RE) : Option Char → List Char → Bool
  | prev, l =>
    !(matchRE r prev l).isEmpty ||
      match l with
      | [] => false
      | c :: t => testREFrom r (some c) t

/-- `pat.test(s)` for an unanchored pattern (subject already lowercased for
the `i`-flag patterns of the source). -/
def testRE (r : RE) (s : String) : Bool := testREFrom r none s.data

/-- `pat.test(s)` for a `^`-anchored pattern. -/
def testREStart (r : RE) (s : String) : Bool := !(matchRE r none s.data).isEmpty

/-- `pat.test(s)` for a `^...$` pattern. -/
def testREFull (r : RE) (s : String) : Bool :=
  (matchRE r none s.data).any (fun pr => pr.2.isEmpty)

def rel (s : String) : RE := .lit s.data

def reAlts : List String → RE
  | [] => .eps
  | [s] => rel s
  | s :: rest => .alt (rel s) (reAlts rest)

def reSeq : List RE → RE
  | [] => .eps
  | [r] => r
  | r :: rest => .cat r (reSeq rest)

/-- `a.*b.*c...` chains (the ubiquitous `x.*y` idiom of the source). -/
def reChain : List String → RE
  | [] => .eps
  | [s] => rel s
  | s :: rest => .cat (rel s) (.cat .anyStar (reChain rest))

/-- `\b(w1|w2|...)\b`. -/
def reWords (ws : List String) : RE := .cat .bnd (.cat (reAlts ws) .bnd)

/-! ### Intent classifier (`SEMANTIC_KEYWORDS`, `detectIntent`) -/

/-- `SEMANTIC_KEYWORDS`, in object-literal order. -/
def SEMANTIC_KEYWORDS : List (String × List String) :=
  [("experience", ["work", "job", "career", "role", "position", "internship", "employed", "worked at"]),
   ("projects", ["built", "created", "developed", "project", "portfolio", "made", "app", "application"]),
   ("skills", ["skill", "technology", "tech", "expertise", "proficient", "good at", "know", "can you"]),
   ("education", ["study", "studied", "degree", "university", "college", "school", "education", "graduated"]),
   ("ai", ["ai", "artificial intelligence", "machine learning", "ml", "llm", "rag", "chatbot", "neural"]),
   ("contact", ["contact", "reach", "email", "phone", "linkedin", "github", "connect", "get in touch"]),
   ("achievements", ["achievement", "accomplish", "proud", "award", "honor", "recognition", "success"]),
   ("personal", ["hobby", "interest", "personal", "passion", "love", "enjoy", "background", "story"]),
   ("leadership", ["leadership", "leader", "manage", "team", "coordinate", "organize", "motivate"]),
   ("motivation", ["why", "motivated", "inspire", "passion", "drive", "what sparked"]),
   ("challenges", ["challenge", "difficult", "problem", "obstacle", "struggle", "overcome"]),
   ("future", ["future", "vision", "goal", "plan", "career path", "long-term", "aspiration"]),
   ("resume", ["resume", "cv", "walk me through", "background", "tell me about yourself"]),
   ("cloud", ["cloud", "aws", "azure", "gcp", "serverless", "container", "kubernetes"]),
   ("consulting", ["consult", "business architect", "strategy", "enterprise", "client"]),
   ("teaching", ["teach", "graduate assistant", "student", "education", "mentor"]),
   ("retail", ["retail", "evm", "assistant manager", "store", "customer"]),
   ("technical", ["technical", "code", "debug", "implement", "design", "architecture"])]

/-- The per-intent keyword score of `detectIntent`: for each keyword contained
in the query, `+2` if it is longer than 4 characters else `+1`, plus `+0.5`
per occurrence beyond the first. -/
def kwScore (ql : List Char) (keywords : List String) : ℚ :=
  keywords.foldl
    (fun acc k =>
      if containsSub ql k.data then
        acc + (if k.length > 4 then 2 else 1)
          + ((countOccS ⟨ql⟩ k : ℚ) - 1) * (1 / 2)
      else acc) 0

/-- `Map.set`: overwrite in place if the key is present, else append. -/
def setA {β : Type} (m : List (String × β)) (k : String) (v : β) : List (String × β) :=
  if m.any (fun p => p.1 == k) then
    m.map (fun p => if p.1 == k then (k, v) else p)
  else m ++ [(k, v)]

/-- Stable insertion used to model `Array.prototype.sort` (guaranteed stable)
with comparator `(a, b) => keyOf b - keyOf a`, i.e. descending by key with
ties kept in original order. -/
def insertDesc {α : Type} (keyOf : α → ℚ) (x : α) : List α → List α
  | [] => [x]
  | y :: ys => if keyOf x ≥ keyOf y then x :: y :: ys else y :: insertDesc keyOf x ys

def sortDesc {α : Type} (keyOf : α → ℚ) (l : List α) : List α :=
  l.foldr (insertDesc keyOf) []

def patWhatDoYou : RE := reSeq [rel "what ", reAlts ["do", "can", "are"], rel " you"]
def patTellMe : RE := reSeq [rel "tell me ", reAlts ["about", "more"]]
def patHowDid : RE := reSeq [rel "how ", reAlts ["did", "do", "can"]]

/-- `detectIntent`: keyword scores per intent (entries with score 0 are not
inserted), six fixed-score pattern intents (`Map.set`, so an existing
`motivation` entry is overwritten in place), then the intents sorted by
score descending (stable). -/
def detectIntent (query : String) : List String :=
  let ql := (toLowerS query).data
  let base := SEMANTIC_KEYWORDS.foldl
    (fun m p =>
      let sc := kwScore ql p.2
      if sc > 0 then setA m p.1 sc else m) []
  let m1 := if testRE patWhatDoYou (toLowerS query) then setA base "capabilities" 2 else base
  let m2 := if testRE patTellMe (toLowerS query) then setA m1 "detailed" (3 / 2) else m1
  let m3 := if testRE patHowDid (toLowerS query) then setA m2 "process" (3 / 2) else m2
  let m4 := if testRE (rel "why") (toLowerS query) then setA m3 "motivation" 2 else m3
  let m5 := if testRE (rel "when") (toLowerS query) then setA m4 "timeline" 1 else m4
  let m6 := if testRE (rel "where") (toLowerS query) then setA m5 "location" 1 else m5
  (sortDesc (fun p => p.2) m6).map (fun p => p.1)

/-! ### The intent classifier as claim C4 states it (spec-side, for comparison) -/

/-- The per-intent score as the claim states it: `+2` per matched keyword
longer than 4 characters, `+1` otherwise, plus `+0.5` per repeated occurrence
of the keyword beyond the first, summed over the intent's keyword list. -/
def claimIntentScore (ql : List Char) (keywords : List String) : ℚ :=
  (keywords.map (fun k =>
    if containsSub ql k.data then
      (if k.length > 4 then 2 else 1) + ((countOccS ⟨ql⟩ k : ℚ) - 1) * (1 / 2)
    else 0)).sum

/-- The intent classifier exactly as claim C4 states it: only the keyword
table contributes, every intent with nonzero score is kept in first-seen
order, and the result is sorted by score descending (stable). -/
def claimedDetect (query : String) : List String :=
  let ql := (toLowerS query).data
  (sortDesc (fun p => p.2)
    (SEMANTIC_KEYWORDS.filterMap (fun p =>
      if claimIntentScore ql p.2 > 0 then some (p.1, claimIntentScore ql p.2) else none))).map
    (fun p => p.1)

/-- The fixed battery of regex checks run by `detectIntent` after the keyword
scores, with the intent each check injects and its fixed score; `Map.set`
semantics, so an existing entry of the same intent is overwritten. -/
def regexBattery : List (RE × String × ℚ) :=
  [(patWhatDoYou, "capabilities", 2),
   (patTellMe, "detailed", 3 / 2),
   (patHowDid, "process", 3 / 2),
   (rel "why", "motivation", 2),
   (rel "when", "timeline", 1),
   (rel "where", "location", 1)]

/-- The claimed classifier amended by the regex battery: after the keyword
scores are collected, each matching regex check inserts — or overwrites — its
intent's fixed score, and only then is the map sorted. -/
def amendedDetect (query : String) : List String :=
  let ql := (toLowerS query).data
  let base := SEMANTIC_KEYWORDS.filterMap (fun p =>
    if claimIntentScore ql p.2 > 0 then some (p.1, claimIntentScore ql p.2) else none)
  let final := regexBattery.foldl
    (fun m r => if testRE r.1 (toLowerS query) then setA m r.2.1 r.2.2 else m) base
  (sortDesc (fun p => p.2) final).map (fun p => p.1)

/-! ### Context tracker (`ConversationContext`, `updateContext`) -/

inductive Sentiment where
  | curious : Sentiment
  | professional : Sentiment
  | casual : Sentiment
deriving DecidableEq, Repr

inductive Depth where
  | overview : Depth
  | detailed : Depth
  | deepDive : Depth
deriving DecidableEq, Repr

structure Ctx where
  topics : List String
  askedAbout : List String
  sentiment : Sentiment
  depth : Depth
deriving DecidableEq, Repr

/-- The initial process-wide context. -/
def initCtx : Ctx := ⟨[], [], .curious, .overview⟩

/-- `Set.add`: insertion-ordered, ignores duplicates. -/
def addAsked (c : Ctx) (t : String) : Ctx :=
  if c.askedAbout.contains t then c
  else { c with askedAbout := c.askedAbout ++ [t] }

/-- JS `arr.slice(-10)`: the last (at most) 10 elements. -/
def lastN {α : Type} (n : Nat) (l : List α) : List α := l.drop (l.length - n)

/-- `updateContext`: append detected intents to the topic list keeping the
last 10, then re-evaluate sentiment and depth from fixed word sets. -/
def updateContext (query : String) (intents : List String) (c : Ctx) : Ctx :=
  let topics := lastN 10 (c.topics ++ intents)
  let sentiment :=
    if testRE (reWords ["cool", "awesome", "interesting", "great", "amazing"]) (toLowerS query) then
      Sentiment.casual
    else if testRE (reWords ["experience", "professional", "qualification", "expertise"]) (toLowerS query) then
      Sentiment.professional
    else c.sentiment
  let depth :=
    if testRE (reWords ["more", "detail", "specific", "elaborate", "deep"]) (toLowerS query) then
      Depth.detailed
    else if testRE (reWords ["quickly", "brief", "summary", "overview"]) (toLowerS query) then
      Depth.overview
    else c.depth
  { topics := topics, askedAbout := c.askedAbout, sentiment := sentiment, depth := depth }

/-! ### Similarity scoring (`calculateAdvancedSimilarity`) -/

/-- Count of global matches of `new RegExp('\\b' + word + '\\w*', 'gi')` for
`word = w0 :: ws`: a scan counting boundary-anchored occurrences of the word,
each match greedily consuming the trailing `\w*` run. -/
def countWPAuxF (w0 : Char) (ws : List Char) : Nat → Option Char → List Char → Nat
  | _, _, [] => 0
  | 0, _, _ :: _ => 0
  | fuel + 1, prev, c :: t =>
    if (isWordOpt prev != isWordChar c) && prefixEq (w0 :: ws) (c :: t) then
      let after := t.drop ws.length
      let ext := after.takeWhile isWordChar
      1 + countWPAuxF w0 ws fuel (some (ext.getLastD (ws.getLastD w0))) (after.dropWhile isWordChar)
    else countWPAuxF w0 ws fuel (some c) t

def countWordPrefix (hay : List Char) (w : List Char) : Nat :=
  match w with
  | [] => 0
  | w0 :: ws => countWPAuxF w0 ws hay.length none hay

/-- `calculateAdvancedSimilarity`: exact-phrase bonus, position-weighted word
matches, `\bword\w*` partial-match counts, normalized by the number of
query words longer than 2 characters. -/
def calculateAdvancedSimilarity (query text : String) (boost : ℚ) : ℚ :=
  let queryLower := toLowerS query
  let textLower := toLowerS text
  let queryWords := (splitRuns (fun c => !isWsChar c) queryLower.data).filter
    (fun w => w.length > 2)
  let s1 : ℚ := if containsSub textLower.data queryLower.data then 3 * boost else 0
  let s2 : ℚ := queryWords.enum.foldl
    (fun acc iw =>
      if containsSub textLower.data iw.2 then
        acc + (1 + ((queryWords.length : ℚ) - (iw.1 : ℚ)) * (1 / 10)) * boost
      else acc) 0
  let s3 : ℚ := queryWords.foldl
    (fun acc w => acc + (countWordPrefix textLower.data w : ℚ) * (1 / 2) * boost) 0
  (s1 + s2 + s3) / max ((queryWords.length : ℚ)) 1

/-! ### Template matcher (`matchQuestionPattern`) -/

def patResumeOverview : RE :=
  .alt (reSeq [rel "walk ", .opt (rel "me "), rel "through ", .opt (rel "your "), rel "resume"])
    (reAlts ["tell me about yourself", "your background"])
def patEducationMotivation : RE :=
  .alt (reChain ["why", "pursue", "bachelor", "master"]) (reChain ["motivated", "degree"])
def patWhyOu : RE :=
  .alt (reChain ["why", "university of oklahoma"]) (reChain ["why", "ou"])
def patWhyMis : RE := reChain ["why", "management information"]
def patBusinessTech : RE :=
  .alt (reChain ["integrate", "business", "technical"]) (reChain ["combine", "business", "tech"])
def patDigitalTransformation : RE :=
  .alt (reChain ["define", "digital transformation"]) (reChain ["what", "digital transformation"])
def patPassionOrigin : RE :=
  .alt (reChain ["what sparked", "passion"]) (reChain ["why", "passionate"])
def patCareerVision : RE :=
  .alt (.cat (reSeq [rel "long", .opt (.oneP (fun c => c == '-' || c == ' ')), rel "term"])
      (.cat .anyStar (rel "vision")))
    (.alt (reChain ["career", "vision"]) (reChain ["future", "career"]))
def patMostImpactful : RE :=
  .alt (reChain ["which", "shaped", "most"]) (reChain ["most important", "experience"])
def patObjectstreamA : RE := .alt (rel "objectstream") (reChain ["pega", "intern"])
def patObjectstreamB : RE := .alt (reChain ["what", "do"]) (reAlts ["role", "contribute"])
def patBeats : RE := .alt (reChain ["beats", "dre"]) (reChain ["consumer", "insight"])
def patLovesA : RE :=
  .cat (reSeq [rel "love", .opt (rel "'"), rel "s"]) (.cat .anyStar (rel "travel"))
def patLovesB : RE := reAlts ["21%", "latency", "reporting"]
def patTeaching : RE := .alt (rel "graduate assistant") (reChain ["teaching", "sql"])
def patRetail : RE := .alt (rel "evm") (reChain ["retail", "management"])
def patAvatar : RE :=
  .alt (.cat (.alt (reChain ["avatar", "portfolio"]) (reChain ["3d", "portfolio"]))
      (.cat .anyStar (rel "inspired")))
    (reChain ["why", "3d"])
def patChibitomo : RE :=
  .alt (reChain ["chibitomo", "problem"]) (reChain ["chibitomo", "solve"])
def patAesculapius : RE :=
  .alt (reChain ["aesculapius", "privacy"]) (reChain ["why", "privacy"])
def patLinkedin : RE :=
  .alt (reChain ["linkedin", "assistant", "inspired"]) (reChain ["why", "chrome"])
def patCloudPref : RE :=
  .alt (reChain ["prefer", "cloud"]) (reChain ["which", "cloud", "platform"])
def patSql : RE := .alt (reChain ["sql", "join"]) (reAlts ["window function", "cte"])
def patDebugging : RE :=
  .alt (reChain ["debug", "python"]) (reChain ["debugging", "process"])
def patAiLibrary : RE :=
  .alt (reChain ["langchain", "hugging", "face"]) (reChain ["prefer", "ai", "library"])
def patLeadershipClub : RE :=
  .alt (reChain ["cousins", "presidential", "club"]) (reChain ["events", "chair"])
def patTimeManagement : RE :=
  .alt (reChain ["balance", "academic", "project"]) (reChain ["manage", "time"])
def patTeamMotivation : RE :=
  .alt (reChain ["motivate", "team"]) (reChain ["team", "motivation"])
def patWorkCulture : RE :=
  .alt (reChain ["work", "culture"]) (reChain ["culture", "motivate"])
def patHandlingFailure : RE :=
  .alt (reChain ["handle", "failure"]) (reChain ["deal", "criticism"])
def patWhyHire : RE :=
  .alt (reChain ["why", "hire", "you"]) (reChain ["why", "should", "we"])
def patMistakes : RE := .alt (reChain ["mistake", "grew"]) (reChain ["learned", "from"])
def patEthics : RE :=
  .alt (reChain ["ethical", "use", "technology"]) (reChain ["ethics", "ai"])
def patContact : RE :=
  .alt (reChain ["how", "contact"])
    (.alt (reSeq [rel "reach ", .opt (rel "out to "), rel "you"])
      (.alt (rel "get in touch")
        (reSeq [rel "your ", reAlts ["email", "phone", "linkedin", "github"]])))
def patHobbies : RE :=
  .alt (reChain ["what", "do", "for fun"])
    (.alt (reAlts ["hobbies", "interests"])
      (.alt (reSeq [rel "outside ", .opt (rel "of "), rel "work"])
        (reAlts ["free time", "enjoy doing", "passion outside"])))

/-- `matchQuestionPattern`: the ~40 ordered template regexes, tested against
the raw question (all patterns carry the `i` flag, so we test the lowercased
question); first match wins. -/
def matchQuestionPattern (question : String) : Option String :=
  let q := toLowerS question
  if testRE patResumeOverview q then some "resume_overview"
  else if testRE patEducationMotivation q then some "education_motivation"
  else if testRE patWhyOu q then some "why_ou"
  else if testRE patWhyMis q then some "why_mis"
  else if testRE patBusinessTech q then some "business_tech_integration"
  else if testRE patDigitalTransformation q then some "digital_transformation"
  else if testRE patPassionOrigin q then some "passion_origin"
  else if testRE patCareerVision q then some "career_vision"
  else if testRE patMostImpactful q then some "most_impactful"
  else if testRE patObjectstreamA q && testRE patObjectstreamB q then some "objectstream_role"
  else if testRE patBeats q then some "beats_insights"
  else if testRE patLovesA q && testRE patLovesB q then some "loves_analytics"
  else if testRE patTeaching q then some "teaching_role"
  else if testRE patRetail q then some "retail_experience"
  else if testRE patAvatar q then some "avatar_inspiration"
  else if testRE patChibitomo q then some "chibitomo_purpose"
  else if testRE patAesculapius q then some "aesculapius_privacy"
  else if testRE patLinkedin q then some "linkedin_motivation"
  else if testRE patCloudPref q then some "cloud_preference"
  else if testRE patSql q then some "sql_proficiency"
  else if testRE patDebugging q then some "debugging_approach"
  else if testRE patAiLibrary q then some "ai_library_preference"
  else if testRE patLeadershipClub q then some "leadership_club"
  else if testRE patTimeManagement q then some "time_management"
  else if testRE patTeamMotivation q then some "team_motivation"
  else if testRE patWorkCulture q then some "work_culture"
  else if testRE patHandlingFailure q then some "handling_failure"
  else if testRE patWhyHire q then some "why_hire"
  else if testRE patMistakes q then some "learning_from_mistakes"
  else if testRE patEthics q then some "tech_ethics"
  else if testRE patContact q then some "contact"
  else if testRE patHobbies q then some "hobbies"
  else none

/-! ### Profile document (`ResumeData`) -/

structure ProjectItem where
  name : String
  description : String
  technologies : Option String
  link : Option String
deriving DecidableEq, Repr

structure ExperienceItem where
  title : String
  company : String
  description : String
  location : Option String
  duration : Option String
deriving DecidableEq, Repr

structure EducationItem where
  degree : String
  school : String
  location : Option String
  duration : Option String
deriving DecidableEq, Repr

structure ContactRec where
  email : Option String
  phone : Option String
  linkedin : Option String
  github : Option String
deriving DecidableEq, Repr

/-- The profile document; `Option` models an absent/`undefined` field
(an empty list is a *present* empty array, which is truthy in JS). -/
structure ResumeData where
  name : String
  location : String
  bio : String
  tagline : String
  professional_summary : String
  skills : Option (List String)
  experience : Option (List ExperienceItem)
  projects : Option (List ProjectItem)
  education : Option (List EducationItem)
  certifications : Option (List String)
  contact : Option ContactRec
  leadership : Option (List String)
  honors : Option (List String)
deriving DecidableEq, Repr

/-- The minimal fallback profile substituted when `loadResumeData` fails. -/
def fallbackResume : ResumeData :=
  { name := "Marzook Mansoor"
    location := "Edmond, OK"
    bio := "AI/ML Engineer and Business Analyst"
    tagline := "Building AI solutions"
    professional_summary := "Passionate about AI, automation, and digital transformation"
    skills := some ["Python", "SQL", "AI/ML", "React", "TypeScript"]
    experience := some []
    projects := some []
    education := some []
    certifications := none
    contact := none
    leadership := none
    honors := none }

-- The canned long-form answers of getPatternResponse (source: responses dict).
def resp_resume_overview : String :=
  "Great question! Let me walk you through my journey. I'm **Marzook Mansoor** from Edmond, OK. I completed both my **Bachelor's in BBA-MIS** (2021-2025) and **Master's in Management Information Technology** (2023-2025) at the University of Oklahoma. Currently, I'm a **Business Architect Intern at Objectstream working with Pega** on digital transformation and enterprise automation. Before this, I was a **Business Analyst Intern at Love's Travel Stop** where I built analytics pipelines that cut reporting time by 21%, and did consumer insights work at **Beats by Dre** using AI for sentiment analysis. I also served as a **Graduate Assistant at OU** teaching SQL and database admin, and managed retail operations at EVM LLC early in my career. My technical skills span **Python, SQL, AI/ML (LLMs, RAG, LangChain), cloud platforms (AWS, Azure, GCP), Pega, UiPath, and BI tools**. I've built projects like this **Avatar Chat Portfolio** (3D AI chatbot), **ChibiTomo** (AI Pomodoro app), **Aesculapius AI** (local LLM assistant), and a **LinkedIn Sentiment Assistant** Chrome extension. I'm passionate about bridging technology and business value, especially in AI, automation, and digital transformation."

def resp_education_motivation : String :=
  "Excellent question! I pursued both degrees because I wanted a **complete foundation** - the Bachelor's gave me business fundamentals (strategy, finance, management) combined with IT systems thinking, while the Master's deepened my technical expertise in **AI, cloud computing, analytics programming, and business process automation**. The Bachelor's taught me *what* businesses need, and the Master's taught me *how* to build solutions. I also did them overlapping (started grad school in my senior year) because I was hungry to learn more and wanted to fast-track my technical depth. The combination makes me uniquely positioned - I can sit in C-suite meetings and discuss ROI and strategy, then turn around and architect the AI/cloud solution. Not many people bridge that gap effectively. Plus, working as a Graduate Assistant while earning my Master's reinforced my learning by teaching others. Best decision I ever made! ."

def resp_why_ou : String :=
  "University of Oklahoma was the perfect fit for me! **Academically**, the MIS program ranks in the top tier nationally with amazing professors who bring real industry experience. The **Price College of Business** has strong corporate relationships - that's how I landed internships at Love's, Objectstream, and the Beats by Dre externship. **Practically**, the cost-to-value ratio was unbeatable - I earned scholarships (Love's Scholar, OU MIS Department top 1/3) and made Dean's/President's Honor Roll 8 times, which made it financially sustainable. **Culturally**, I loved the collaborative environment - I got involved with Cousins Presidential Club, UI/UX Club, MIS Club, and Multicultural Business Program. **Location-wise**, Norman is close to OKC's growing tech scene but still has that college town energy. Plus, Boomer Sooner! 🎉 The combination of strong academics, industry connections, affordability, and community made OU the obvious choice. No regrets! ."

def resp_why_mis : String :=
  "I chose **Management Information Technology over pure Computer Science** because I wanted to solve business problems, not just write code. **MIS sits at the intersection** - we learn the technical depth (Python, SQL, cloud, AI) *plus* how to apply it strategically. Pure CS focuses on algorithms and theory; MIS focuses on **business value and ROI**. For example, in my Love's internship, success wasn't just \"build a pipeline\" - it was \"reduce reporting latency by 21% and drive decisions.\" That requires understanding stakeholder needs, change management, and business context. **MIS curriculum** combines data science, business process automation, cloud architecture, consulting methodologies, and IT strategy. **Career-wise**, MIS opens doors to roles like Business Analyst, IT Consultant, Business Architect, Product Manager - roles where you influence strategy *and* execution. I can talk to executives about digital transformation and then build the solution. That's way more impactful than being siloed in pure development. Plus, consulting firms love MIS grads! ."

def resp_business_tech_integration : String :=
  "This is my superpower! I integrate business and technical thinking **every single day**. At **Objectstream**, I translate business requirements into Pega automation workflows - that means understanding process inefficiencies (business) and designing scalable architecture (technical). At **Love's**, I didn't just query data - I understood *why* stakeholders needed faster reporting (business impact) and architected cloud pipelines (technical solution). At **Beats by Dre**, I combined consumer psychology (business) with AI sentiment analysis (technical). **In projects**, Avatar Chat Portfolio demonstrates this - it's not just \"cool 3D tech,\" it's a **business tool** for personal branding and networking. ChibiTomo solves productivity challenges (business need) with AI automation (technical execution). **My approach**: (1) Listen to business pain points, (2) Identify metrics that matter, (3) Design technical solutions that move those metrics, (4) Communicate value in business terms. I speak both languages fluently. That's rare and valuable! ."

def resp_digital_transformation : String :=
  "Based on my experiences, **digital transformation is fundamentally about using technology to reimagine how work gets done - not just automating old processes, but rethinking them entirely**. At **Objectstream with Pega**, we're not just digitizing manual forms - we're redesigning workflows so they're intelligent, adaptive, and scalable. At **Love's**, I didn't just move reports to the cloud - I automated data pipelines so analysts spend time on insights, not data gathering. **Three pillars I've learned**: (1) **People** - change management and adoption, (2) **Process** - redesigning workflows for digital-first thinking, (3) **Technology** - AI, cloud, automation as enablers. **It's not about tech for tech's sake** - it's about business outcomes: faster decisions, better customer experience, operational efficiency, new revenue streams. The companies that win are those who use technology to **compete differently**, not just compete better. That's what excites me - helping organizations make that leap."

def resp_passion_origin : String :=
  "Great question! My passion for digital transformation sparked from **seeing inefficiency everywhere and knowing technology could fix it**. Early in my career at EVM (retail management), I saw teams drowning in manual processes - spreadsheets, paperwork, disconnected systems. I thought, \"There has to be a better way.\" That's when I went back to school for my degrees. **The \"aha moment\"** came at Love's when my automation cut reporting time by 21% - I saw analysts' faces light up because they could finally do *analysis* instead of data wrangling. That's when I realized: **technology isn't about the tech, it's about giving people their time back to do meaningful work**. Then in my MIS courses, I learned about enterprise architecture, cloud, AI - and saw how these tools could transform entire organizations. Working with Pega now, I see digital transformation at scale. **Personal motivation**: My parents sacrificed everything to give me opportunities. I want to honor that by building solutions that genuinely help people and organizations thrive. That's what drives me every day."

def resp_career_vision : String :=
  "My **long-term vision** is to become a **Digital Transformation Architect** or **AI Strategy Consultant** - someone who helps organizations reimagine their business models using AI and cloud technologies. **5-year horizon**: I see myself in a consulting role (Big 4, boutique firm, or tech company) leading digital transformation engagements, designing AI/cloud architectures, and advising C-suite on technology strategy. **10-year horizon**: I want to bridge leadership and deep technical expertise - think **Principal Architect or Practice Lead** who can win client deals *and* architect solutions. **Ultimate goal**: Maybe entrepreneurship - building AI-powered SaaS products that solve real business problems at scale. **Why this path?** I love the variety, intellectual challenge, and business impact of consulting. I'm energized by new problems, different industries, and the \"blank canvas\" of transformation projects. **I don't want to be pigeonholed** as just a coder or just a manager - I want to be the person who can envision the solution, sell it, architect it, and lead the team. That requires continuous learning and staying at the intersection of business and technology."

def resp_most_impactful : String :=
  "The experience that shaped me most was honestly **my time at Love's Travel Stop**. Here's why: (1) **Real stakes** - My analytics directly impacted business decisions for a Fortune 150 company. When I cut reporting latency by 21%, that freed up analysts to find insights that saved real money. (2) **End-to-end ownership** - I went from understanding business requirements, to designing pipelines, to deploying dashboards, to presenting findings. That full-cycle experience taught me *how work actually gets done*. (3) **Cross-functional collaboration** - I worked with analysts, IT, business stakeholders - learned how to communicate technical concepts to non-technical people. (4) **Confidence boost** - Seeing my automation actually work and hearing \"this changed how we operate\" made me realize I can create real value. **Before Love's**, I had academic knowledge and small projects. **After Love's**, I had proof I could deliver in a professional environment under constraints. That internship validated my career pivot from retail to tech. It also taught me humility - enterprise systems are complex, stakeholder needs are nuanced, and \"good enough shipped\" beats \"perfect never launched.\" Huge growth experience! ."

def resp_objectstream_role : String :=
  "At **Objectstream as a Business Architect Intern with Pega**, my role is fascinating! **What I do**: I contribute to digital transformation initiatives by designing and supporting cloud-integrated business architecture solutions for enterprise clients. **Specifically**: (1) **Process Analysis** - I map current-state workflows, identify bottlenecks and inefficiencies, then design future-state automated processes using Pega. (2) **Architecture Design** - I create solution architectures that align with consulting best practices - scalability, security, integration patterns. (3) **Agile Collaboration** - I work in sprints with developers, business analysts, and project managers to deliver solutions iteratively. (4) **Client Engagement** - I participate in requirement gathering, design reviews, and demos. **Skills I use**: Critical thinking, communication, problem-solving, Pega platform knowledge, cloud integration concepts. **What I've learned**: Enterprise architecture is about trade-offs - speed vs. scalability, customization vs. standardization, cost vs. capability. Working in consulting teaches you to think like a business owner, not just a technologist. **Coolest part**: Seeing a manual 20-step approval process become a 2-click intelligent workflow. That's transformation! ."

def resp_beats_insights : String :=
  "The **Beats by Dre externship** was incredible! As a **Qualitative & Quantitative Insights Extern**, I explored how leading brands leverage consumer insights to guide strategy and innovation. **What I did**: (1) **Sentiment Analysis** - Used Python and AI tools (NLP libraries, sentiment models) to analyze consumer feedback from reviews, social media, and surveys. Uncovered patterns in what drives brand loyalty and emotional connection. (2) **Trend Identification** - Synthesized qualitative themes (why people love/hate features) with quantitative data (ratings, purchase behavior) to identify actionable insights. (3) **Storytelling** - Presented findings in compelling narratives that connected consumer emotions to business recommendations. **Key insight I discovered**: For Beats, it's not just about sound quality (table stakes) - it's about **identity and self-expression**. People buy Beats because they want to feel connected to music culture and make a statement. That emotional driver shapes everything from product design to marketing. **Skills gained**: Consumer psychology, data analytics, business strategy, presentation skills. **AI tools I used**: Python (pandas, nltk, transformers), sentiment analysis models, visualization libraries. This externship taught me how data becomes decisions in world-class brands. Fascinating work! ."

def resp_loves_analytics : String :=
  "Love's was such a defining experience! Let me break down that **21% reporting latency reduction** project: **The Problem**: Analytics team spent 60-70% of their time pulling data from multiple sources, cleaning it, and formatting reports. By the time reports reached decision-makers, data was often outdated. **My Solution**: I built **automated cloud-based reporting pipelines** using Python and SQL: (1) **Data Extraction** - Wrote Python scripts to pull data from various databases and APIs automatically on a schedule, (2) **Transformation** - Cleaned, validated, and aggregated data using pandas and SQL queries, (3) **Cloud Integration** - Deployed pipelines to cloud infrastructure for scalability and reliability, (4) **Dashboard Automation** - Connected processed data directly to Power BI and Tableau dashboards with real-time refresh. **The Impact**: Reporting time dropped from ~8 hours to ~6.5 hours (21% reduction). Analysts could focus on *analysis* instead of *data wrangling*. Stakeholders got fresher insights. **Biggest challenge**: Data quality and schema differences across systems - had to build robust error handling and validation. **What I learned**: Real-world data is messy, stakeholder communication is critical, and measuring business impact (not just technical success) is what matters. Proud of this one! ."

def resp_teaching_role : String :=
  "Being a **Graduate Assistant for Business Analysis & Database Admin** was incredibly rewarding! **My responsibilities**: (1) **Teaching Support** - Helped teach SQL, statistics, and dashboard development using PostgreSQL, Tableau, and Power BI. Held office hours, graded assignments, clarified concepts. (2) **Lab Design** - Created datasets and exercises simulating real-world business problems - supply chain analytics, financial reporting, customer segmentation. Made learning practical, not just theory. (3) **Database Management** - Maintained and optimized academic SQL Server databases for performance and reporting accuracy. Wrote complex queries, tuned indexes, ensured data integrity. **What students struggled with most**: (1) SQL joins - understanding inner vs outer vs cross joins, (2) Translating business questions into SQL queries, (3) Dashboard design principles - what makes a visualization effective vs cluttered. **How teaching helped me**: Explaining concepts forced me to understand them deeply. If you can't teach it simply, you don't truly understand it. Also strengthened my communication, patience, and leadership skills. **Most rewarding moment**: When a student who struggled initially sent me an email saying they got an analytics internship and thanked me for making SQL click. That feeling! ."

def resp_retail_experience : String :=
  "**Managing retail at EVM LLC** (2018-2022) was my first real leadership experience, and it shaped me more than you'd think! **Responsibilities**: (1) Day-to-day operations - supervising sales associates, opening/closing, inventory management, (2) Financial oversight - budgeting, revenue forecasting, P&L analysis, cost control, (3) Store modernization - integrated digital tools for inventory tracking, sales analytics, and process automation, (4) Team development - hired, trained, and mentored staff on customer service excellence and technology adoption. **Key lessons**: (1) **People management is hard** - balancing empathy with accountability, handling conflicts, motivating diverse personalities, (2) **Data-driven decisions** - even in retail, we used sales data to optimize inventory, staffing, and promotions, (3) **Technology adoption** - led digital transformation on a small scale - point-of-sale systems, inventory software, analytics dashboards. **How it prepared me for IT**: Running a store teaches you to **think like a business owner** - ROI, efficiency, customer experience, operational excellence. When I transitioned to tech, I already understood business context. I don't just build solutions - I build solutions that drive business value. That retail foundation makes me a better consultant! ."

def resp_avatar_inspiration : String :=
  "This **Avatar Chat Portfolio** project came from a simple frustration: **traditional resumes and portfolios are boring and passive**! I wanted to create something memorable, interactive, and showcase my technical skills simultaneously. **The inspiration**: I saw AI chatbots everywhere, but they were generic. I thought, \"What if visitors could have a conversation with *me* (or a digital version of me) that knows my entire background?\" Combine that with **3D avatars** (cool factor), **RAG technology** (contextual answers), and **modern web development** (React, Three.js), and you get this experience. **Goals**: (1) Stand out from other candidates - hiring managers see hundreds of resumes, (2) Demonstrate full-stack skills - AI integration, 3D graphics, responsive design, (3) Make networking more engaging - instead of reading a static resume, people can ask questions naturally. **Tech highlights**: Google Gemini 1.5 Flash for conversational AI, RAG for context, ReadyPlayer.me for the avatar, Three.js for 3D rendering, React 18 + TypeScript + Vite for performance. **Reception**: People love it! It's sparked amazing conversations in networking events. Best portfolio decision ever! ."

def resp_chibitomo_purpose : String :=
  "**ChibiTomo solves a problem I personally experienced**: productivity tools are either too simple (basic timers) or too complex (project management overkill). I wanted something in between - a **Pomodoro companion that feels like a friend, not just a tool**. **Specific problems it solves**: (1) **Focus** - Uses Pomodoro technique (25 min work, 5 min break) to maintain concentration without burnout, (2) **Motivation** - AI-powered encouragement and contextual suggestions during breaks, (3) **Automation** - Integrates with system to auto-block distractions during focus sessions, (4) **Tracking** - Logs productivity patterns to help identify peak performance times. **Why desktop app?** I wanted something always accessible without browser tabs or internet dependency. **Tech stack**: Python (core logic), PySide6 (modern Qt UI), PyInstaller (standalone distribution), local AI models (contextual responses). **Feedback I've received**: Users love the personality - it's not robotic, it feels encouraging. Some want mobile versions (future feature!). **Business value**: Companies could use it for team productivity, remote work monitoring, or wellness programs. **What I learned**: UX design is hard - balancing features with simplicity, making AI feel natural not intrusive, desktop distribution challenges. Super proud of this project! ."

def resp_aesculapius_privacy : String :=
  "**Privacy was the core philosophy** behind Aesculapius AI. Here's why: I noticed that **every AI assistant requires internet, sends your data to cloud servers, and you have no idea what happens with it**. For household repairs or personal troubleshooting, people often describe problems that reveal information about their home, location, routines - sensitive stuff! **My solution**: Build an **entirely local LLM application** - all inference happens on your machine, no data ever leaves your device, no internet required after initial model download. **How it works**: (1) **Local LLM** - Uses Phi-3.5-mini (Microsoft's small but powerful model) running via llama-cpp, (2) **RAG Architecture** - Maintains a local vector database of repair manuals, troubleshooting guides, and parts catalogs, (3) **Contextual Memory** - Remembers your previous questions within a session (still local), (4) **API Integration** - Optionally queries parts databases or service providers (user controlled). **Benefits**: (1) Complete privacy and data ownership, (2) Works offline, (3) Faster inference (no network latency), (4) Free (no API costs). **Trade-offs**: Requires decent hardware, slightly less capable than GPT-4, more setup than cloud solutions. **Philosophy**: Privacy shouldn't be a premium feature - it should be the default. Users should own their data and their AI interactions. This project proves local AI is viable for real use cases! ."

def resp_linkedin_motivation : String :=
  "The **LinkedIn Sentiment Assistant** came from pure frustration: **manually engaging on LinkedIn is tedious, time-consuming, and you miss opportunities**! As someone building a professional brand, I wanted to engage authentically with my network, but reading every post, deciding what to comment, and crafting thoughtful responses took hours. **The idea**: What if AI could *assist* (not replace) me by: (1) **Analyzing sentiment** - Identify posts that align with my interests or need support, (2) **Smart automation** - Surface posts worth engaging with, suggest relevant comments, (3) **Toxicity filtering** - Avoid controversial or inappropriate content. **How it works**: Chrome extension that adds a layer to LinkedIn - analyzes posts in real-time using sentiment analysis models, provides engagement suggestions, has adaptive selectors that work even as LinkedIn updates their UI. **Value proposition**: Save time, engage more meaningfully, build network strategically. **Ethical considerations**: I'm very careful - it's an *assistant*, not a bot. Users review suggestions before posting. It enhances human interaction, doesn't fake it. **Technical challenges**: Chrome API limitations, LinkedIn's DOM complexity, real-time sentiment inference without slowing browsing, privacy (all analysis happens locally). **Reception**: Fellow students and professionals find it super useful for efficient networking! Future version could expand to Twitter, Reddit, etc."

def resp_cloud_preference : String :=
  "Great technical question! I actually **prefer AWS, but I'm platform-agnostic** - each cloud has strengths. **Why AWS**: (1) **Maturity & breadth** - Most comprehensive service catalog, battle-tested at scale, (2) **Community & resources** - Best documentation, largest community, easier to find solutions, (3) **Career value** - Most in-demand certification and skill, (4) **Analytics/AI services** - SageMaker, Lambda, Redshift, Athena - powerful for my use cases. **But**: **Azure wins for enterprise integration** (seamless with Microsoft ecosystem), **GCP wins for ML/AI** (TensorFlow, BigQuery, Vertex AI) and pricing. **My approach**: Choose based on use case - AWS for general workloads, Azure for enterprise clients using Microsoft stacks, GCP for data science projects. **In practice at Love's**: We used multi-cloud (AWS for pipelines, Azure for BI integration). At Objectstream, we design cloud-agnostic architectures. **Certifications I'm pursuing**: AWS Cloud Practitioner → Solutions Architect, then Azure Fundamentals and GCP Digital Leader. **Philosophy**: Don't be dogmatic about cloud platforms - understand all three, master the concepts (IaaS, PaaS, serverless, containers), then adapt to client needs."

def resp_sql_proficiency : String :=
  "SQL is one of my strongest skills! Let me break down my proficiency: **Joins**: Master all types - INNER (matching records), LEFT/RIGHT (preserve one side), FULL OUTER (preserve both), CROSS (cartesian product). I understand join performance implications (indexed columns, join order optimization) and when to use subqueries vs joins. **Window Functions**: Use extensively - ROW_NUMBER, RANK, DENSE_RANK for ranking, LAG/LEAD for time-series analysis, PARTITION BY for group calculations without GROUP BY, running totals with SUM() OVER(). These are game-changers for analytics! **CTEs (Common Table Expressions)**: Love them for readability and complex queries. Use WITH clauses to break logic into steps, recursive CTEs for hierarchical data. **Advanced concepts I use**: (1) Query optimization - EXPLAIN plans, index strategies, (2) Aggregate functions with HAVING, (3) CASE statements for conditional logic, (4) Temp tables vs CTEs vs subqueries - knowing when to use each, (5) Transaction management and data integrity. **Real-world application**: At Love's, wrote complex queries joining 5+ tables, using window functions for trend analysis, CTEs for multi-step transformations. As Graduate Assistant, taught these concepts - can explain simply! **Philosophy**: SQL is where business logic meets data - write queries that are correct, performant, AND readable."

def resp_debugging_approach : String :=
  "My **debugging process for Python** is systematic: (1) **Reproduce consistently** - Understand exact steps to trigger the error, (2) **Read the error message carefully** - Stack trace tells you *where* and often *why*, (3) **Print debugging** - Strategic print statements to verify variable values and execution flow, (4) **Binary search** - Comment out half the code, narrow down problem area, (5) **Rubber duck method** - Explain the code out loud, often spotting the issue. **Tools I use**: (1) **Python debugger (pdb)** - Set breakpoints, step through code, inspect variables, (2) **Logging module** - Better than print for production code, (3) **Type hints + mypy** - Catch type errors before runtime, (4) **Unit tests** - Isolate and test individual functions, (5) **VS Code debugger** - Visual breakpoints and watch variables. **Common pitfalls I check**: (1) Variable scope issues, (2) Mutable default arguments, (3) Reference vs copy problems, (4) Off-by-one errors in loops, (5) None checks and exception handling. **Advanced techniques**: Memory profilers for performance, logging levels for different environments, assertion statements for sanity checks. **Philosophy**: Good debugging is about hypothesis testing - form a theory about what's wrong, test it, repeat. 80% of bugs are simple logic errors if you slow down and read carefully! ."

def resp_ai_library_preference : String :=
  "Tough choice, but here's my take: **For production systems: LangChain** - It's built for orchestration, chain-of-thought, and integration. Great for RAG architectures (like this Avatar Chat!), agent workflows, and connecting LLMs to external tools. Better abstractions for complex AI systems. **For research and fine-tuning: Hugging Face** - Unmatched model hub, best for custom models, fine-tuning pre-trained models, and staying on cutting edge. Transformers library is incredible. Better for going deep on specific models. **My typical usage**: (1) Prototyping - Hugging Face to test different models quickly, (2) Production - LangChain for orchestration + Hugging Face models as the engine, (3) RAG systems - LangChain (retrieval chains) + Hugging Face embeddings. **Example**: In Aesculapius AI, I use llama-cpp for inference (lightweight), but design follows LangChain patterns. In Avatar Chat, LangChain orchestrates the RAG pipeline with Gemini. **Other tools I use**: OpenAI API (for quick prototypes), LlamaIndex (alternative to LangChain, lighter weight), TensorFlow (when building custom models). **Philosophy**: Don't be dogmatic - use the right tool for the job. LangChain for systems, Hugging Face for models, both together for maximum power."

def resp_leadership_club : String :=
  "Being **Events Chair for Cousins Presidential Club** was a fantastic leadership experience! **My role**: Plan and execute social, professional, and service events for 100+ members. **Specific responsibilities**: (1) Event ideation - networking mixers, tech workshops, community service projects, (2) Logistics - venues, catering, speakers, registration, budgets, (3) Marketing - promotion, sign-ups, attendance tracking, (4) Collaboration - worked with other officers, faculty advisors, external partners. **Key events I led**: (1) **Tech Career Panel** - Brought in alumni from Google, Microsoft, and startups to discuss career paths (100+ attendees), (2) **Hackathon Workshop** - Taught React and API integration to members, (3) **Community Service** - Organized food drive and volunteering at local tech non-profit. **Leadership lessons**: (1) **Delegation is key** - Can't do everything yourself, empower team members, (2) **Flexibility matters** - Plans change, venues cancel, speakers drop out - stay calm and adapt, (3) **Inclusive planning** - Consider diverse interests and schedules, make events accessible, (4) **Follow-through** - Ideas are easy, execution is hard - details matter. **Skills gained**: Public speaking, project management, budgeting, stakeholder communication, event logistics. **Impact**: Membership engagement increased 40% during my term! Proud of building community."

def resp_time_management : String :=
  "**Balancing academics, internships, projects, and extracurriculars** required serious discipline! Here's my system: (1) **Prioritization Matrix** - Urgent vs Important. Focus on Important-Not-Urgent (learning, projects, networking) before they become urgent. (2) **Time Blocking** - Dedicated blocks for classes, work, projects, gym, sleep. Treat commitments like appointments. (3) **80/20 Rule** - Focus on high-impact activities. Not everything needs perfection - some tasks need \"good enough.\" (4) **Say No Strategically** - Can't do everything. Decline opportunities that don't align with goals. (5) **Batch Similar Tasks** - All coding in one block, all meetings in another - reduces context switching. (6) **Use Dead Time** - Listen to podcasts during commutes, review flashcards between classes. **Tools I use**: Google Calendar (everything goes in), Notion (task management), ChibiTomo (focus sessions!), timers for deep work. **Real example**: During my Master's + Love's internship + Graduate Assistant + Objectstream - I had classes 3 days/week, internships on specific days, GA work 10hrs/week, projects on weekends. Strict schedule but flexible within blocks. **Key insight**: Energy management > time management. I protect sleep, exercise, and mental health because they multiply productivity. **Philosophy**: You have time for what you prioritize. If it matters, you'll make time."

def resp_team_motivation : String :=
  "**Motivating teams is about understanding individual drivers and creating shared purpose**. Here's my approach: (1) **Know your people** - Some are motivated by recognition, others by growth, others by autonomy. Ask what matters to them. (2) **Clear vision** - People want to know *why* their work matters, not just *what* to do. Connect tasks to bigger impact. (3) **Celebrate wins** - Acknowledge progress publicly, give credit generously. Small wins build momentum. (4) **Remove blockers** - Nothing demotivates like bureaucracy or obstacles. Clear the path so team can focus on value work. (5) **Lead by example** - Work hard, stay positive, admit mistakes, ask for help. Vulnerability builds trust. **Real examples**: (1) **At EVM** - I implemented \"Employee of the Month\" based on peer nominations, gave team ownership of merchandising decisions, celebrated sales milestones with team lunches. Turnover dropped significantly. (2) **In student clubs** - Recognized volunteers publicly, showed how events impacted members, made planning inclusive and fun. (3) **As Graduate Assistant** - Celebrated student breakthroughs, shared success stories, made office hours welcoming and judgment-free. **Under pressure**: Stay calm, communicate transparently, break big goals into small wins, provide support and resources. Pressure is when leadership matters most. **Philosophy**: Motivation is internal, but leaders create the environment where it thrives."

def resp_work_culture : String :=
  "Culture that motivates me has **four pillars**: (1) **Learning & Growth** - I want to work where I'm constantly challenged, where senior people mentor me, where I can make mistakes and learn. Stagnation kills my motivation. (2) **Impact & Ownership** - I need to see how my work drives business value. I thrive when given autonomy and accountability - tell me the goal, trust me to figure out how. (3) **Collaboration & Respect** - I love cross-functional teams where diverse perspectives are valued. No ego, no politics - just smart people solving hard problems together. (4) **Innovation & Experimentation** - I want to work where new ideas are encouraged, where \"let's try it\" beats \"we've always done it this way.\" **Red flags for me**: (1) Micromanagement, (2) Blame culture, (3) No work-life balance, (4) Slow bureaucracy with no urgency. **Companies I admire**: Amazon (bias for action), Google (innovation time), Accenture/Deloitte (diverse projects), startups (fast-paced ownership). **Why**: They combine high standards with growth opportunities. **In practice**: I loved Love's culture (supportive, growth-focused), Objectstream's consulting environment (client-driven, fast-paced), OU's collaborative academic environment. **Philosophy**: Culture eats strategy for breakfast. I'd rather work for a great team with a mediocre product than a bad team with a great product."

def resp_handling_failure : String :=
  "I handle failure and criticism through **four steps**: (1) **Pause & Process** - When I receive criticism, I take a breath. Initial reaction is often defensive - I let that pass before responding. (2) **Seek to Understand** - I ask clarifying questions: \"Can you give me a specific example?\" \"What would success look like?\" Criticism is vague, feedback is specific. (3) **Find the Truth** - Even harsh criticism usually has a kernel of truth. I separate the message from the delivery and identify what I can learn. (4) **Action Plan** - I decide what I will change. **Real examples**: (1) **At Love's internship**, my dashboard was criticized as \"too cluttered.\" Initial reaction: defensive (\"I worked hard on this!\"). After processing: They were right - I prioritized showcasing skills over user experience. **Lesson**: Good design serves users, not ego. I redesigned for clarity, stakeholders loved it. (2) **As Graduate Assistant**, student complained my explanations were \"too fast.\" Gut reaction: frustration. Reflection: I'm comfortable with SQL, they're learning. **Lesson**: Teaching requires meeting people where they are. I slowed down, used more examples, got better reviews. **Philosophy**: Criticism is a gift if you unwrap it right. Failure is data - what did I learn, what will I do differently? Ego is the enemy of growth. I'd rather be humble and improving than proud and stagnant."

def resp_why_hire : String :=
  "You should hire me because I bring a **rare combination of technical depth, business acumen, and execution ability** that delivers immediate value: **1. Technical Skills**: I'm not just theoretical - I've built production systems. From AI-powered applications (Avatar Chat, ChibiTomo, Aesculapius AI) to enterprise analytics pipelines (Love's 21% efficiency gain) to automation workflows (Pega at Objectstream). I code in Python, SQL, JavaScript; work across AWS, Azure, GCP; implement LLMs, RAG, and ML models; build dashboards in Tableau and Power BI. **2. Business Value**: I don't just build tech - I drive outcomes. Reduced reporting time 21%, automated enterprise workflows, synthesized consumer insights at Beats. I understand ROI, stakeholder management, and translating technical solutions into business language. **3. Fast Learner**: Master's + Bachelor's simultaneously, while working 3 internships, building 4 major projects, and teaching as GA. I learn fast and apply immediately. **4. Cultural Fit**: I'm curious, collaborative, humble, and driven. I ask great questions, take feedback well, work across teams, and bring positive energy. **5. Passion**: This isn't just a job for me - I genuinely love solving problems with technology. I'll bring that enthusiasm every day. **Bottom line**: You're not just hiring someone who can do the job - you're hiring someone who will exceed expectations, grow fast, and make your team better. I'm ready to prove it."

def resp_learning_from_mistakes : String :=
  "One of my biggest early mistakes: **Over-engineering solutions instead of solving problems**. **The situation**: In an early project (before Love's), I was building an analytics dashboard. I got excited about the tech - \"Let's use microservices! Docker! Kubernetes! GraphQL!\" The result? Weeks of work on architecture, minimal business value delivered. **The wake-up call**: My mentor asked, \"Does this solve the user's problem faster than a simple Python script and Tableau?\" I realized: **I was building for my resume, not for the user**. **What I learned**: (1) **Start with the problem, not the solution** - Understand pain points deeply before designing, (2) **Simplest solution that works wins** - You can always add complexity later if needed, (3) **Iterate with users** - Get feedback early and often, don't disappear for weeks, (4) **Technology is a means, not the end** - Users don't care about your tech stack, they care about their problem being solved. **How it changed me**: At Love's, I could have built a complex data platform, but stakeholders just needed faster reports. I automated with simple Python scripts - took 2 weeks, delivered immediate value. At Objectstream, I focus on business outcomes first, architecture second. **Philosophy**: The best engineers balance technical excellence with pragmatism. Perfect is the enemy of done. Shipping beats architecture astronautics. That mistake made me a better consultant! ."

def resp_tech_ethics : String :=
  "**Ethical technology use is critical, especially with AI**. My principles: (1) **Privacy by Design** - See Aesculapius AI - I built it entirely local because household data is sensitive. Users should control their data, period. Default should be privacy, not surveillance. (2) **Transparency & Explainability** - AI decisions that impact people (hiring, lending, healthcare) must be explainable. Black boxes are dangerous. I always document model logic and limitations. (3) **Bias Awareness** - AI models inherit biases from training data. I actively test for bias (gender, race, age), use diverse datasets, and question assumptions. At Beats, analyzing sentiment meant understanding cultural context. (4) **Human-in-the-Loop** - AI should augment humans, not replace judgment. My LinkedIn Assistant suggests, humans decide. Critical decisions need human oversight. (5) **Informed Consent** - Users should know when they're interacting with AI, how their data is used, and be able to opt out. No deceptive practices. **Real example**: In ChibiTomo, I could have collected user productivity data (valuable!), but didn't - privacy matters more than data monetization. **Philosophy**: Just because we *can* build something doesn't mean we *should*. As technologists, we have responsibility to consider societal impact. I want to build AI that empowers people, respects autonomy, and makes society better - not just profitable."

def resp_hobbies : String :=
  "Great question! Outside of work and tech, I'm pretty well-rounded. I **love cats** 🐱 - in fact, I once 3D-printed a medical device to help my cat's injured tail (combining my love for animals with problem-solving!). I'm into **fitness** - staying active keeps my mind sharp for coding marathons. I'm a **foodie** - especially love Mexican and Thai cuisine. I also enjoy **cars** - there's something about the engineering and design that fascinates me. I volunteer when I can and stay involved in community activities. **Learning** is honestly a hobby too - whether it's exploring new AI frameworks, reading about business strategy, or just understanding how things work. I'm also big on **family time** - my parents sacrificed everything to give me opportunities, so I cherish time with them. Balance is important to me - tech is my passion, but life is about more than code."

def resp_contact : String :=
  "I'd love to connect! Here's how to reach me:\n\n📧 **Email:** marzook.mansoor@outlook.com\n📱 **Phone:** (405) 588-9434\n💼 **LinkedIn:** linkedin.com/in/marzook-mansoor\n💻 **GitHub:** github.com/zzthecoder\n\nFeel free to reach out about opportunities, collaborations, technical discussions, or just to say hi! I'm always open to chatting about AI, digital transformation, cloud architecture, or any interesting tech challenges."

def patternResponses : List (String × String) := [
  ("resume_overview", resp_resume_overview),
  ("education_motivation", resp_education_motivation),
  ("why_ou", resp_why_ou),
  ("why_mis", resp_why_mis),
  ("business_tech_integration", resp_business_tech_integration),
  ("digital_transformation", resp_digital_transformation),
  ("passion_origin", resp_passion_origin),
  ("career_vision", resp_career_vision),
  ("most_impactful", resp_most_impactful),
  ("objectstream_role", resp_objectstream_role),
  ("beats_insights", resp_beats_insights),
  ("loves_analytics", resp_loves_analytics),
  ("teaching_role", resp_teaching_role),
  ("retail_experience", resp_retail_experience),
  ("avatar_inspiration", resp_avatar_inspiration),
  ("chibitomo_purpose", resp_chibitomo_purpose),
  ("aesculapius_privacy", resp_aesculapius_privacy),
  ("linkedin_motivation", resp_linkedin_motivation),
  ("cloud_preference", resp_cloud_preference),
  ("sql_proficiency", resp_sql_proficiency),
  ("debugging_approach", resp_debugging_approach),
  ("ai_library_preference", resp_ai_library_preference),
  ("leadership_club", resp_leadership_club),
  ("time_management", resp_time_management),
  ("team_motivation", resp_team_motivation),
  ("work_culture", resp_work_culture),
  ("handling_failure", resp_handling_failure),
  ("why_hire", resp_why_hire),
  ("learning_from_mistakes", resp_learning_from_mistakes),
  ("tech_ethics", resp_tech_ethics),
  ("hobbies", resp_hobbies),
  ("contact", resp_contact)
]

def projectResponseStr : String :=
  "I've built some exciting projects! **Avatar Chat Portfolio** (you're in it!) - an interactive 3D portfolio with an AI avatar using RAG and Gemini 1.5 Flash. **ChibiTomo** - AI-powered desktop Pomodoro companion with Python and PySide6. **Aesculapius AI** - privacy-first household repair assistant using local LLMs with RAG (no internet needed!). **LinkedIn Sentiment Assistant** - Chrome extension with AI sentiment analysis for smarter LinkedIn engagement. Plus capstone projects at OU involving ML models, UiPath bots, and cloud dashboards. Each one taught me something about building solutions people actually want to use."

def followUpProjectsStr : String :=
  "Absolutely! So beyond the projects I mentioned, I also worked on capstone projects at OU - ML models for delivery prediction and SLA compliance, UiPath automation bots, and cloud-based dashboards integrated with SharePoint and Power Apps. Each project taught me something about the full development lifecycle - from ideation to deployment. I especially enjoyed the challenge of making complex tech actually usable for real people."

def projectsDetailedStr : String :=
  "Let me dive deeper into my projects! **Avatar Chat Portfolio** (what you're using now!) is my flagship - an interactive 3D experience using React, TypeScript, Three.js, Google Gemini 1.5 Flash, and RAG. You're chatting with an AI-powered avatar trained on my resume data. **ChibiTomo** is an AI-powered desktop Pomodoro companion built with Python and PySide6 - it combines productivity tracking with AI and automation, packaged as a standalone Windows app with PyInstaller. **Aesculapius AI** is privacy-first household repair assistant using Phi-3.5-mini (local LLM) with RAG architecture for personalized troubleshooting - no data leaves your machine. My **LinkedIn Sentiment Assistant** is a Chrome extension with AI-based sentiment analysis and smart automation for LinkedIn engagement. Each solves a real problem I experienced."

def lovesStr : String :=
  "Love's Travel Stop was amazing! As a Business Analyst Intern (May-Aug 2025), I developed predictive analytics and reporting pipelines that supported data-driven decisions across the organization. My proudest achievement was automating cloud-based workflows with Python and SQL that reduced reporting latency by 21% - that's real time saved for the analytics team. I also built interactive Power BI and Tableau dashboards that made complex data actually actionable for stakeholders. Working there taught me how to bridge technical innovation with business impact."

def pegaStr : String :=
  "I'm currently a Business Architect Intern at Objectstream working with Pega (Sept-Dec 2025)! I'm contributing to digital transformation initiatives that automate and optimize enterprise workflows - think replacing manual 20-step processes with intelligent automation. I design cloud-integrated business architecture solutions using consulting best practices, and work in Agile teams to deliver scalable process improvements. Pega is fascinating because it's not just coding - it's understanding business logic and translating that into automated workflows. The consulting aspect taught me so much about communication and problem-solving."

def expGeneralStr : String :=
  "I've had some incredible experiences! Right now I'm wrapping up my Master's in IT from OU while working as a **Business Architect Intern at Objectstream with Pega** (Sept-Dec 2025), focusing on digital transformation and enterprise workflow automation. Before that, I was a **Business Analyst Intern at Love's Travel Stop** (May-Aug 2025) where I built analytics pipelines that cut reporting time by 21%. I've also been a **Qualitative & Quantitative Insights Extern at Beats by Dre** (Sept-Dec 2025) doing consumer sentiment analysis with Python and AI, a **Graduate Assistant at OU** (May 2022-May 2025) teaching SQL and data viz, and an **Assistant Manager at EVM LLC** (2018-2022) managing retail operations before transitioning into tech. Each role taught me something about connecting technology with business value."

def aiSkillsStr : String :=
  "AI/ML is my sweet spot! I specialize in **LLMs, RAG systems, LangChain, Transformers, Hugging Face models, and TensorFlow**. I've built everything from local LLM applications (Aesculapius AI with Phi-3.5-mini) to cloud-based AI chatbots (like this avatar using Gemini 1.5 Flash). I'm passionate about RAG because it grounds AI responses in real data - no hallucinations. I also work with scikit-learn for traditional ML and understand the full pipeline from data prep to model deployment. The coolest part is seeing AI solve actual problems, not just demos."

def cloudSkillsStr : String :=
  "Cloud is where I thrive! I work across **AWS (pursuing Cloud Practitioner certification), Azure, and GCP**. I've architected cloud-integrated solutions, automated workflows in cloud environments, and built pipelines that process data at scale. At Love's, I automated cloud-based analytics workflows with Python that saved 21% reporting time. I understand cloud architecture patterns, cost optimization, and how to choose the right services for each use case. Planning to add Microsoft Fundamentals (MS-900) and Google Cloud Digital Leader certs next."

def skillsGeneralStr : String :=
  "I'm pretty versatile! **Core strengths:** Python, SQL, AI/ML (LLMs, RAG, LangChain, Transformers), cloud platforms (AWS, Azure, GCP), and full-stack development (React, TypeScript, PySide6). **Business tools:** Pega Systems, UiPath, Tableau, Power BI, Snowflake, Alteryx. **Consulting competencies:** Digital transformation, cloud architecture, automation, analytics, Agile methodologies. What I love most is connecting these skills to solve actual business problems - whether that's cutting reporting time by 21%, automating enterprise workflows, or building AI assistants that actually help people."

def eduStr : String :=
  "I just completed my **Master of Science in Management Information Technology** at the University of Oklahoma (Aug 2023-May 2025), and I also have my **Bachelor of Business Administration in Management Information Systems** from OU (Aug 2021-May 2025). The Master's program was intense but amazing - courses in Data Science & Analytics, Business Process Automation & AI, Cloud Computing, Analytics Programming with Python, Databases & BI. I also worked as a Graduate Assistant teaching SQL, statistics, and dashboard development, which really deepened my understanding. But honestly, some of my best learning came from building projects outside class and working internships. The combination of academic foundation + real-world experience is what makes me effective. Boomer Sooner! 🎉 ."

def aiStr : String :=
  "AI is my absolute passion! I'm particularly excited about **LLMs and RAG (Retrieval-Augmented Generation)** - which is exactly what powers this conversation right now. I've built projects like **Aesculapius AI** using Phi-3.5-mini (local LLM with RAG) for privacy-first household assistance, and this **Avatar Chat Portfolio** integrating Gemini 1.5 Flash with RAG so the avatar knows my resume inside-out. I work with **LangChain for orchestration, Hugging Face for models, Transformers for fine-tuning, TensorFlow for training**. What fascinates me most is making AI actually useful - not just impressive demos but solutions that solve real problems. Like using sentiment analysis at Beats by Dre to understand consumer feedback at scale. The future is context-aware AI that understands your needs."

def newsStr : String :=
  "That's a great question about current AI trends! Since I'm Marzook's portfolio chatbot focused on his background and experience, I can't give you real-time news updates. But I can tell you what **I'm** excited about and working on: **RAG systems** (like this conversation!), **local LLMs for privacy**, **AI-powered productivity tools**, and **practical business applications** of AI. I'm passionate about making AI actually useful, not just hyped."

def achievementsStr : String :=
  "I'm proud of a few things! 🎯 **Academically:** Completed my Master's while working full-time, earned the Love's Scholar award, received the OU MIS Department Scholarship (top 1/3), and made President's/Dean's Honor Roll 8 times. **Professionally:** Cut reporting latency by 21% at Love's through automation - that's real time saved. Built projects people actually use like ChibiTomo and Aesculapius AI. **Leadership:** Served as Events Chair for Cousins Presidential Club and UI/UX Club, managed the Edmond Soccer Club. But honestly, I'm most proud of my curiosity and drive - always wanting to learn more, push into new areas, and build things that matter. The journey is just getting started! ."

def personalStr : String :=
  "Thanks for asking! I was born in India and moved to Oklahoma when I was 8 - that experience really shaped how I see adaptability and the value of family sacrifice. My parents gave up everything to give me opportunities, and I want to honor that by making an impact. I'm passionate about AI because I genuinely believe it can solve real problems - not just hype, but practical tools that help people. Outside tech, I love cats 🐱, cars, Mexican and Thai food, fitness, and volunteering. I even 3D-printed a medical device to help my cat's injured tail! I'm also big into continuous learning - whether it's new frameworks, business strategies, or just understanding how things work. Family-oriented, curious, and always building something."

def consultingStr : String :=
  "Great question! My consulting experience comes from my work at **Objectstream with Pega** where I'm learning business architecture and digital transformation methodologies. I apply critical thinking, stakeholder communication, and problem-solving to design scalable process improvements. I collaborate in Agile teams, understand how to translate business requirements into technical solutions, and align technology with enterprise goals. My **Beats by Dre externship** also taught me about business strategy - how leading brands use consumer insights to guide decisions. I combine technical depth (Python, AI, cloud) with business acumen (process optimization, analytics, strategy) - that's what makes me effective. I don't just build tech; I build solutions that drive business value."

def whyStr : String :=
  "Great philosophical question! Why do I do this? **Honestly:** I'm driven by the idea that technology should make life genuinely better, not just more complicated. I saw my parents sacrifice everything to give me opportunities, so I want to build things that create value and help people. **Technically:** I'm fascinated by the intersection of AI and real-world problems - that sweet spot where smart algorithms meet actual human needs. Every project I build solves a problem I've experienced or seen others struggle with. **Practically:** I love the moment when someone uses something I built and says \"this actually helps!\" That's the validation. It's not about fancy tech for tech's sake - it's about impact."


/-! ### Section extraction (`extractRelevantInfo`) -/

structure Section where
  content : String
  score : ℚ
  type : String
deriving DecidableEq, Repr

def joinComma (l : List String) : String := String.intercalate ", " l

def patGreetExtract : RE :=
  reAlts ["hi", "hey", "hello", "howdy", "who are you", "tell me about yourself", "about you"]

def containsAnyS (l : List Char) (pats : List String) : Bool :=
  pats.any (fun p => containsSub l p.data)

/-- The first skill category whose name occurs in the query and whose skill
list is non-empty (`bestCategory`/`bestMatch` loop, which breaks on the first
hit). -/
def findBestCategory (ql : List Char) :
    List (String × List String) → Option (String × String)
  | [] => none
  | (nm, sk) :: rest =>
    if !sk.isEmpty && containsSub ql nm.data then some (nm, joinComma sk)
    else findBestCategory ql rest

def toUpperS (s : String) : String := ⟨s.data.map Char.toUpper⟩

/-- `resume.contact?.email || 'marzook.mansoor@outlook.com'` (`||`, so an
empty string also falls back). -/
def contactEmail (resume : ResumeData) : String :=
  let e := ((resume.contact.map (fun c => c.email)).join).getD ""
  if e == "" then "marzook.mansoor@outlook.com" else e

/-- The greeting identity block of `extractRelevantInfo`. -/
def greetingInfoBlock (resume : ResumeData) : String :=
  "Name: " ++ resume.name ++ "\n" ++ "Location: " ++ resume.location ++ "\n"
    ++ "Contact: " ++ contactEmail resume ++ " | (405) 588-9434\n"
    ++ "Bio: " ++ resume.bio ++ "\n"
    ++ "Professional Summary: " ++ resume.professional_summary ++ "\n"

def extractProjCond (intents : List String) (ql : List Char) : Bool :=
  intents.contains "projects" || containsSub ql "project".data || containsSub ql "built".data

/-- Projects sections: score every project; if no project qualifies, fall
back to the first three (the source's `sections.length === 0` check sees only
project entries because this branch runs first). -/
def projSections (resume : ResumeData) (query : String) (ql : List Char) : List Section :=
  match resume.projects with
  | some ps =>
    let scored := ps.filterMap (fun p =>
      let score := calculateAdvancedSimilarity query (p.name ++ " " ++ p.description) (3 / 2)
      if score > 3 / 10 || containsSub ql (toLowerS p.name).data then
        some ⟨"PROJECT: " ++ p.name ++ "\n" ++ p.description ++ "\n"
          ++ p.technologies.getD "" ++ "\n" ++ p.link.getD "", score, "project"⟩
      else none)
    if scored.isEmpty && !ps.isEmpty then
      (ps.take 3).map (fun p =>
        ⟨"PROJECT: " ++ p.name ++ "\n" ++ p.description, 1 / 2, "project"⟩)
    else scored
  | none => []

def extractSkillCond (intents : List String) (ql : List Char) : Bool :=
  intents.contains "skills" || containsSub ql "skill".data || containsSub ql "expertise".data

/-- Skills sections: category filters, the first query-mentioned category, or
the KEY SKILLS overview. -/
def skillSections (resume : ResumeData) (ql : List Char) : List Section :=
  match resume.skills with
  | some sk =>
    let catAi := sk.filter (fun s =>
      containsAnyS (toLowerS s).data ["ai", "ml", "llm", "rag", "transformer", "langchain", "hugging"])
    let catLang := sk.filter (fun s =>
      containsAnyS (toLowerS s).data ["python", "sql", "javascript", "r", "php"])
    let catCloud := sk.filter (fun s =>
      containsAnyS (toLowerS s).data ["aws", "azure", "gcp", "cloud"])
    let catData := sk.filter (fun s =>
      containsAnyS (toLowerS s).data ["tableau", "power bi", "snowflake", "alteryx", "data"])
    let catFw := sk.filter (fun s =>
      containsAnyS (toLowerS s).data ["pyside", "react", "pega", "uipath", "pyinstaller"])
    let keyBlock : Section :=
      ⟨"KEY SKILLS:\n- AI/ML: " ++ joinComma (catAi.take 5)
        ++ "\n- Languages: " ++ joinComma catLang
        ++ "\n- Cloud: " ++ joinComma catCloud
        ++ "\n- Data: " ++ joinComma (catData.take 3), 3 / 2, "skills"⟩
    match findBestCategory ql
        [("ai", catAi), ("languages", catLang), ("cloud", catCloud),
         ("data", catData), ("frameworks", catFw)] with
    | some (bc, bm) =>
      if bm == "" then [keyBlock]
      else [⟨toUpperS bc ++ " SKILLS: " ++ bm, 2, "skills"⟩]
    | none => [keyBlock]
  | none => []

def extractExpCond (intents : List String) (ql : List Char) : Bool :=
  intents.contains "experience" || containsSub ql "experience".data
    || containsSub ql "work".data || containsSub ql "job".data

/-- Experience sections: similarity plus company-mention boost; if no entry
qualifies, the first three (the source filters `sections` by
`type === 'experience'`, i.e. exactly this list). -/
def expSections (resume : ResumeData) (query : String) (ql : List Char) : List Section :=
  match resume.experience with
  | some exps =>
    let scored := exps.filterMap (fun e =>
      let score := calculateAdvancedSimilarity query
        (e.title ++ " " ++ e.company ++ " " ++ e.description) (13 / 10)
      let companyBoost : ℚ := if containsSub ql (toLowerS e.company).data then 2 else 0
      if score + companyBoost > 2 / 5 then
        some ⟨"EXPERIENCE: " ++ e.title ++ " at " ++ e.company ++ "\n" ++ e.description
          ++ "\n" ++ e.location.getD "" ++ " | " ++ e.duration.getD "",
          score + companyBoost, "experience"⟩
      else none)
    if scored.isEmpty then
      (exps.take 3).map (fun e =>
        ⟨"EXPERIENCE: " ++ e.title ++ " at " ++ e.company ++ "\n" ++ e.description,
         1 / 2, "experience"⟩)
    else scored
  | none => []

def extractEduCond (intents : List String) (ql : List Char) : Bool :=
  intents.contains "education" || containsSub ql "education".data
    || containsSub ql "degree".data || containsSub ql "university".data
    || containsSub ql "master".data || containsSub ql "bachelor".data

def eduSections (resume : ResumeData) : List Section :=
  match resume.education with
  | some edus =>
    [⟨"EDUCATION:\n" ++ String.intercalate "\n" (edus.map (fun e =>
      "- " ++ e.degree ++ " from " ++ e.school ++ " " ++ e.location.getD ""
        ++ " " ++ e.duration.getD "")), 3 / 2, "education"⟩]
  | none => []

def extractCertCond (ql : List Char) : Bool :=
  containsSub ql "certification".data || containsSub ql "certified".data
    || containsSub ql "cert".data

def certSections (resume : ResumeData) : List Section :=
  match resume.certifications with
  | some cs =>
    [⟨"CERTIFICATIONS:\n" ++ String.intercalate "\n" (cs.map (fun c => "- " ++ c)),
      3 / 2, "certifications"⟩]
  | none => []

def extractLeadCond (ql : List Char) : Bool :=
  containsSub ql "leadership".data || containsSub ql "leader".data
    || containsSub ql "honor".data || containsSub ql "award".data

def leadSections (resume : ResumeData) : List Section :=
  (match resume.leadership with
   | some ls => [⟨"LEADERSHIP: " ++ String.intercalate " | " ls, 13 / 10, "leadership"⟩]
   | none => [])
  ++ (match resume.honors with
   | some hs => [⟨"HONORS: " ++ String.intercalate " | " hs, 13 / 10, "honors"⟩]
   | none => [])

/-- The generic fallback overview of `extractRelevantInfo`. -/
def extractFallback (resume : ResumeData) : String :=
  resume.name ++ " - " ++ resume.professional_summary ++ "\n\nKey Skills: "
    ++ (match resume.skills with
        | some sk => let j := joinComma (sk.take 10); if j == "" then "Various" else j
        | none => "Various")

/-- `extractRelevantInfo`: greeting identity block, else per-category
candidate scoring into `sections` (projects, skills, experience, education,
certifications, leadership/honors, in source order, each with its own
fallbacks), then the five highest-scoring fragments joined by blank lines,
with a generic name/summary/skills fallback when nothing was collected.
Returns the extracted string together with the mutated context. -/
def extractRelevantInfo (resume : ResumeData) (query : String) (ctx0 : Ctx) :
    String × Ctx :=
  let queryLower := toLowerS query
  let ql := queryLower.data
  let intents := detectIntent query
  let ctx1 := updateContext query intents ctx0
  if testREStart patGreetExtract queryLower then
    (greetingInfoBlock resume, addAsked ctx1 "intro")
  else
    let ctx2 := if extractProjCond intents ql then addAsked ctx1 "projects" else ctx1
    let secProj := if extractProjCond intents ql then projSections resume query ql else []
    let ctx3 := if extractSkillCond intents ql then addAsked ctx2 "skills" else ctx2
    let secSkill := if extractSkillCond intents ql then skillSections resume ql else []
    let ctx4 := if extractExpCond intents ql then addAsked ctx3 "experience" else ctx3
    let secExp := if extractExpCond intents ql then expSections resume query ql else []
    let ctx5 := if extractEduCond intents ql then addAsked ctx4 "education" else ctx4
    let secEdu := if extractEduCond intents ql then eduSections resume else []
    let ctx6 := if extractCertCond ql then addAsked ctx5 "certifications" else ctx5
    let secCert := if extractCertCond ql then certSections resume else []
    let ctx7 := if extractLeadCond ql then addAsked ctx6 "achievements" else ctx6
    let secLead := if extractLeadCond ql then leadSections resume else []
    let sections := secProj ++ secSkill ++ secExp ++ secEdu ++ secCert ++ secLead
    let sorted := sortDesc (fun s => s.score) sections
    if !sorted.isEmpty then
      (String.intercalate "\n\n" ((sorted.take 5).map (fun s => s.content)), ctx7)
    else
      (extractFallback resume, ctx7)

/-! ### Response cache (`getCachedResponse`, `cacheResponse`) -/

/-- Cache entry value: response text and creation timestamp. -/
structure CacheEntry where
  response : String
  timestamp : Int
deriving DecidableEq, Repr

/-- The response cache: a JS `Map` modelled as an insertion-ordered
association list (keys unique). -/
abbrev Cache : Type := List (String × CacheEntry)

def CACHE_TTL : Int := 5 * 60 * 1000

def lookupA {β : Type} : List (String × β) → String → Option β
  | [], _ => none
  | p :: t, k => if p.1 == k then some p.2 else lookupA t k

/-- `getCachedResponse`: fresh hit returns the cached response; an expired
entry is deleted lazily; returns the (possibly shrunk) cache as well. -/
def getCachedResponse (cache : Cache) (query : String) (now : Int) :
    Option String × Cache :=
  let cacheKey := trimS (toLowerS query)
  match lookupA cache cacheKey with
  | some e =>
    if now - e.timestamp < CACHE_TTL then (some e.response, cache)
    else (none, List.filter (fun p => !(p.1 == cacheKey)) cache)
  | none => (none, cache)

/-- `cacheResponse`: `Map.set` then evict the oldest (first-inserted) entry
when the size exceeds 50. -/
def cacheResponse (cache : Cache) (query response : String) (now : Int) : Cache :=
  let cacheKey := trimS (toLowerS query)
  let c1 := setA cache cacheKey ⟨response, now⟩
  if c1.length > 50 then
    match c1 with
    | [] => c1
    | _ :: t => t
  else c1

/-! ### Response generation (`generateRAGResponse`) -/

def patGreetFull : RE :=
  .cat (reAlts ["hi", "hey", "hello", "howdy", "yo", "sup", "what's up",
                "good morning", "good afternoon", "good evening"])
    (.starP (fun c => isWsChar c || c == '!' || c == '?'))

def patFollowUp : RE :=
  reAlts ["tell me more", "what else", "anything else", "continue", "go on", "elaborate"]

def patNews : RE :=
  .alt (reSeq [rel "what", .opt (rel "'"), rel "s ",
               reAlts ["new", "latest", "trending", "happening"]])
    (reAlts ["news", "recent", "today", "current"])

def patNewsTech : RE := reAlts ["ai", "technology", "tech"]

def patHire : RE := reAlts ["hire", "should we", "choose you", "pick you"]

def patOuWord : RE := reWords ["ou"]

/-- The five greeting variants (the source picks one at random). -/
def greetingsList (ctx : Ctx) : List String :=
  ["Hey there! I'm Marzook - great to meet you! "
     ++ (if ctx.sentiment = Sentiment.casual then
           "I'm loving this 3D avatar experience I built!"
         else
           "I'm an AI engineer and Business Architect passionate about solving real problems with technology."),
   "Hi! I'm Marzook Mansoor from Edmond, OK. "
     ++ (if ctx.depth = Depth.overview then "Quick intro:" else "Let me tell you a bit about myself:")
     ++ " I'm finishing up my Master's in IT while working on exciting AI and automation projects.",
   "Hello! "
     ++ (if ctx.askedAbout.length > 0 then "Good to continue our chat!" else "Good to see you.")
     ++ " I'm Marzook, and I'm passionate about how AI and technology can drive real business value. "
     ++ (if ctx.sentiment = Sentiment.professional then
           "I have experience in digital transformation, cloud architecture, and analytics."
         else
           "I build everything from 3D portfolio sites to intelligent desktop assistants."),
   "Hey! Marzook here 👋 I blend AI, analytics, cloud architecture, and business strategy to create meaningful solutions. "
     ++ (if ctx.topics.contains "ai" then
           "Since you're interested in AI, I work extensively with LLMs and RAG systems!"
         else
           "Currently exploring opportunities in AI and digital transformation."),
   "Hi there! I'm Marzook. "
     ++ (if ctx.askedAbout.contains "projects" then
           "You've already seen some of my projects - thanks for asking!"
         else
           "I love building AI-powered applications and automating complex business processes.")
     ++ " From analytics pipelines that cut reporting time by 21% to intelligent desktop assistants, I'm all about practical innovation."]

/-- `getPatternResponse` (the `resume`/`context` parameters are unused by
every entry of the dictionary). -/
def getPatternResponse (pattern : String) : String :=
  (lookupA patternResponses pattern).getD
    ("Great question! Let me think about that... " ++ pattern)

def fallbackTail : String :=
  "I can tell you about my **work experience** (Love's, Objectstream/Pega, Beats), **AI projects** (Avatar Chat, ChibiTomo, Aesculapius AI), **technical skills** (Python, SQL, AI/ML, cloud), **education** (Master's & Bachelor's from OU), or **anything else**."

def allSemanticKeywords : List String :=
  SEMANTIC_KEYWORDS.foldr (fun p acc => p.2 ++ acc) []

def contactBranchResponse (ctx : Ctx) : String :=
  "I'd love to connect! **Email:** marzook.mansoor@outlook.com | **Phone:** (405) 588-9434 | **LinkedIn:** linkedin.com/in/marzook-mansoor | **GitHub:** github.com/zzthecoder. "
    ++ (if ctx.sentiment = Sentiment.professional then
          "Feel free to reach out about opportunities, collaborations, or technical discussions."
        else
          "Whether it's a project idea, a question about tech, or just saying hi, I'm always open to chatting!")
    ++ " "
    ++ (if ctx.askedAbout.length > 1 then "Thanks for the great questions so far!" else "")
    ++ " ."

/-- The smart fallback: keyword echo, recently-discussed topics, top intent,
then the fixed menu of topics. -/
def smartFallback (questionLower : String) (intents : List String) (ctx : Ctx) : String :=
  let questionWords := ((splitRuns (fun c => !isWsChar c) questionLower.data).filter
    (fun w => w.length > 3)).map (fun w => (⟨w⟩ : String))
  let relevantKeywords := questionWords.filter (fun w =>
    allSemanticKeywords.any (fun k => containsSub k.data w.data || containsSub w.data k.data))
  "That's an interesting question"
    ++ (if !relevantKeywords.isEmpty then
          " about " ++ String.intercalate " and " (relevantKeywords.take 2)
        else "")
    ++ "! "
    ++ (if ctx.askedAbout.length > 0 then
          "We've talked about " ++ joinComma (lastN 3 ctx.askedAbout) ++ " - "
        else "")
    ++ (if !intents.isEmpty then
          "It sounds like you're interested in my " ++ intents.headD "" ++ ". "
        else "")
    ++ fallbackTail

/-- The branch cascade of `generateRAGResponse` after the cache check and the
extraction step: returns the response, the context after any further
`askedAbout` additions, and whether this branch calls `cacheResponse`
(only the direct project handler, the pattern handler, the `why` branch and
the smart fallback do).  `relevantInfo` — the string produced by
`extractRelevantInfo` — is in scope here exactly as in the source, where it
is never mentioned again after being computed. -/
def emergencyProjectCond (ql : List Char) : Bool := containsSub ql "project".data

def greetingCond (questionLower : String) : Bool := testREFull patGreetFull (trimS questionLower)

/-- `isFollowUp && (lastTopic === 'projects' || lastTopic === 'project')`. -/
def followUpProjectsCond (questionLower : String) (ctx : Ctx) : Bool :=
  let isFollowUp := !ctx.topics.isEmpty && testRE patFollowUp questionLower
  isFollowUp
    && ((ctx.topics.getLastD "") == "projects" || (ctx.topics.getLastD "") == "project")

def projectsBranchCond (intents : List String) (ql : List Char) : Bool :=
  intents.contains "projects" || containsSub ql "project".data

def experienceBranchCond (intents : List String) (ql : List Char) : Bool :=
  intents.contains "experience" || containsSub ql "experience".data
    || containsSub ql "work".data || containsSub ql "job".data

def skillsBranchCond (intents : List String) (ql : List Char) : Bool :=
  intents.contains "skills" || containsSub ql "skill".data
    || containsSub ql "expertise".data || containsSub ql "what can you do".data

def educationBranchCond (intents : List String) (questionLower : String) : Bool :=
  intents.contains "education" || containsSub questionLower.data "education".data
    || containsSub questionLower.data "degree".data
    || containsSub questionLower.data "university".data
    || testRE patOuWord questionLower || containsSub questionLower.data "oklahoma".data

def aiBranchCond (intents : List String) (questionLower : String) : Bool :=
  (intents.contains "ai" || containsSub questionLower.data "ai".data
    || containsSub questionLower.data "machine learning".data
    || containsSub questionLower.data "llm".data)
    && !(testRE patNews questionLower)

def newsBranchCond (questionLower : String) : Bool :=
  testRE patNews questionLower && testRE patNewsTech questionLower

def contactBranchCond (intents : List String) (ql : List Char) : Bool :=
  intents.contains "contact" || containsSub ql "contact".data
    || containsSub ql "reach".data || containsSub ql "email".data
    || containsSub ql "phone".data

def achievementsBranchCond (intents : List String) (ql : List Char) : Bool :=
  intents.contains "achievements" || containsSub ql "achievement".data
    || containsSub ql "proud".data || containsSub ql "accomplishment".data

def personalBranchCond (intents : List String) (ql : List Char) : Bool :=
  intents.contains "personal" || containsSub ql "personal".data
    || containsSub ql "background".data || containsSub ql "story".data
    || containsSub ql "passion".data

def consultingBranchCond (ql : List Char) : Bool :=
  containsSub ql "consult".data || containsSub ql "business".data
    || containsSub ql "strategy".data

def whyBranchCond (intents : List String) (questionLower : String) : Bool :=
  (intents.contains "motivation" || containsSub questionLower.data "why".data)
    && !(testRE patHire questionLower)

def respond (question : String) (intents : List String) (relevantInfo : String)
    (ctx : Ctx) (rng : Nat) : String × Ctx × Bool :=
  let questionLower := toLowerS question
  let ql := questionLower.data
  -- EMERGENCY FIX: direct handling for project questions
  if emergencyProjectCond ql then
    (projectResponseStr, ctx, true)
  else match matchQuestionPattern question with
  | some pattern => (getPatternResponse pattern, ctx, true)
  | none =>
    if greetingCond questionLower then
      (List.getD (greetingsList ctx) (rng % 5) "", ctx, false)
    else if followUpProjectsCond questionLower ctx then
      (followUpProjectsStr, ctx, false)
    else if projectsBranchCond intents ql then
      let ctx' := addAsked ctx "projects"
      if ctx'.depth = Depth.detailed then (projectsDetailedStr, ctx', false)
      else (projectResponseStr, ctx', false)
    else if experienceBranchCond intents ql then
      let ctx' := addAsked ctx "experience"
      if containsSub ql "love".data then (lovesStr, ctx', false)
      else if containsSub ql "pega".data || containsSub ql "objectstream".data then
        (pegaStr, ctx', false)
      else (expGeneralStr, ctx', false)
    else if skillsBranchCond intents ql then
      let ctx' := addAsked ctx "skills"
      if containsSub ql "ai".data || containsSub ql "ml".data then (aiSkillsStr, ctx', false)
      else if containsSub ql "cloud".data then (cloudSkillsStr, ctx', false)
      else (skillsGeneralStr, ctx', false)
    else if educationBranchCond intents questionLower then
      (eduStr, addAsked ctx "education", false)
    else if aiBranchCond intents questionLower then
      (aiStr, addAsked ctx "ai", false)
    else if newsBranchCond questionLower then
      (newsStr, ctx, false)
    else if contactBranchCond intents ql then
      (contactBranchResponse (addAsked ctx "contact"), addAsked ctx "contact", false)
    else if achievementsBranchCond intents ql then
      (achievementsStr, addAsked ctx "achievements", false)
    else if personalBranchCond intents ql then
      (personalStr, ctx, false)
    else if consultingBranchCond ql then
      (consultingStr, ctx, false)
    else if whyBranchCond intents questionLower then
      (whyStr, ctx, true)
    else
      (smartFallback questionLower intents ctx, ctx, true)

/-- The state threaded through `generateRAGResponse` calls: the module-level
response cache and conversation context. -/
structure RagState where
  cache : Cache
  ctx : Ctx
deriving DecidableEq

def initState : RagState := ⟨([] : List (String × CacheEntry)), initCtx⟩

/-- The result of one `generateRAGResponse` call, instrumented with which
path was taken: `cacheHit` (answered from the response cache) and
`extracted` (the classification/extraction stages ran). -/
structure RagResult where
  response : String
  state : RagState
  cacheHit : Bool
  extracted : Bool
  wroteCache : Bool
deriving DecidableEq

/-- `generateRAGResponse`.  `loadResult` is the outcome of the awaited
`loadResumeData()` call (`none` = the fetch threw, in which case the
built-in minimal profile is substituted); `now` is `Date.now()`; `rng` the
random draw used by the greeting branch (`Math.floor(Math.random()*5)`
modelled as `rng % 5`).  The `try`/`catch` wrappers around the pipeline
stages are dead in this total model (each stage is a total function), so
the top-level catch branch is unreachable and does not appear. -/
def generateRAGResponse (loadResult : Option ResumeData) (question : String)
    (st : RagState) (now : Int) (rng : Nat) : RagResult :=
  match getCachedResponse st.cache question now with
  | (some cached, cache') => ⟨cached, ⟨cache', st.ctx⟩, true, false, false⟩
  | (none, cache') =>
    let resume := loadResult.getD fallbackResume
    let normalizedQuestion := normalizeQuery question
    let intents := detectIntent normalizedQuestion
    let er := extractRelevantInfo resume normalizedQuestion st.ctx
    let r := respond question intents er.1 er.2 rng
    let cache'' := if r.2.2 then cacheResponse cache' question r.1 now else cache'
    ⟨r.1, ⟨cache'', r.2.1⟩, false, true, r.2.2⟩

/-- A variant of the pipeline in which the string produced by
`extractRelevantInfo` is replaced by an arbitrary `inject`ed string before the
response cascade runs (the context side effects of extraction are kept).
Used to state that the extraction result itself never flows into the
response. -/
def generateRAGResponseInjected (inject : String) (loadResult : Option ResumeData)
    (question : String) (st : RagState) (now : Int) (rng : Nat) : RagResult :=
  match getCachedResponse st.cache question now with
  | (some cached, cache') => ⟨cached, ⟨cache', st.ctx⟩, true, false, false⟩
  | (none, cache') =>
    let resume := loadResult.getD fallbackResume
    let normalizedQuestion := normalizeQuery question
    let intents := detectIntent normalizedQuestion
    let er := extractRelevantInfo resume normalizedQuestion st.ctx
    let r := respond question intents inject er.2 rng
    let cache'' := if r.2.2 then cacheResponse cache' question r.1 now else cache'
    ⟨r.1, ⟨cache'', r.2.1⟩, false, true, r.2.2⟩

/-- A concrete 50-entry cache used to witness the eviction behaviour. -/
def witCache : Cache :=
  (List.range 50).map (fun i => (⟨List.replicate i 'a'⟩, ⟨"r", 0⟩))

/-- A concrete profile document with no `projects` field. -/
def resumeNoProjects : ResumeData := { fallbackResume with projects := none }

/-- A concrete profile document lacking projects, experience and education. -/
def resumeBareC6 : ResumeData :=
  { fallbackResume with projects := none, experience := none, education := none }

/-! ## General lemmas -/

theorem setA_length {β : Type} (m : List (String × β)) (k : String) (v : β) :
    (setA m k v).length = if m.any (fun p => p.1 == k) then m.length else m.length + 1 := by
  unfold setA
  split <;> simp

theorem lookupA_none_any_eq_false {β : Type} {m : List (String × β)} {k : String}
    (h : lookupA m k = none) : m.any (fun p => p.1 == k) = false := by
  induction m with
  | nil => rfl
  | cons p t ih =>
    unfold lookupA at h
    by_cases hp : p.1 == k
    · rw [if_pos hp] at h; cases h
    · rw [if_neg hp] at h
      simp only [List.any_cons, hp, Bool.false_or]
      exact ih h

theorem setA_fresh {β : Type} {m : List (String × β)} {k : String} (v : β)
    (h : m.any (fun p => p.1 == k) = false) : setA m k v = m ++ [(k, v)] := by
  unfold setA
  rw [h]
  simp

theorem kwScore_acc (ql : List Char) (keywords : List String) :
    ∀ acc : ℚ,
      keywords.foldl
        (fun acc k =>
          if containsSub ql k.data then
            acc + (if k.length > 4 then 2 else 1)
              + ((countOccS ⟨ql⟩ k : ℚ) - 1) * (1 / 2)
          else acc) acc
      = acc + claimIntentScore ql keywords := by
  induction keywords with
  | nil =>
    intro acc
    simp [claimIntentScore]
  | cons k t ih =>
    intro acc
    rw [List.foldl_cons, ih]
    unfold claimIntentScore
    rw [List.map_cons, List.sum_cons]
    by_cases h : containsSub ql k.data = true
    · rw [if_pos h, if_pos h]
      ring
    · rw [if_neg h, if_neg h]
      ring

theorem kwScore_eq_claim (ql : List Char) (keywords : List String) :
    kwScore ql keywords = claimIntentScore ql keywords := by
  unfold kwScore
  rw [kwScore_acc]
  exact zero_add _

theorem foldl_setA_fresh (ql : List Char) :
    ∀ (L : List (String × List String)) (acc : List (String × ℚ)),
      (L.map Prod.fst).Nodup →
      (∀ p ∈ L, acc.any (fun q => q.1 == p.1) = false) →
      L.foldl (fun m p =>
          if kwScore ql p.2 > 0 then setA m p.1 (kwScore ql p.2) else m) acc
        = acc ++ L.filterMap (fun p =>
            if kwScore ql p.2 > 0 then some (p.1, kwScore ql p.2) else none) := by
  intro L
  induction L with
  | nil =>
    intro acc _ _
    simp
  | cons hd t ih =>
    intro acc hnd hfresh
    rw [List.map_cons] at hnd
    have hknot : hd.1 ∉ t.map Prod.fst := (List.nodup_cons.mp hnd).1
    have hndt : (t.map Prod.fst).Nodup := (List.nodup_cons.mp hnd).2
    have hhd : acc.any (fun q => q.1 == hd.1) = false :=
      hfresh hd (List.mem_cons_self hd t)
    rw [List.foldl_cons, List.filterMap_cons]
    by_cases h : kwScore ql hd.2 > 0
    · have hfresh2 : ∀ p ∈ t,
          (acc ++ [(hd.1, kwScore ql hd.2)]).any (fun q => q.1 == p.1) = false := by
        intro p hp
        rw [List.any_append]
        have h1 := hfresh p (List.mem_cons_of_mem hd hp)
        have h2 : (hd.1 == p.1) = false := by
          rw [beq_eq_false_iff_ne]
          intro hcontr
          exact hknot (by rw [hcontr]; exact List.mem_map_of_mem Prod.fst hp)
        simp [h1, h2]
      rw [if_pos h, if_pos h, setA_fresh _ hhd, ih _ hndt hfresh2]
      simp
    · have hfresh2 : ∀ p ∈ t, acc.any (fun q => q.1 == p.1) = false :=
        fun p hp => hfresh p (List.mem_cons_of_mem hd hp)
      rw [if_neg h, if_neg h, ih _ hndt hfresh2]

theorem cacheResponse_length_le {c : Cache} (q r : String) (t : Int) (h : c.length ≤ 50) :
    (cacheResponse c q r t).length ≤ 50 := by
  unfold cacheResponse
  dsimp only
  have h1 : (setA c (trimS (toLowerS q)) ⟨r, t⟩).length ≤ c.length + 1 := by
    rw [setA_length]; split <;> omega
  split
  · rename_i hgt
    match hc : setA c (trimS (toLowerS q)) ⟨r, t⟩ with
    | [] => simp
    | e :: rest =>
      rw [hc] at h1
      simp only [List.length_cons] at h1
      simp only [List.length]
      omega
  · rename_i hgt
    omega

/-- C5, part (a): any sequence of `cacheResponse` calls starting from the
empty cache keeps at most 50 entries. -/
theorem foldl_cacheResponse_length_le (ops : List (String × String × Int)) :
    (ops.foldl (fun c op => cacheResponse c op.1 op.2.1 op.2.2) ([] : Cache)).length ≤ 50 := by
  have key : ∀ (l : List (String × String × Int)) (c : Cache), c.length ≤ 50 →
      (l.foldl (fun c op => cacheResponse c op.1 op.2.1 op.2.2) c).length ≤ 50 := by
    intro l
    induction l with
    | nil => intro c h; simpa using h
    | cons op t ih =>
      intro c h
      exact ih _ (cacheResponse_length_le op.1 op.2.1 op.2.2 h)
  exact key ops [] (by simp)

theorem addAsked_topics (c : Ctx) (t : String) : (addAsked c t).topics = c.topics := by
  unfold addAsked; split <;> rfl

theorem addAsked_sentiment (c : Ctx) (t : String) :
    (addAsked c t).sentiment = c.sentiment := by
  unfold addAsked; split <;> rfl

theorem updateContext_topics (q : String) (intents : List String) (c : Ctx) :
    (updateContext q intents c).topics = lastN 10 (c.topics ++ intents) := rfl

theorem lastN_length_le {α : Type} (l : List α) : (lastN 10 l).length ≤ 10 := by
  unfold lastN
  rw [List.length_drop]
  omega

theorem lastN_suffix {α : Type} (l : List α) :
    ∃ dropped, l = dropped ++ lastN 10 l := by
  exact ⟨l.take (l.length - 10), (List.take_append_drop _ _).symm⟩

theorem ite_addAsked_topics (b : Prop) [Decidable b] (c : Ctx) (s : String) :
    (if b then addAsked c s else c).topics = c.topics := by
  split
  · exact addAsked_topics _ _
  · rfl

theorem ite_pair_snd {A B : Type} (b : Prop) [Decidable b] (x y : A) (c : B) :
    (if b then (x, c) else (y, c)).2 = c := by
  split <;> rfl

theorem ite_triple_ctx {A B C : Type} (b : Prop) [Decidable b] (x y : A) (cc : B) (d : C) :
    (if b then (x, cc, d) else (y, cc, d)).2.1 = cc := by
  split <;> rfl

theorem extract_topics (resume : ResumeData) (q : String) (c : Ctx) :
    (extractRelevantInfo resume q c).2.topics
      = (updateContext q (detectIntent q) c).topics := by
  unfold extractRelevantInfo
  by_cases hg : testREStart patGreetExtract (toLowerS q) = true
  · rw [if_pos hg]
    exact addAsked_topics _ _
  · rw [if_neg hg]
    dsimp only
    rw [ite_pair_snd]
    simp only [ite_addAsked_topics]

theorem respond_topics (q : String) (intents : List String) (info : String)
    (c : Ctx) (rng : Nat) :
    (respond q intents info c rng).2.1.topics = c.topics := by
  unfold respond
  by_cases h1 : emergencyProjectCond (toLowerS q).data = true
  · rw [if_pos h1]
  · rw [if_neg h1]
    rcases hmp : matchQuestionPattern q with _ | p
    · dsimp only
      by_cases h2 : greetingCond (toLowerS q) = true
      · rw [if_pos h2]
      · rw [if_neg h2]
        by_cases h3 : followUpProjectsCond (toLowerS q) c = true
        · rw [if_pos h3]
        · rw [if_neg h3]
          by_cases h4 : projectsBranchCond intents (toLowerS q).data = true
          · rw [if_pos h4, ite_triple_ctx]
            exact addAsked_topics _ _
          · rw [if_neg h4]
            by_cases h5 : experienceBranchCond intents (toLowerS q).data = true
            · rw [if_pos h5]
              by_cases h5a : containsSub (toLowerS q).data "love".data = true
              · rw [if_pos h5a]
                exact addAsked_topics _ _
              · rw [if_neg h5a]
                by_cases h5b : (containsSub (toLowerS q).data "pega".data
                    || containsSub (toLowerS q).data "objectstream".data) = true
                · rw [if_pos h5b]
                  exact addAsked_topics _ _
                · rw [if_neg h5b]
                  exact addAsked_topics _ _
            · rw [if_neg h5]
              by_cases h6 : skillsBranchCond intents (toLowerS q).data = true
              · rw [if_pos h6]
                by_cases h6a : (containsSub (toLowerS q).data "ai".data
                    || containsSub (toLowerS q).data "ml".data) = true
                · rw [if_pos h6a]
                  exact addAsked_topics _ _
                · rw [if_neg h6a]
                  by_cases h6b : containsSub (toLowerS q).data "cloud".data = true
                  · rw [if_pos h6b]
                    exact addAsked_topics _ _
                  · rw [if_neg h6b]
                    exact addAsked_topics _ _
              · rw [if_neg h6]
                by_cases h7 : educationBranchCond intents (toLowerS q) = true
                · rw [if_pos h7]
                  exact addAsked_topics _ _
                · rw [if_neg h7]
                  by_cases h8 : aiBranchCond intents (toLowerS q) = true
                  · rw [if_pos h8]
                    exact addAsked_topics _ _
                  · rw [if_neg h8]
                    by_cases h9 : newsBranchCond (toLowerS q) = true
                    · rw [if_pos h9]
                    · rw [if_neg h9]
                      by_cases h10 : contactBranchCond intents (toLowerS q).data = true
                      · rw [if_pos h10]
                        exact addAsked_topics _ _
                      · rw [if_neg h10]
                        by_cases h11 : achievementsBranchCond intents (toLowerS q).data = true
                        · rw [if_pos h11]
                          exact addAsked_topics _ _
                        · rw [if_neg h11]
                          by_cases h12 : personalBranchCond intents (toLowerS q).data = true
                          · rw [if_pos h12]
                          · rw [if_neg h12]
                            by_cases h13 : consultingBranchCond (toLowerS q).data = true
                            · rw [if_pos h13]
                            · rw [if_neg h13]
                              by_cases h14 : whyBranchCond intents (toLowerS q) = true
                              · rw [if_pos h14]
                              · rw [if_neg h14]
    · rfl

theorem generateRAGResponse_topics_le (loadR : Option ResumeData) (q : String)
    (st : RagState) (now : Int) (rng : Nat) (h : st.ctx.topics.length ≤ 10) :
    (generateRAGResponse loadR q st now rng).state.ctx.topics.length ≤ 10 := by
  unfold generateRAGResponse
  rcases hg : getCachedResponse st.cache q now with ⟨o, c'⟩
  cases o
  · dsimp only
    rw [respond_topics, extract_topics, updateContext_topics]
    exact lastN_length_le _
  · exact h

theorem append_ne_empty_left (s t : String) (h : s ≠ "") : s ++ t ≠ "" := by
  intro he
  apply h
  have hd := congrArg String.data he
  rw [String.data_append] at hd
  have : s.data = [] := (List.append_eq_nil.mp hd).1
  cases s with
  | mk d => cases this; rfl

theorem append_ne_empty_right (s t : String) (h : t ≠ "") : s ++ t ≠ "" := by
  intro he
  apply h
  have hd := congrArg String.data he
  rw [String.data_append] at hd
  have : t.data = [] := (List.append_eq_nil.mp hd).2
  cases t with
  | mk d => cases this; rfl

theorem lookupA_mem {β : Type} {m : List (String × β)} {k : String} {v : β}
    (h : lookupA m k = some v) : (k, v) ∈ m := by
  induction m with
  | nil => cases h
  | cons p t ih =>
    unfold lookupA at h
    by_cases hp : p.1 == k
    · rw [if_pos hp] at h
      have hk : p.1 = k := eq_of_beq hp
      injection h with hv
      have hpkv : p = (k, v) := by
        rw [← hk, ← hv]
      rw [← hpkv]
      exact List.mem_cons_self _ _
    · rw [if_neg hp] at h
      exact List.mem_cons_of_mem _ (ih h)

theorem getPatternResponse_ne (p : String) : getPatternResponse p ≠ "" := by
  unfold getPatternResponse
  rcases hl : lookupA patternResponses p with _ | v
  · exact append_ne_empty_left _ _ (by decide)
  · dsimp only [Option.getD]
    have hv : (p, v) ∈ patternResponses := lookupA_mem hl
    have hall : ∀ pr ∈ patternResponses, pr.2 ≠ ("" : String) := by decide
    exact hall _ hv

theorem greet_getD_ne (c : Ctx) (n : Nat) : (greetingsList c).getD (n % 5) "" ≠ "" := by
  have h5 : n % 5 < 5 := Nat.mod_lt _ (by omega)
  set k := n % 5 with hk
  interval_cases k <;>
    first
      | exact append_ne_empty_left _ _ (by decide)
      | exact append_ne_empty_right _ _ (by decide)
      | exact append_ne_empty_left _ _ (append_ne_empty_right _ _ (by decide))

theorem contactBranchResponse_ne (c : Ctx) : contactBranchResponse c ≠ "" := by
  unfold contactBranchResponse
  exact append_ne_empty_right _ _ (by decide)

theorem smartFallback_ne (ql : String) (intents : List String) (c : Ctx) :
    smartFallback ql intents c ≠ "" := by
  unfold smartFallback
  exact append_ne_empty_right _ _ (by decide)

theorem respond_ne (q : String) (intents : List String) (info : String)
    (c : Ctx) (rng : Nat) :
    (respond q intents info c rng).1 ≠ "" := by
  unfold respond
  by_cases h1 : emergencyProjectCond (toLowerS q).data = true
  · rw [if_pos h1]; exact show projectResponseStr ≠ "" by decide
  · rw [if_neg h1]
    rcases hmp : matchQuestionPattern q with _ | p
    · dsimp only
      by_cases h2 : greetingCond (toLowerS q) = true
      · rw [if_pos h2]; exact greet_getD_ne _ _
      · rw [if_neg h2]
        by_cases h3 : followUpProjectsCond (toLowerS q) c = true
        · rw [if_pos h3]; exact show followUpProjectsStr ≠ "" by decide
        · rw [if_neg h3]
          by_cases h4 : projectsBranchCond intents (toLowerS q).data = true
          · rw [if_pos h4]
            split
            · exact show projectsDetailedStr ≠ "" by decide
            · exact show projectResponseStr ≠ "" by decide
          · rw [if_neg h4]
            by_cases h5 : experienceBranchCond intents (toLowerS q).data = true
            · rw [if_pos h5]
              by_cases h5a : containsSub (toLowerS q).data "love".data = true
              · rw [if_pos h5a]; exact show lovesStr ≠ "" by decide
              · rw [if_neg h5a]
                by_cases h5b : (containsSub (toLowerS q).data "pega".data
                    || containsSub (toLowerS q).data "objectstream".data) = true
                · rw [if_pos h5b]; exact show pegaStr ≠ "" by decide
                · rw [if_neg h5b]; exact show expGeneralStr ≠ "" by decide
            · rw [if_neg h5]
              by_cases h6 : skillsBranchCond intents (toLowerS q).data = true
              · rw [if_pos h6]
                by_cases h6a : (containsSub (toLowerS q).data "ai".data
                    || containsSub (toLowerS q).data "ml".data) = true
                · rw [if_pos h6a]; exact show aiSkillsStr ≠ "" by decide
                · rw [if_neg h6a]
                  by_cases h6b : containsSub (toLowerS q).data "cloud".data = true
                  · rw [if_pos h6b]; exact show cloudSkillsStr ≠ "" by decide
                  · rw [if_neg h6b]; exact show skillsGeneralStr ≠ "" by decide
              · rw [if_neg h6]
                by_cases h7 : educationBranchCond intents (toLowerS q) = true
                · rw [if_pos h7]; exact show eduStr ≠ "" by decide
                · rw [if_neg h7]
                  by_cases h8 : aiBranchCond intents (toLowerS q) = true
                  · rw [if_pos h8]; exact show aiStr ≠ "" by decide
                  · rw [if_neg h8]
                    by_cases h9 : newsBranchCond (toLowerS q) = true
                    · rw [if_pos h9]; exact show newsStr ≠ "" by decide
                    · rw [if_neg h9]
                      by_cases h10 : contactBranchCond intents (toLowerS q).data = true
                      · rw [if_pos h10]; exact contactBranchResponse_ne _
                      · rw [if_neg h10]
                        by_cases h11 : achievementsBranchCond intents (toLowerS q).data = true
                        · rw [if_pos h11]; exact show achievementsStr ≠ "" by decide
                        · rw [if_neg h11]
                          by_cases h12 : personalBranchCond intents (toLowerS q).data = true
                          · rw [if_pos h12]; exact show personalStr ≠ "" by decide
                          · rw [if_neg h12]
                            by_cases h13 : consultingBranchCond (toLowerS q).data = true
                            · rw [if_pos h13]; exact show consultingStr ≠ "" by decide
                            · rw [if_neg h13]
                              by_cases h14 : whyBranchCond intents (toLowerS q) = true
                              · rw [if_pos h14]; exact show whyStr ≠ "" by decide
                              · rw [if_neg h14]; exact smartFallback_ne _ _ _
    · exact getPatternResponse_ne p

theorem respond_rng_eq (q : String) (intents : List String) (info : String) (c : Ctx)
    (rng1 rng2 : Nat) (h : greetingCond (toLowerS q) = false) :
    respond q intents info c rng1 = respond q intents info c rng2 := by
  unfold respond
  dsimp only
  by_cases h1 : emergencyProjectCond (toLowerS q).data = true
  · rw [if_pos h1, if_pos h1]
  · rw [if_neg h1, if_neg h1]
    rcases matchQuestionPattern q with _ | p
    · dsimp only
      simp only [h]
      have hf : ¬((false : Bool) = true) := by decide
      rw [if_neg hf, if_neg hf]
    · rfl

theorem lookupA_append_fresh {β : Type} (m : List (String × β)) (k : String) (v : β)
    (h : m.any (fun p => p.1 == k) = false) : lookupA (m ++ [(k, v)]) k = some v := by
  induction m with
  | nil =>
    show lookupA [(k, v)] k = some v
    unfold lookupA
    rw [if_pos (by exact beq_self_eq_true k)]
  | cons p t ih =>
    simp only [List.any_cons, Bool.or_eq_false_iff] at h
    show lookupA ((p :: (t ++ [(k, v)]))) k = some v
    unfold lookupA
    rw [if_neg (by simp [h.1])]
    exact ih h.2

theorem any_tail_eq_false {β : Type} {m : List (String × β)} {f : String × β → Bool}
    (h : m.any f = false) : m.tail.any f = false := by
  cases m with
  | nil => rfl
  | cons p t =>
    simp only [List.any_cons, Bool.or_eq_false_iff] at h
    exact h.2

theorem lookupA_filter_ne {β : Type} (m : List (String × β)) (k : String) :
    lookupA (List.filter (fun p => !(p.1 == k)) m) k = none := by
  induction m with
  | nil => rfl
  | cons p t ih =>
    by_cases hp : p.1 == k
    · rw [List.filter_cons_of_neg (by simp [hp])]
      exact ih
    · rw [List.filter_cons_of_pos (by simp [hp])]
      unfold lookupA
      rw [if_neg hp]
      exact ih

theorem getCachedResponse_miss_lookup {c : Cache} {q : String} {now : Int} {c' : Cache}
    (h : getCachedResponse c q now = (none, c')) :
    lookupA c' (trimS (toLowerS q)) = none := by
  unfold getCachedResponse at h
  dsimp only at h
  rcases hl : lookupA c (trimS (toLowerS q)) with _ | e
  · rw [hl] at h
    dsimp only at h
    have h2 : c = c' := congrArg Prod.snd h
    rw [← h2]
    exact hl
  · rw [hl] at h
    dsimp only at h
    split at h
    · have h1 : (some _ : Option String) = none := congrArg Prod.fst h
      cases h1
    · have h2 : List.filter (fun p => !(p.1 == trimS (toLowerS q))) c = c' :=
        congrArg Prod.snd h
      rw [← h2]
      exact lookupA_filter_ne _ _

theorem getCachedResponse_snd_length_le (c : Cache) (q : String) (now : Int) :
    (getCachedResponse c q now).2.length ≤ c.length := by
  unfold getCachedResponse
  dsimp only
  rcases hl : lookupA c (trimS (toLowerS q)) with _ | e
  · exact Nat.le_refl _
  · dsimp only
    split
    · exact Nat.le_refl _
    · exact List.length_filter_le _ _

theorem lookupA_cacheResponse {c : Cache} (q resp : String) (t : Int)
    (hlen : c.length ≤ 50) (hfresh : lookupA c (trimS (toLowerS q)) = none) :
    lookupA (cacheResponse c q resp t) (trimS (toLowerS q)) = some ⟨resp, t⟩ := by
  unfold cacheResponse
  dsimp only
  have hany := lookupA_none_any_eq_false hfresh
  rw [setA_fresh _ hany]
  split
  · rename_i hevict
    rcases c with _ | ⟨p, tl⟩
    · simp at hevict
    · show lookupA (tl ++ [(trimS (toLowerS q), ⟨resp, t⟩)]) (trimS (toLowerS q)) = _
      exact lookupA_append_fresh _ _ _ (any_tail_eq_false hany)
  · exact lookupA_append_fresh _ _ _ hany

/-! ## C3: the normalizer pipeline through word runs -/

theorem splitRunsF_mono (p : Char → Bool) :
    ∀ (f1 f2 : Nat) (l : List Char), l.length ≤ f1 → l.length ≤ f2 →
      splitRunsF p f1 l = splitRunsF p f2 l := by
  intro f1
  induction f1 with
  | zero =>
    intro f2 l h1 _
    have hl : l = [] := List.length_eq_zero.mp (Nat.le_zero.mp h1)
    subst hl
    cases f2 <;> rfl
  | succ f ih =>
    intro f2 l h1 h2
    cases l with
    | nil => cases f2 <;> rfl
    | cons c t =>
      cases f2 with
      | zero => simp at h2
      | succ f2' =>
        simp only [splitRunsF]
        have hd : (t.dropWhile p).length ≤ t.length :=
          (List.dropWhile_sublist (l := t) p).length_le
        simp only [List.length_cons] at h1 h2
        by_cases hc : p c = true
        · rw [if_pos hc, if_pos hc, ih f2' (t.dropWhile p) (by omega) (by omega)]
        · rw [if_neg hc, if_neg hc, ih f2' t (by omega) (by omega)]

theorem squashRunsF_mono (p : Char → Bool) :
    ∀ (f1 f2 : Nat) (l : List Char), l.length ≤ f1 → l.length ≤ f2 →
      squashRunsF p f1 l = squashRunsF p f2 l := by
  intro f1
  induction f1 with
  | zero =>
    intro f2 l h1 _
    have hl : l = [] := List.length_eq_zero.mp (Nat.le_zero.mp h1)
    subst hl
    cases f2 <;> rfl
  | succ f ih =>
    intro f2 l h1 h2
    cases l with
    | nil => cases f2 <;> rfl
    | cons c t =>
      cases f2 with
      | zero => simp at h2
      | succ f2' =>
        simp only [squashRunsF]
        have hd : (t.dropWhile p).length ≤ t.length :=
          (List.dropWhile_sublist (l := t) p).length_le
        simp only [List.length_cons] at h1 h2
        by_cases hc : p c = true
        · rw [if_pos hc, if_pos hc, ih f2' (t.dropWhile p) (by omega) (by omega)]
        · rw [if_neg hc, if_neg hc, ih f2' t (by omega) (by omega)]

theorem replaceWordAuxF_mono (t0 : Char) (ts corr : List Char) :
    ∀ (f1 f2 : Nat) (prevW : Bool) (l : List Char), l.length ≤ f1 → l.length ≤ f2 →
      replaceWordAuxF t0 ts corr f1 prevW l = replaceWordAuxF t0 ts corr f2 prevW l := by
  intro f1
  induction f1 with
  | zero =>
    intro f2 prevW l h1 _
    have hl : l = [] := List.length_eq_zero.mp (Nat.le_zero.mp h1)
    subst hl
    cases f2 <;> rfl
  | succ f ih =>
    intro f2 prevW l h1 h2
    cases l with
    | nil => cases f2 <;> rfl
    | cons c rest =>
      cases f2 with
      | zero => simp at h2
      | succ f2' =>
        simp only [replaceWordAuxF]
        have hd : (rest.drop ts.length).length ≤ rest.length := by
          rw [List.length_drop]; omega
        simp only [List.length_cons] at h1 h2
        split
        · rw [ih f2' _ (rest.drop ts.length) (by omega) (by omega)]
        · rw [ih f2' _ rest (by omega) (by omega)]

theorem splitRuns_cons_pos {p : Char → Bool} {c : Char} (t : List Char) (h : p c = true) :
    splitRuns p (c :: t) = (c :: t.takeWhile p) :: splitRuns p (t.dropWhile p) := by
  unfold splitRuns
  simp only [splitRunsF, List.length_cons]
  rw [if_pos h]
  congr 1
  exact splitRunsF_mono p t.length (t.dropWhile p).length (t.dropWhile p)
    ((List.dropWhile_sublist (l := t) p).length_le) le_rfl

theorem splitRuns_cons_neg {p : Char → Bool} {c : Char} (t : List Char) (h : p c = false) :
    splitRuns p (c :: t) = splitRuns p t := by
  unfold splitRuns
  simp only [splitRunsF, List.length_cons]
  rw [if_neg (by simp [h])]

theorem squashRuns_cons_pos {p : Char → Bool} {c : Char} (t : List Char) (h : p c = true) :
    squashRuns p (c :: t) = ' ' :: squashRuns p (t.dropWhile p) := by
  unfold squashRuns
  simp only [squashRunsF, List.length_cons]
  rw [if_pos h]
  congr 1
  exact squashRunsF_mono p t.length (t.dropWhile p).length (t.dropWhile p)
    ((List.dropWhile_sublist (l := t) p).length_le) le_rfl

theorem squashRuns_cons_neg {p : Char → Bool} {c : Char} (t : List Char) (h : p c = false) :
    squashRuns p (c :: t) = c :: squashRuns p t := by
  unfold squashRuns
  simp only [squashRunsF, List.length_cons]
  rw [if_neg (by simp [h])]

theorem replaceWordAux_cons_head_none (t0 : Char) (ts corr : List Char) (prevW : Bool)
    (c : Char) (rest : List Char) (hh : (rest.drop ts.length).head? = none) :
    replaceWordAux t0 ts corr prevW (c :: rest)
      = if (!prevW && prefixEq (t0 :: ts) (c :: rest)) = true then
          corr ++ replaceWordAux t0 ts corr (isWordChar (ts.getLastD t0)) (rest.drop ts.length)
        else c :: replaceWordAux t0 ts corr (isWordChar c) rest := by
  unfold replaceWordAux
  simp only [replaceWordAuxF, List.length_cons]
  rw [hh]
  simp only [Bool.and_true, Bool.not_false]
  split
  · congr 1
    exact replaceWordAuxF_mono t0 ts corr rest.length (rest.drop ts.length).length _
      (rest.drop ts.length) (by rw [List.length_drop]; omega) le_rfl
  · rfl

theorem replaceWordAux_cons_head_some (t0 : Char) (ts corr : List Char) (prevW : Bool)
    (c : Char) (rest : List Char) (d : Char)
    (hh : (rest.drop ts.length).head? = some d) :
    replaceWordAux t0 ts corr prevW (c :: rest)
      = if (!prevW && prefixEq (t0 :: ts) (c :: rest) && !isWordChar d) = true then
          corr ++ replaceWordAux t0 ts corr (isWordChar (ts.getLastD t0)) (rest.drop ts.length)
        else c :: replaceWordAux t0 ts corr (isWordChar c) rest := by
  unfold replaceWordAux
  simp only [replaceWordAuxF, List.length_cons]
  rw [hh]
  split
  · congr 1
    exact replaceWordAuxF_mono t0 ts corr rest.length (rest.drop ts.length).length _
      (rest.drop ts.length) (by rw [List.length_drop]; omega) le_rfl
  · rfl

theorem toNat_ofNat_valid (m : Nat) (h : Nat.isValidChar m) : (Char.ofNat m).toNat = m := by
  unfold Char.ofNat Char.ofNatAux
  rw [dif_pos h]
  simp only [Char.toNat, UInt32.toNat, BitVec.toNat_ofNatLt]

theorem toLower_toLower (c : Char) : Char.toLower (Char.toLower c) = Char.toLower c := by
  unfold Char.toLower
  dsimp only
  by_cases h : c.toNat ≥ 65 ∧ c.toNat ≤ 90
  · rw [if_pos h]
    have hv : Nat.isValidChar (c.toNat + 32) := Or.inl (by omega)
    rw [toNat_ofNat_valid _ hv]
    rw [if_neg (by omega)]
  · rw [if_neg h, if_neg h]

theorem ws_not_word {c : Char} (h : isWsChar c = true) : isWordChar c = false := by
  unfold isWsChar at h
  simp only [Bool.or_eq_true, beq_iff_eq] at h
  rcases h with ((h | h) | h) | h <;> (subst h; decide)

theorem punct_not_word {c : Char} (h : isPunctQ c = true) : isWordChar c = false := by
  unfold isPunctQ at h
  simp only [Bool.or_eq_true, beq_iff_eq] at h
  rcases h with (h | h) | h <;> (subst h; decide)

theorem word_beq_nonword_false {a b : Char} (hw : isWordChar a = true)
    (hn : isWordChar b = false) : (a == b) = false := by
  rw [beq_eq_false_iff_ne]
  intro he
  rw [he, hn] at hw
  cases hw

theorem prefixEq_self_append : ∀ (a b : List Char), prefixEq a (a ++ b) = true := by
  intro a b
  induction a with
  | nil => rfl
  | cons c t ih =>
    simp only [List.cons_append, prefixEq, beq_self_eq_true, Bool.true_and, List.append_eq]
    exact ih

theorem prefixEq_decomp : ∀ (a l : List Char), prefixEq a l = true → l = a ++ l.drop a.length := by
  intro a
  induction a with
  | nil =>
    intro l _
    simp
  | cons c t ih =>
    intro l h
    cases l with
    | nil => simp [prefixEq] at h
    | cons b t2 =>
      simp only [prefixEq, Bool.and_eq_true] at h
      have hcb : c = b := eq_of_beq h.1
      subst hcb
      rw [List.length_cons, List.drop_succ_cons, List.cons_append]
      exact congrArg (List.cons c) (ih t2 h.2)

theorem prefixEq_cons_false {a b : Char} (x y : List Char) (h : (a == b) = false) :
    prefixEq (a :: x) (b :: y) = false := by
  simp [prefixEq, h]

theorem takeWhile_all_append (p : Char → Bool) :
    ∀ (a b : List Char), (∀ x ∈ a, p x = true) →
      (a ++ b).takeWhile p = a ++ b.takeWhile p := by
  intro a
  induction a with
  | nil => intro b _; simp
  | cons c t ih =>
    intro b h
    rw [List.cons_append, List.takeWhile_cons, if_pos (h c (List.mem_cons_self c t)),
      List.cons_append]
    exact congrArg (List.cons c) (ih b (fun x hx => h x (List.mem_cons_of_mem c hx)))

theorem dropWhile_all_append (p : Char → Bool) :
    ∀ (a b : List Char), (∀ x ∈ a, p x = true) →
      (a ++ b).dropWhile p = b.dropWhile p := by
  intro a
  induction a with
  | nil => intro b _; simp
  | cons c t ih =>
    intro b h
    rw [List.cons_append, List.dropWhile_cons, if_pos (h c (List.mem_cons_self c t))]
    exact ih b (fun x hx => h x (List.mem_cons_of_mem c hx))

theorem dropWhile_eq_self_of_head (p : Char → Bool) :
    ∀ (l : List Char), (∀ d, l.head? = some d → p d = false) → l.dropWhile p = l := by
  intro l h
  cases l with
  | nil => rfl
  | cons c t =>
    rw [List.dropWhile_cons, if_neg (by simp [h c rfl])]

theorem head?_dropWhile_false (p : Char → Bool) :
    ∀ (l : List Char) (d : Char), (l.dropWhile p).head? = some d → p d = false := by
  intro l
  induction l with
  | nil => intro d h; simp at h
  | cons c t ih =>
    intro d h
    rw [List.dropWhile_cons] at h
    by_cases hpc : p c = true
    · rw [if_pos hpc] at h
      exact ih d h
    · rw [if_neg hpc] at h
      have hdc : c = d := by
        simp only [List.head?_cons, Option.some.injEq] at h
        exact h
      subst hdc
      cases hv : p c
      · rfl
      · exact absurd hv hpc

theorem runs_cons_word {c : Char} (t : List Char) (h : isWordChar c = true) :
    wordRuns (c :: t) = (c :: t.takeWhile isWordChar) :: wordRuns (t.dropWhile isWordChar) := by
  unfold wordRuns
  exact splitRuns_cons_pos t h

theorem runs_cons_nonword {c : Char} (t : List Char) (h : isWordChar c = false) :
    wordRuns (c :: t) = wordRuns t := by
  unfold wordRuns
  exact splitRuns_cons_neg t h

theorem runs_nil_all_nonword :
    ∀ (l : List Char), (∀ c ∈ l, isWordChar c = false) → wordRuns l = [] := by
  intro l
  induction l with
  | nil => intro _; rfl
  | cons c t ih =>
    intro h
    rw [runs_cons_nonword t (h c (List.mem_cons_self c t))]
    exact ih (fun x hx => h x (List.mem_cons_of_mem c hx))

theorem runs_dropWhile_nonword (p : Char → Bool) (hp : ∀ c, p c = true → isWordChar c = false) :
    ∀ (l : List Char), wordRuns (l.dropWhile p) = wordRuns l := by
  intro l
  induction l with
  | nil => rfl
  | cons c t ih =>
    rw [List.dropWhile_cons]
    by_cases hpc : p c = true
    · rw [if_pos hpc, ih, runs_cons_nonword t (hp c hpc)]
    · rw [if_neg hpc]

theorem runs_append_word_run :
    ∀ (a b : List Char), a ≠ [] → (∀ c ∈ a, isWordChar c = true) →
      (∀ d, b.head? = some d → isWordChar d = false) →
      wordRuns (a ++ b) = a :: wordRuns b := by
  intro a b hne ha hb
  cases a with
  | nil => exact absurd rfl hne
  | cons c a2 =>
    rw [List.cons_append, runs_cons_word _ (ha c (List.mem_cons_self c a2))]
    have htw : (a2 ++ b).takeWhile isWordChar = a2 := by
      rw [takeWhile_all_append isWordChar a2 b
        (fun x hx => ha x (List.mem_cons_of_mem c hx))]
      have : b.takeWhile isWordChar = [] := by
        cases b with
        | nil => rfl
        | cons d b2 =>
          rw [List.takeWhile_cons, if_neg (by simp [hb d rfl])]
      rw [this, List.append_nil]
    have hdw : (a2 ++ b).dropWhile isWordChar = b := by
      rw [dropWhile_all_append isWordChar a2 b
        (fun x hx => ha x (List.mem_cons_of_mem c hx))]
      exact dropWhile_eq_self_of_head isWordChar b hb
    rw [htw, hdw]

theorem runs_all_word (a : List Char) (hne : a ≠ []) (ha : ∀ c ∈ a, isWordChar c = true) :
    wordRuns a = [a] := by
  have h := runs_append_word_run a [] hne ha (by intro d hd; simp at hd)
  rw [List.append_nil] at h
  rw [h]
  rfl

theorem runs_append_sep :
    ∀ (n : Nat) (a : List Char), a.length ≤ n → ∀ (sep : Char) (b : List Char),
      isWordChar sep = false →
      wordRuns (a ++ sep :: b) = wordRuns a ++ wordRuns b := by
  intro n
  induction n with
  | zero =>
    intro a ha sep b hsep
    have hl : a = [] := List.length_eq_zero.mp (Nat.le_zero.mp ha)
    subst hl
    rw [List.nil_append, runs_cons_nonword b hsep]
    rfl
  | succ n ih =>
    intro a ha sep b hsep
    cases a with
    | nil =>
      rw [List.nil_append, runs_cons_nonword b hsep]
      rfl
    | cons c a2 =>
      simp only [List.length_cons] at ha
      cases hw : isWordChar c with
      | false =>
        rw [List.cons_append, runs_cons_nonword _ hw, runs_cons_nonword a2 hw]
        exact ih a2 (by omega) sep b hsep
      | true =>
        have ha2 : a2 = a2.takeWhile isWordChar ++ a2.dropWhile isWordChar :=
          (List.takeWhile_append_dropWhile isWordChar a2).symm
        have hvsep : ∀ d, (a2.dropWhile isWordChar ++ sep :: b).head? = some d →
            isWordChar d = false := by
          intro d hd
          cases hv : a2.dropWhile isWordChar with
          | nil =>
            rw [hv, List.nil_append, List.head?_cons, Option.some.injEq] at hd
            rw [← hd]
            exact hsep
          | cons e v2 =>
            rw [hv, List.cons_append, List.head?_cons, Option.some.injEq] at hd
            rw [← hd]
            exact head?_dropWhile_false isWordChar a2 e (by rw [hv]; rfl)
        rw [List.cons_append, runs_cons_word _ hw, runs_cons_word _ hw]
        have htw : (a2 ++ sep :: b).takeWhile isWordChar = a2.takeWhile isWordChar := by
          conv_lhs => rw [ha2]
          rw [List.append_assoc,
            takeWhile_all_append isWordChar _ _ (fun x hx => List.mem_takeWhile_imp hx)]
          have : (a2.dropWhile isWordChar ++ sep :: b).takeWhile isWordChar = [] := by
            cases hv : a2.dropWhile isWordChar ++ sep :: b with
            | nil => rfl
            | cons e v2 =>
              rw [List.takeWhile_cons, if_neg (by simp [hvsep e (by rw [hv]; rfl)])]
          rw [this, List.append_nil]
        have hdw : (a2 ++ sep :: b).dropWhile isWordChar
            = a2.dropWhile isWordChar ++ sep :: b := by
          conv_lhs => rw [ha2]
          rw [List.append_assoc,
            dropWhile_all_append isWordChar _ _ (fun x hx => List.mem_takeWhile_imp hx)]
          exact dropWhile_eq_self_of_head isWordChar _ hvsep
        rw [htw, hdw]
        have hlen : (a2.dropWhile isWordChar).length ≤ n := by
          have := (List.dropWhile_sublist (l := a2) isWordChar).length_le
          omega
        rw [ih (a2.dropWhile isWordChar) hlen sep b hsep, List.cons_append]

theorem runs_append_all_nonword (a b : List Char) (hb : ∀ c ∈ b, isWordChar c = false) :
    wordRuns (a ++ b) = wordRuns a := by
  cases b with
  | nil => rw [List.append_nil]
  | cons sep b2 =>
    rw [runs_append_sep a.length a le_rfl sep b2 (hb sep (List.mem_cons_self sep b2))]
    rw [runs_nil_all_nonword b2 (fun x hx => hb x (List.mem_cons_of_mem sep hx))]
    rw [List.append_nil]

theorem replaceWordAux_nil (t0 : Char) (ts corr : List Char) (prevW : Bool) :
    replaceWordAux t0 ts corr prevW [] = [] := rfl

theorem replaceWordAux_cons_skip (t0 : Char) (ts corr : List Char) (prevW : Bool)
    (c : Char) (rest : List Char) (h : prefixEq (t0 :: ts) (c :: rest) = false) :
    replaceWordAux t0 ts corr prevW (c :: rest)
      = c :: replaceWordAux t0 ts corr (isWordChar c) rest := by
  cases hh : (rest.drop ts.length).head? with
  | none =>
    rw [replaceWordAux_cons_head_none t0 ts corr prevW c rest hh, if_neg (by simp [h])]
  | some d =>
    rw [replaceWordAux_cons_head_some t0 ts corr prevW c rest d hh, if_neg (by simp [h])]

theorem replaceWordAux_cons_prevW_true (t0 : Char) (ts corr : List Char)
    (c : Char) (rest : List Char) :
    replaceWordAux t0 ts corr true (c :: rest)
      = c :: replaceWordAux t0 ts corr (isWordChar c) rest := by
  cases hh : (rest.drop ts.length).head? with
  | none =>
    rw [replaceWordAux_cons_head_none t0 ts corr true c rest hh, if_neg (by simp)]
  | some d =>
    rw [replaceWordAux_cons_head_some t0 ts corr true c rest d hh, if_neg (by simp)]

theorem replaceWordAux_true_scan (t0 : Char) (ts corr : List Char) :
    ∀ (rest : List Char),
      replaceWordAux t0 ts corr true rest
        = rest.takeWhile isWordChar
          ++ (match rest.dropWhile isWordChar with
              | [] => []
              | d :: v => d :: replaceWordAux t0 ts corr false v) := by
  intro rest
  induction rest with
  | nil => rfl
  | cons e r2 ih =>
    rw [replaceWordAux_cons_prevW_true t0 ts corr e r2]
    cases he : isWordChar e with
    | true =>
      rw [List.takeWhile_cons, if_pos he, List.dropWhile_cons, if_pos he, List.cons_append]
      exact congrArg (List.cons e) ih
    | false =>
      rw [List.takeWhile_cons, if_neg (by simp [he]), List.dropWhile_cons,
        if_neg (by simp [he]), List.nil_append]

theorem chars_replaceWordAuxF (t0 : Char) (ts corr : List Char) :
    ∀ (f : Nat) (prevW : Bool) (l : List Char) (c : Char),
      c ∈ replaceWordAuxF t0 ts corr f prevW l → c ∈ l ∨ c ∈ corr := by
  intro f
  induction f with
  | zero =>
    intro prevW l c h
    cases l <;> simp [replaceWordAuxF] at h
  | succ f ih =>
    intro prevW l c h
    cases l with
    | nil => simp [replaceWordAuxF] at h
    | cons c0 rest =>
      simp only [replaceWordAuxF] at h
      split at h
      · rcases List.mem_append.mp h with hc | hc
        · exact Or.inr hc
        · rcases ih _ _ c hc with hin | hc2
          · exact Or.inl (List.mem_cons_of_mem c0 (List.drop_subset _ _ hin))
          · exact Or.inr hc2
      · rcases List.mem_cons.mp h with hc | hc
        · exact Or.inl (hc ▸ List.mem_cons_self c0 rest)
        · rcases ih _ _ c hc with hin | hc2
          · exact Or.inl (List.mem_cons_of_mem c0 hin)
          · exact Or.inr hc2

theorem chars_replaceWordAll (s w corr : List Char) (c : Char)
    (h : c ∈ replaceWordAll s w corr) : c ∈ s ∨ c ∈ corr := by
  cases w with
  | nil => exact Or.inl h
  | cons t0 ts =>
    unfold replaceWordAll replaceWordAux at h
    exact chars_replaceWordAuxF t0 ts corr s.length false s c h

theorem runs_replace_nomatch_cons (t0 : Char) (ts corr : List Char)
    (hcorr : ∀ c ∈ corr, isWordChar c = true) (hcne : corr ≠ []) (n : Nat)
    (ih : ∀ (s : List Char), s.length ≤ n →
      wordRuns (replaceWordAux t0 ts corr false s)
        = (wordRuns s).map (fun r => if r = t0 :: ts then corr else r))
    (c : Char) (rest : List Char) (hrest : rest.length ≤ n) (hcw : isWordChar c = true)
    (hne : c :: rest.takeWhile isWordChar ≠ t0 :: ts) :
    wordRuns (c :: replaceWordAux t0 ts corr true rest)
      = (wordRuns (c :: rest)).map (fun r => if r = t0 :: ts then corr else r) := by
  have hallw : ∀ x ∈ c :: rest.takeWhile isWordChar, isWordChar x = true := by
    intro x hx
    rcases List.mem_cons.mp hx with h | h
    · exact h ▸ hcw
    · exact List.mem_takeWhile_imp h
  rw [replaceWordAux_true_scan]
  cases hz : rest.dropWhile isWordChar with
  | nil =>
    have hru : rest.takeWhile isWordChar = rest := by
      have h0 := List.takeWhile_append_dropWhile isWordChar rest
      rw [hz, List.append_nil] at h0
      exact h0
    dsimp only
    rw [hru] at hne hallw
    rw [List.append_nil, hru,
      runs_all_word (c :: rest) (List.cons_ne_nil c rest) hallw]
    simp [hne]
  | cons e v2 =>
    have hew : isWordChar e = false :=
      head?_dropWhile_false isWordChar rest e (by rw [hz]; rfl)
    have hsplit : rest = rest.takeWhile isWordChar ++ e :: v2 := by
      conv_lhs => rw [← List.takeWhile_append_dropWhile isWordChar rest]
      rw [hz]
    have hlen : v2.length ≤ n := by
      have hl0 := congrArg List.length hsplit
      simp only [List.length_append, List.length_cons] at hl0
      omega
    dsimp only
    conv_rhs => rw [hsplit]
    simp only [← List.cons_append]
    rw [runs_append_sep (c :: rest.takeWhile isWordChar).length _ le_rfl e
        (replaceWordAux t0 ts corr false v2) hew,
      runs_append_sep (c :: rest.takeWhile isWordChar).length _ le_rfl e v2 hew,
      runs_all_word (c :: rest.takeWhile isWordChar) (List.cons_ne_nil _ _) hallw,
      ih v2 hlen]
    simp [hne]

theorem runs_replaceWordAux (t0 : Char) (ts corr : List Char)
    (hw : ∀ c ∈ t0 :: ts, isWordChar c = true)
    (hcorr : ∀ c ∈ corr, isWordChar c = true) (hcne : corr ≠ []) :
    ∀ (n : Nat) (s : List Char), s.length ≤ n →
      wordRuns (replaceWordAux t0 ts corr false s)
        = (wordRuns s).map (fun r => if r = t0 :: ts then corr else r) := by
  intro n
  induction n with
  | zero =>
    intro s hs
    have hnil : s = [] := List.length_eq_zero.mp (Nat.le_zero.mp hs)
    subst hnil
    rfl
  | succ n ih =>
    intro s hs
    cases s with
    | nil => rfl
    | cons c rest =>
      simp only [List.length_cons] at hs
      have hrest : rest.length ≤ n := by omega
      cases hcw : isWordChar c with
      | false =>
        have hpf : prefixEq (t0 :: ts) (c :: rest) = false :=
          prefixEq_cons_false ts rest
            (word_beq_nonword_false (hw t0 (List.mem_cons_self t0 ts)) hcw)
        rw [replaceWordAux_cons_skip t0 ts corr false c rest hpf, hcw,
          runs_cons_nonword _ hcw, runs_cons_nonword rest hcw]
        exact ih rest hrest
      | true =>
        cases hh : (rest.drop ts.length).head? with
        | none =>
          by_cases hpf : prefixEq (t0 :: ts) (c :: rest) = true
          · have hv : rest.drop ts.length = [] := by
              cases hvv : rest.drop ts.length with
              | nil => rfl
              | cons e v2 => rw [hvv, List.head?_cons] at hh; simp at hh
            have hdec := prefixEq_decomp (t0 :: ts) (c :: rest) hpf
            rw [List.length_cons, List.drop_succ_cons, hv, List.append_nil] at hdec
            rw [replaceWordAux_cons_head_none t0 ts corr false c rest hh,
              if_pos (by simp [hpf]), hv, replaceWordAux_nil, List.append_nil,
              runs_all_word corr hcne hcorr, hdec,
              runs_all_word (t0 :: ts) (List.cons_ne_nil t0 ts) hw]
            simp
          · rw [replaceWordAux_cons_head_none t0 ts corr false c rest hh,
              if_neg (by simp [hpf]), hcw]
            apply runs_replace_nomatch_cons t0 ts corr hcorr hcne n ih c rest hrest hcw
            intro hEq
            obtain ⟨h1, h2⟩ := List.cons.inj hEq
            have hzv : rest.drop ts.length = rest.dropWhile isWordChar := by
              rw [← h2]
              nth_rewrite 2 [show rest
                  = rest.takeWhile isWordChar ++ rest.dropWhile isWordChar
                from (List.takeWhile_append_dropWhile isWordChar rest).symm]
              exact List.drop_left _ _
            rw [hzv] at hh
            have hdw0 : rest.dropWhile isWordChar = [] := by
              cases hvv : rest.dropWhile isWordChar with
              | nil => rfl
              | cons e v2 => rw [hvv, List.head?_cons] at hh; simp at hh
            have hru : rest.takeWhile isWordChar = rest := by
              have h0 := List.takeWhile_append_dropWhile isWordChar rest
              rw [hdw0, List.append_nil] at h0
              exact h0
            apply hpf
            have hself := prefixEq_self_append (c :: rest.takeWhile isWordChar) []
            rw [List.append_nil] at hself
            rw [← hEq]
            nth_rewrite 2 [← hru]
            exact hself
        | some d =>
          by_cases hm : prefixEq (t0 :: ts) (c :: rest) = true ∧ isWordChar d = false
          · obtain ⟨hpf, hdw⟩ := hm
            obtain ⟨v2, hvv⟩ : ∃ v2, rest.drop ts.length = d :: v2 := by
              cases hvv0 : rest.drop ts.length with
              | nil => rw [hvv0] at hh; simp at hh
              | cons e v2 =>
                rw [hvv0, List.head?_cons, Option.some.injEq] at hh
                exact ⟨v2, by rw [hh]⟩
            have hdec := prefixEq_decomp (t0 :: ts) (c :: rest) hpf
            rw [List.length_cons, List.drop_succ_cons, hvv] at hdec
            have hlen2 : v2.length ≤ n := by
              have hl0 := congrArg List.length hdec
              simp only [List.length_cons, List.length_append] at hl0
              omega
            rw [replaceWordAux_cons_head_some t0 ts corr false c rest d hh,
              if_pos (by simp [hpf, hdw]), hvv,
              replaceWordAux_cons_skip t0 ts corr _ d v2
                (prefixEq_cons_false ts v2
                  (word_beq_nonword_false (hw t0 (List.mem_cons_self t0 ts)) hdw)),
              hdw,
              runs_append_sep corr.length corr le_rfl d _ hdw,
              runs_all_word corr hcne hcorr, ih v2 hlen2, hdec,
              runs_append_sep (t0 :: ts).length _ le_rfl d v2 hdw,
              runs_all_word (t0 :: ts) (List.cons_ne_nil t0 ts) hw]
            simp
          · rw [replaceWordAux_cons_head_some t0 ts corr false c rest d hh,
              if_neg (by simp only [Bool.not_false, Bool.true_and, Bool.and_eq_true,
                Bool.not_eq_true']; exact hm), hcw]
            apply runs_replace_nomatch_cons t0 ts corr hcorr hcne n ih c rest hrest hcw
            intro hEq
            obtain ⟨h1, h2⟩ := List.cons.inj hEq
            have hzv : rest.drop ts.length = rest.dropWhile isWordChar := by
              rw [← h2]
              nth_rewrite 2 [show rest
                  = rest.takeWhile isWordChar ++ rest.dropWhile isWordChar
                from (List.takeWhile_append_dropWhile isWordChar rest).symm]
              exact List.drop_left _ _
            rw [hzv] at hh
            have hdwd : isWordChar d = false := head?_dropWhile_false isWordChar rest d hh
            apply hm
            refine ⟨?_, hdwd⟩
            have hsplit : c :: rest
                = (c :: rest.takeWhile isWordChar) ++ rest.dropWhile isWordChar := by
              rw [List.cons_append, List.takeWhile_append_dropWhile]
            rw [← hEq, hsplit]
            exact prefixEq_self_append _ _

theorem replaceWordAux_true_id (t0 : Char) (ts corr : List Char) (n : Nat)
    (ih : ∀ (s : List Char), s.length ≤ n → (t0 :: ts) ∉ wordRuns s →
      replaceWordAux t0 ts corr false s = s)
    (c : Char) (rest : List Char) (hrest : rest.length ≤ n) (hcw : isWordChar c = true)
    (hnot : (t0 :: ts) ∉ wordRuns (c :: rest)) :
    c :: replaceWordAux t0 ts corr true rest = c :: rest := by
  have hallw : ∀ x ∈ c :: rest.takeWhile isWordChar, isWordChar x = true := by
    intro x hx
    rcases List.mem_cons.mp hx with h | h
    · exact h ▸ hcw
    · exact List.mem_takeWhile_imp h
  rw [replaceWordAux_true_scan]
  cases hz : rest.dropWhile isWordChar with
  | nil =>
    have hru : rest.takeWhile isWordChar = rest := by
      have h0 := List.takeWhile_append_dropWhile isWordChar rest
      rw [hz, List.append_nil] at h0
      exact h0
    dsimp only
    rw [List.append_nil, hru]
  | cons e v2 =>
    have hew : isWordChar e = false :=
      head?_dropWhile_false isWordChar rest e (by rw [hz]; rfl)
    have hsplit : rest = rest.takeWhile isWordChar ++ e :: v2 := by
      conv_lhs => rw [← List.takeWhile_append_dropWhile isWordChar rest]
      rw [hz]
    have hlen : v2.length ≤ n := by
      have hl0 := congrArg List.length hsplit
      simp only [List.length_append, List.length_cons] at hl0
      omega
    have hruns : wordRuns (c :: rest)
        = (c :: rest.takeWhile isWordChar) :: wordRuns v2 := by
      conv_lhs => rw [hsplit]
      simp only [← List.cons_append]
      rw [runs_append_sep (c :: rest.takeWhile isWordChar).length _ le_rfl e v2 hew,
        runs_all_word (c :: rest.takeWhile isWordChar) (List.cons_ne_nil _ _) hallw]
      rfl
    rw [hruns] at hnot
    have hnotv : (t0 :: ts) ∉ wordRuns v2 := fun hm => hnot (List.mem_cons_of_mem _ hm)
    dsimp only
    rw [ih v2 hlen hnotv]
    rw [show c :: (rest.takeWhile isWordChar ++ e :: v2) = c :: rest from by rw [← hsplit]]

theorem replaceWordAux_id_of_no_run (t0 : Char) (ts corr : List Char)
    (hw : ∀ c ∈ t0 :: ts, isWordChar c = true) :
    ∀ (n : Nat) (s : List Char), s.length ≤ n → (t0 :: ts) ∉ wordRuns s →
      replaceWordAux t0 ts corr false s = s := by
  intro n
  induction n with
  | zero =>
    intro s hs _
    have hnil : s = [] := List.length_eq_zero.mp (Nat.le_zero.mp hs)
    subst hnil
    rfl
  | succ n ih =>
    intro s hs hnot
    cases s with
    | nil => rfl
    | cons c rest =>
      simp only [List.length_cons] at hs
      have hrest : rest.length ≤ n := by omega
      cases hcw : isWordChar c with
      | false =>
        have hpf : prefixEq (t0 :: ts) (c :: rest) = false :=
          prefixEq_cons_false ts rest
            (word_beq_nonword_false (hw t0 (List.mem_cons_self t0 ts)) hcw)
        rw [replaceWordAux_cons_skip t0 ts corr false c rest hpf, hcw]
        rw [runs_cons_nonword rest hcw] at hnot
        rw [ih rest hrest hnot]
      | true =>
        cases hh : (rest.drop ts.length).head? with
        | none =>
          by_cases hpf : prefixEq (t0 :: ts) (c :: rest) = true
          · exfalso
            have hv : rest.drop ts.length = [] := by
              cases hvv : rest.drop ts.length with
              | nil => rfl
              | cons e v2 => rw [hvv, List.head?_cons] at hh; simp at hh
            have hdec := prefixEq_decomp (t0 :: ts) (c :: rest) hpf
            rw [List.length_cons, List.drop_succ_cons, hv, List.append_nil] at hdec
            apply hnot
            rw [hdec, runs_all_word (t0 :: ts) (List.cons_ne_nil t0 ts) hw]
            exact List.mem_cons_self _ _
          · rw [replaceWordAux_cons_head_none t0 ts corr false c rest hh,
              if_neg (by simp [hpf]), hcw]
            exact replaceWordAux_true_id t0 ts corr n ih c rest hrest hcw hnot
        | some d =>
          by_cases hm : prefixEq (t0 :: ts) (c :: rest) = true ∧ isWordChar d = false
          · exfalso
            obtain ⟨hpf, hdw⟩ := hm
            obtain ⟨v2, hvv⟩ : ∃ v2, rest.drop ts.length = d :: v2 := by
              cases hvv0 : rest.drop ts.length with
              | nil => rw [hvv0] at hh; simp at hh
              | cons e v2 =>
                rw [hvv0, List.head?_cons, Option.some.injEq] at hh
                exact ⟨v2, by rw [hh]⟩
            have hdec := prefixEq_decomp (t0 :: ts) (c :: rest) hpf
            rw [List.length_cons, List.drop_succ_cons, hvv] at hdec
            apply hnot
            rw [hdec, runs_append_sep (t0 :: ts).length _ le_rfl d v2 hdw,
              runs_all_word (t0 :: ts) (List.cons_ne_nil t0 ts) hw]
            exact List.mem_append.mpr (Or.inl (List.mem_cons_self _ _))
          · rw [replaceWordAux_cons_head_some t0 ts corr false c rest d hh,
              if_neg (by simp only [Bool.not_false, Bool.true_and, Bool.and_eq_true,
                Bool.not_eq_true']; exact hm), hcw]
            exact replaceWordAux_true_id t0 ts corr n ih c rest hrest hcw hnot

theorem runs_replaceWordAll (s w corr : List Char)
    (hwne : w ≠ []) (hword : ∀ c ∈ w, isWordChar c = true)
    (hcorr : ∀ c ∈ corr, isWordChar c = true) (hcne : corr ≠ []) :
    wordRuns (replaceWordAll s w corr)
      = (wordRuns s).map (fun r => if r = w then corr else r) := by
  cases w with
  | nil => exact absurd rfl hwne
  | cons t0 ts =>
    unfold replaceWordAll
    exact runs_replaceWordAux t0 ts corr hword hcorr hcne s.length s le_rfl

theorem replaceWordAll_id (s w corr : List Char)
    (hword : ∀ c ∈ w, isWordChar c = true) (hnot : w ∉ wordRuns s) :
    replaceWordAll s w corr = s := by
  cases w with
  | nil => rfl
  | cons t0 ts =>
    unfold replaceWordAll
    exact replaceWordAux_id_of_no_run t0 ts corr hword s.length s le_rfl hnot

theorem squashRuns_id (p : Char → Bool) :
    ∀ (l : List Char), (∀ c ∈ l, p c = false) → squashRuns p l = l := by
  intro l
  induction l with
  | nil => intro _; rfl
  | cons c t ih =>
    intro h
    rw [squashRuns_cons_neg t (h c (List.mem_cons_self c t)),
      ih (fun x hx => h x (List.mem_cons_of_mem c hx))]

theorem chars_squashRuns (p : Char → Bool) :
    ∀ (n : Nat) (l : List Char), l.length ≤ n →
      ∀ c ∈ squashRuns p l, c ∈ l ∨ c = ' ' := by
  intro n
  induction n with
  | zero =>
    intro l hl c hc
    have hnil : l = [] := List.length_eq_zero.mp (Nat.le_zero.mp hl)
    subst hnil
    exact absurd hc (List.not_mem_nil c)
  | succ n ih =>
    intro l hl c hc
    cases l with
    | nil => exact absurd hc (List.not_mem_nil c)
    | cons c0 t =>
      simp only [List.length_cons] at hl
      cases hp0 : p c0 with
      | true =>
        rw [squashRuns_cons_pos t hp0] at hc
        rcases List.mem_cons.mp hc with h | h
        · exact Or.inr h
        · have hlen : (t.dropWhile p).length ≤ n := by
            have := (List.dropWhile_sublist (l := t) p).length_le
            omega
          rcases ih (t.dropWhile p) hlen c h with hin | hsp
          · exact Or.inl
              (List.mem_cons_of_mem c0 ((List.dropWhile_sublist (l := t) p).subset hin))
          · exact Or.inr hsp
      | false =>
        rw [squashRuns_cons_neg t hp0] at hc
        rcases List.mem_cons.mp hc with h | h
        · exact Or.inl (h ▸ List.mem_cons_self c0 t)
        · rcases ih t (by omega) c h with hin | hsp
          · exact Or.inl (List.mem_cons_of_mem c0 hin)
          · exact Or.inr hsp

theorem squashRuns_no_p (p : Char → Bool) (hsp : p ' ' = false) :
    ∀ (n : Nat) (l : List Char), l.length ≤ n → ∀ c ∈ squashRuns p l, p c = false := by
  intro n
  induction n with
  | zero =>
    intro l hl c hc
    have hnil : l = [] := List.length_eq_zero.mp (Nat.le_zero.mp hl)
    subst hnil
    exact absurd hc (List.not_mem_nil c)
  | succ n ih =>
    intro l hl c hc
    cases l with
    | nil => exact absurd hc (List.not_mem_nil c)
    | cons c0 t =>
      simp only [List.length_cons] at hl
      cases hp0 : p c0 with
      | true =>
        rw [squashRuns_cons_pos t hp0] at hc
        rcases List.mem_cons.mp hc with h | h
        · rw [h]
          exact hsp
        · have hlen : (t.dropWhile p).length ≤ n := by
            have := (List.dropWhile_sublist (l := t) p).length_le
            omega
          exact ih (t.dropWhile p) hlen c h
      | false =>
        rw [squashRuns_cons_neg t hp0] at hc
        rcases List.mem_cons.mp hc with h | h
        · rw [h]
          exact hp0
        · exact ih t (by omega) c h

theorem squash_tw_dw (p : Char → Bool) (hp : ∀ c, p c = true → isWordChar c = false) :
    ∀ (t : List Char),
      (squashRuns p t).takeWhile isWordChar = t.takeWhile isWordChar
      ∧ (squashRuns p t).dropWhile isWordChar = squashRuns p (t.dropWhile isWordChar) := by
  intro t
  induction t with
  | nil => exact ⟨rfl, rfl⟩
  | cons e t2 ih =>
    cases hpe : p e with
    | true =>
      have hew : isWordChar e = false := hp e hpe
      constructor
      · rw [squashRuns_cons_pos t2 hpe, List.takeWhile_cons, if_neg (by decide),
          List.takeWhile_cons, if_neg (by simp [hew])]
      · rw [squashRuns_cons_pos t2 hpe, List.dropWhile_cons, if_neg (by decide),
          List.dropWhile_cons, if_neg (by simp [hew]), squashRuns_cons_pos t2 hpe]
    | false =>
      cases hew : isWordChar e with
      | true =>
        constructor
        · rw [squashRuns_cons_neg t2 hpe, List.takeWhile_cons, if_pos hew,
            List.takeWhile_cons, if_pos hew, ih.1]
        · rw [squashRuns_cons_neg t2 hpe, List.dropWhile_cons, if_pos hew,
            List.dropWhile_cons, if_pos hew, ih.2]
      | false =>
        constructor
        · rw [squashRuns_cons_neg t2 hpe, List.takeWhile_cons, if_neg (by simp [hew]),
            List.takeWhile_cons, if_neg (by simp [hew])]
        · rw [squashRuns_cons_neg t2 hpe, List.dropWhile_cons, if_neg (by simp [hew]),
            List.dropWhile_cons, if_neg (by simp [hew]), squashRuns_cons_neg t2 hpe]

theorem runs_squashRuns (p : Char → Bool) (hp : ∀ c, p c = true → isWordChar c = false) :
    ∀ (n : Nat) (l : List Char), l.length ≤ n →
      wordRuns (squashRuns p l) = wordRuns l := by
  intro n
  induction n with
  | zero =>
    intro l hl
    have hnil : l = [] := List.length_eq_zero.mp (Nat.le_zero.mp hl)
    subst hnil
    rfl
  | succ n ih =>
    intro l hl
    cases l with
    | nil => rfl
    | cons c0 t =>
      simp only [List.length_cons] at hl
      cases hp0 : p c0 with
      | true =>
        have hlen : (t.dropWhile p).length ≤ n := by
          have := (List.dropWhile_sublist (l := t) p).length_le
          omega
        rw [squashRuns_cons_pos t hp0, runs_cons_nonword _ (by decide),
          ih (t.dropWhile p) hlen, runs_dropWhile_nonword p hp t,
          runs_cons_nonword t (hp c0 hp0)]
      | false =>
        cases hcw : isWordChar c0 with
        | true =>
          have hlen : (t.dropWhile isWordChar).length ≤ n := by
            have := (List.dropWhile_sublist (l := t) isWordChar).length_le
            omega
          rw [squashRuns_cons_neg t hp0, runs_cons_word _ hcw, runs_cons_word t hcw,
            (squash_tw_dw p hp t).1, (squash_tw_dw p hp t).2,
            ih (t.dropWhile isWordChar) hlen]
        | false =>
          rw [squashRuns_cons_neg t hp0, runs_cons_nonword _ hcw,
            runs_cons_nonword t hcw, ih t (by omega)]

theorem trim_decomp (l : List Char) :
    l.dropWhile isWsChar
      = trimChars l ++ (((l.dropWhile isWsChar).reverse).takeWhile isWsChar).reverse := by
  calc l.dropWhile isWsChar
      = ((l.dropWhile isWsChar).reverse).reverse := (List.reverse_reverse _).symm
    _ = (((l.dropWhile isWsChar).reverse).takeWhile isWsChar
          ++ ((l.dropWhile isWsChar).reverse).dropWhile isWsChar).reverse := by
        rw [List.takeWhile_append_dropWhile]
    _ = (((l.dropWhile isWsChar).reverse).dropWhile isWsChar).reverse
          ++ (((l.dropWhile isWsChar).reverse).takeWhile isWsChar).reverse :=
        List.reverse_append _ _
    _ = trimChars l ++ (((l.dropWhile isWsChar).reverse).takeWhile isWsChar).reverse := rfl

theorem runs_trimChars (l : List Char) : wordRuns (trimChars l) = wordRuns l := by
  have h1 : wordRuns (l.dropWhile isWsChar) = wordRuns l :=
    runs_dropWhile_nonword isWsChar (fun c h => ws_not_word h) l
  rw [← h1, trim_decomp l,
    runs_append_all_nonword (trimChars l) _
      (fun c hc => ws_not_word (List.mem_takeWhile_imp (List.mem_reverse.mp hc)))]

theorem chars_trimChars (l : List Char) (c : Char) (h : c ∈ trimChars l) : c ∈ l := by
  unfold trimChars at h
  rw [List.mem_reverse] at h
  have h2 := (List.dropWhile_sublist (l := (l.dropWhile isWsChar).reverse) isWsChar).subset h
  rw [List.mem_reverse] at h2
  exact (List.dropWhile_sublist (l := l) isWsChar).subset h2

theorem trimChars_idem (l : List Char) : trimChars (trimChars l) = trimChars l := by
  have hB : ((trimChars l).reverse).dropWhile isWsChar = (trimChars l).reverse := by
    rw [show (trimChars l).reverse
        = ((l.dropWhile isWsChar).reverse).dropWhile isWsChar from by
      unfold trimChars
      rw [List.reverse_reverse]]
    apply dropWhile_eq_self_of_head
    intro d hd
    exact head?_dropWhile_false isWsChar _ d hd
  have hA : (trimChars l).dropWhile isWsChar = trimChars l := by
    apply dropWhile_eq_self_of_head
    intro d hd
    cases hy : trimChars l with
    | nil => rw [hy] at hd; simp at hd
    | cons e y2 =>
      rw [hy, List.head?_cons, Option.some.injEq] at hd
      subst hd
      have hdecomp := trim_decomp l
      rw [hy, List.cons_append] at hdecomp
      exact head?_dropWhile_false isWsChar l e (by rw [hdecomp]; rfl)
  rw [show trimChars (trimChars l)
      = (((trimChars l).dropWhile isWsChar).reverse.dropWhile isWsChar).reverse from rfl]
  rw [hA, hB, List.reverse_reverse]

theorem wsOK_tail (c : Char) (t : List Char) (h : wsOK (c :: t) = true) : wsOK t = true := by
  simp only [wsOK] at h
  by_cases hws : isWsChar c = true
  · rw [if_pos hws] at h
    simp only [Bool.and_eq_true] at h
    exact h.2
  · rw [if_neg hws] at h
    exact h

theorem wsOK_dropWhile (p : Char → Bool) :
    ∀ (l : List Char), wsOK l = true → wsOK (l.dropWhile p) = true := by
  intro l
  induction l with
  | nil => intro h; exact h
  | cons c t ih =>
    intro h
    rw [List.dropWhile_cons]
    by_cases hpc : p c = true
    · rw [if_pos hpc]
      exact ih (wsOK_tail c t h)
    · rw [if_neg hpc]
      exact h

theorem wsOK_append_left : ∀ (a b : List Char), wsOK (a ++ b) = true → wsOK a = true := by
  intro a
  induction a with
  | nil => intro b _; rfl
  | cons c a2 ih =>
    intro b h
    rw [List.cons_append] at h
    simp only [wsOK] at h ⊢
    by_cases hws : isWsChar c = true
    · rw [if_pos hws] at h ⊢
      simp only [Bool.and_eq_true] at h ⊢
      obtain ⟨⟨h1, h2⟩, h3⟩ := h
      refine ⟨⟨h1, ?_⟩, ih b h3⟩
      cases a2 with
      | nil => rfl
      | cons e a3 =>
        rw [List.cons_append, List.head?_cons] at h2
        rw [List.head?_cons]
        exact h2
    · rw [if_neg hws] at h ⊢
      exact ih b h

theorem wsOK_squashRuns :
    ∀ (n : Nat) (l : List Char), l.length ≤ n →
      wsOK (squashRuns isWsChar l) = true := by
  intro n
  induction n with
  | zero =>
    intro l hl
    have hnil : l = [] := List.length_eq_zero.mp (Nat.le_zero.mp hl)
    subst hnil
    rfl
  | succ n ih =>
    intro l hl
    cases l with
    | nil => rfl
    | cons c t =>
      simp only [List.length_cons] at hl
      cases hws : isWsChar c with
      | false =>
        rw [squashRuns_cons_neg t hws]
        simp only [wsOK]
        rw [if_neg (by simp [hws])]
        exact ih t (by omega)
      | true =>
        rw [squashRuns_cons_pos t hws]
        simp only [wsOK]
        rw [if_pos (by decide)]
        simp only [beq_self_eq_true, Bool.true_and]
        rw [Bool.and_eq_true]
        have hlen : (t.dropWhile isWsChar).length ≤ n := by
          have := (List.dropWhile_sublist (l := t) isWsChar).length_le
          omega
        refine ⟨?_, ih (t.dropWhile isWsChar) hlen⟩
        cases hu : t.dropWhile isWsChar with
        | nil => rfl
        | cons d u2 =>
          have hdws : isWsChar d = false :=
            head?_dropWhile_false isWsChar t d (by rw [hu]; rfl)
          rw [squashRuns_cons_neg u2 hdws, List.head?_cons]
          simp [hdws]

theorem wsOK_squash_id :
    ∀ (n : Nat) (l : List Char), l.length ≤ n → wsOK l = true →
      squashRuns isWsChar l = l := by
  intro n
  induction n with
  | zero =>
    intro l hl _
    have hnil : l = [] := List.length_eq_zero.mp (Nat.le_zero.mp hl)
    subst hnil
    rfl
  | succ n ih =>
    intro l hl hOK
    cases l with
    | nil => rfl
    | cons c t =>
      simp only [List.length_cons] at hl
      cases hws : isWsChar c with
      | false =>
        have hOKt : wsOK t = true := wsOK_tail c t hOK
        rw [squashRuns_cons_neg t hws, ih t (by omega) hOKt]
      | true =>
        simp only [wsOK] at hOK
        rw [if_pos hws] at hOK
        simp only [Bool.and_eq_true, beq_iff_eq] at hOK
        obtain ⟨⟨hc, hM⟩, hOKt⟩ := hOK
        subst hc
        rw [squashRuns_cons_pos t hws]
        congr 1
        cases t with
        | nil => rfl
        | cons d t2 =>
          rw [List.head?_cons] at hM
          simp only [Bool.not_eq_true'] at hM
          rw [List.dropWhile_cons, if_neg (by simp [hM]), ih (d :: t2) (by omega) hOKt]

theorem wsOK_trimChars (l : List Char) (h : wsOK l = true) :
    wsOK (trimChars l) = true := by
  have h1 : wsOK (l.dropWhile isWsChar) = true := wsOK_dropWhile isWsChar l h
  rw [trim_decomp l] at h1
  exact wsOK_append_left _ _ h1

theorem subst_not_mem {x w corr : List Char} (L : List (List Char))
    (hne : x ≠ corr) (h : x = w ∨ x ∉ L) :
    x ∉ L.map (fun r => if r = w then corr else r) := by
  intro hmem
  rcases List.mem_map.mp hmem with ⟨r, hr, hsub⟩
  by_cases hrw : r = w
  · rw [if_pos hrw] at hsub
    exact hne hsub.symm
  · rw [if_neg hrw] at hsub
    rcases h with hxw | hnin
    · exact hrw (hsub.trans hxw)
    · exact hnin (hsub ▸ hr)

theorem foldl_typos_absent (x : List Char) :
    ∀ (ps : List (String × String)) (s : List Char),
      (∀ p ∈ ps, p.1.data ≠ [] ∧ (∀ c ∈ p.1.data, isWordChar c = true)
        ∧ p.2.data ≠ [] ∧ (∀ c ∈ p.2.data, isWordChar c = true) ∧ x ≠ p.2.data) →
      (x ∉ wordRuns s ∨ ∃ p ∈ ps, x = p.1.data) →
      x ∉ wordRuns (ps.foldl (fun acc p => replaceWordAll acc p.1.data p.2.data) s) := by
  intro ps
  induction ps with
  | nil =>
    intro s _ h
    rcases h with h | ⟨p, hp, _⟩
    · exact h
    · exact absurd hp (List.not_mem_nil p)
  | cons q t ih =>
    intro s hcond h
    rw [List.foldl_cons]
    obtain ⟨hq1, hq2, hq3, hq4, hq5⟩ := hcond q (List.mem_cons_self q t)
    apply ih _ (fun p hp => hcond p (List.mem_cons_of_mem q hp))
    rcases h with hnot | ⟨p, hp, hxp⟩
    · left
      rw [runs_replaceWordAll s q.1.data q.2.data hq1 hq2 hq4 hq3]
      exact subst_not_mem _ hq5 (Or.inr hnot)
    · rcases List.mem_cons.mp hp with hpq | hpt
      · left
        rw [runs_replaceWordAll s q.1.data q.2.data hq1 hq2 hq4 hq3]
        exact subst_not_mem _ hq5 (Or.inl (by rw [hxp, hpq]))
      · right
        exact ⟨p, hpt, hxp⟩

theorem foldl_replace_id :
    ∀ (ps : List (String × String)) (s : List Char),
      (∀ p ∈ ps, (∀ c ∈ p.1.data, isWordChar c = true) ∧ p.1.data ∉ wordRuns s) →
      ps.foldl (fun acc p => replaceWordAll acc p.1.data p.2.data) s = s := by
  intro ps
  induction ps with
  | nil => intro s _; rfl
  | cons q t ih =>
    intro s h
    rw [List.foldl_cons]
    obtain ⟨hw, hnot⟩ := h q (List.mem_cons_self q t)
    rw [replaceWordAll_id s q.1.data q.2.data hw hnot]
    exact ih s (fun p hp => h p (List.mem_cons_of_mem q hp))

theorem chars_foldl_typos (c : Char) :
    ∀ (ps : List (String × String)) (s : List Char),
      c ∈ ps.foldl (fun acc p => replaceWordAll acc p.1.data p.2.data) s →
      c ∈ s ∨ ∃ p ∈ ps, c ∈ p.2.data := by
  intro ps
  induction ps with
  | nil => intro s h; exact Or.inl h
  | cons q t ih =>
    intro s h
    rw [List.foldl_cons] at h
    rcases ih _ h with h1 | ⟨p, hp, hc⟩
    · rcases chars_replaceWordAll s q.1.data q.2.data c h1 with h2 | h2
      · exact Or.inl h2
      · exact Or.inr ⟨q, List.mem_cons_self q t, h2⟩
    · exact Or.inr ⟨p, List.mem_cons_of_mem q hp, hc⟩

theorem applySyn_foldl_not_mem (x : List Char) :
    ∀ (ps : List (String × List String)) (s : List Char),
      (∀ p ∈ ps, x ∉ wordRuns (String.intercalate " " p.2).data) →
      x ∉ wordRuns s →
      x ∉ wordRuns (ps.foldl
        (fun acc p =>
          if containsSub acc p.1.data then
            acc ++ (' ' :: (String.intercalate " " p.2).data)
          else acc) s) := by
  intro ps
  induction ps with
  | nil => intro s _ h; exact h
  | cons q t ih =>
    intro s hps h
    rw [List.foldl_cons]
    apply ih _ (fun p hp => hps p (List.mem_cons_of_mem q hp))
    by_cases hc : containsSub s q.1.data = true
    · rw [if_pos hc,
        runs_append_sep s.length s le_rfl ' ' _ (by decide)]
      intro hmem
      rcases List.mem_append.mp hmem with h1 | h1
      · exact h h1
      · exact hps q (List.mem_cons_self q t) h1
    · rw [if_neg hc]
      exact h

theorem applySyn_foldl_id :
    ∀ (ps : List (String × List String)) (s : List Char),
      (∀ p ∈ ps, containsSub s p.1.data = false) →
      ps.foldl (fun acc p =>
        if containsSub acc p.1.data then
          acc ++ (' ' :: (String.intercalate " " p.2).data)
        else acc) s = s := by
  intro ps
  induction ps with
  | nil => intro s _; rfl
  | cons q t ih =>
    intro s h
    rw [List.foldl_cons, if_neg (by simp [h q (List.mem_cons_self q t)]),
      ih s (fun p hp => h p (List.mem_cons_of_mem q hp))]

theorem chars_applySyn_foldl (c : Char) :
    ∀ (ps : List (String × List String)) (s : List Char),
      c ∈ ps.foldl (fun acc p =>
          if containsSub acc p.1.data then
            acc ++ (' ' :: (String.intercalate " " p.2).data)
          else acc) s →
      c ∈ s ∨ c = ' ' ∨ ∃ p ∈ ps, c ∈ (String.intercalate " " p.2).data := by
  intro ps
  induction ps with
  | nil => intro s h; exact Or.inl h
  | cons q t ih =>
    intro s h
    rw [List.foldl_cons] at h
    rcases ih _ h with h1 | h1 | ⟨p, hp, hc⟩
    · by_cases hcs : containsSub s q.1.data = true
      · rw [if_pos hcs] at h1
        rcases List.mem_append.mp h1 with h2 | h2
        · exact Or.inl h2
        · rcases List.mem_cons.mp h2 with h3 | h3
          · exact Or.inr (Or.inl h3)
          · exact Or.inr (Or.inr ⟨q, List.mem_cons_self q t, h3⟩)
      · rw [if_neg hcs] at h1
        exact Or.inl h1
    · exact Or.inr (Or.inl h1)
    · exact Or.inr (Or.inr ⟨p, List.mem_cons_of_mem q hp, hc⟩)

theorem typo_table_wf :
    ∀ p ∈ TYPO_CORRECTIONS,
      p.1.data ≠ [] ∧ (∀ c ∈ p.1.data, isWordChar c = true)
      ∧ p.2.data ≠ [] ∧ (∀ c ∈ p.2.data, isWordChar c = true) := by decide

theorem typo_ne_corr :
    ∀ k ∈ TYPO_CORRECTIONS, ∀ p ∈ TYPO_CORRECTIONS, k.1.data ≠ p.2.data := by decide

theorem typo_not_in_syn_blocks :
    ∀ k ∈ TYPO_CORRECTIONS, ∀ p ∈ SYNONYMS,
      k.1.data ∉ wordRuns (String.intercalate " " p.2).data := by decide

theorem corr_chars_lower :
    ∀ p ∈ TYPO_CORRECTIONS, ∀ c ∈ p.2.data, Char.toLower c = c := by decide

theorem syn_chars_lower :
    ∀ p ∈ SYNONYMS, ∀ c ∈ (' ' :: (String.intercalate " " p.2).data),
      Char.toLower c = c := by decide

theorem typos_not_in_applyTypos (s : List Char) :
    ∀ k ∈ TYPO_CORRECTIONS, k.1.data ∉ wordRuns (applyTypos s) := by
  intro k hk
  unfold applyTypos
  apply foldl_typos_absent k.1.data TYPO_CORRECTIONS s
  · intro p hp
    obtain ⟨h1, h2, h3, h4⟩ := typo_table_wf p hp
    exact ⟨h1, h2, h3, h4, typo_ne_corr k hk p hp⟩
  · exact Or.inr ⟨k, hk, rfl⟩

theorem normalizeQuery_eq (q : String) :
    normalizeQuery q
      = ⟨trimChars (squashRuns isWsChar (squashRuns isPunctQ
          (applySynonyms (applyTypos (trimChars (q.data.map Char.toLower))))))⟩ := by
  unfold normalizeQuery
  dsimp only

theorem normalizeQuery_data (q : String) :
    (normalizeQuery q).data
      = trimChars (squashRuns isWsChar (squashRuns isPunctQ
          (applySynonyms (applyTypos (trimChars (q.data.map Char.toLower)))))) := by
  rw [normalizeQuery_eq q]

theorem runs_normalizeQuery (q : String) :
    wordRuns (normalizeQuery q).data
      = wordRuns (applySynonyms (applyTypos (trimChars (q.data.map Char.toLower)))) := by
  rw [normalizeQuery_data, runs_trimChars,
    runs_squashRuns isWsChar (fun c h => ws_not_word h) _ _ le_rfl,
    runs_squashRuns isPunctQ (fun c h => punct_not_word h) _ _ le_rfl]

theorem typos_not_in_normalized (q : String) :
    ∀ k ∈ TYPO_CORRECTIONS, k.1.data ∉ wordRuns (normalizeQuery q).data := by
  intro k hk
  rw [runs_normalizeQuery]
  unfold applySynonyms
  apply applySyn_foldl_not_mem
  · intro p hp
    exact typo_not_in_syn_blocks k hk p hp
  · exact typos_not_in_applyTypos _ k hk

theorem chars_normalizeQuery (q : String) :
    ∀ c ∈ (normalizeQuery q).data, Char.toLower c = c := by
  intro c hc
  rw [normalizeQuery_data] at hc
  have hc2 := chars_trimChars _ c hc
  rcases chars_squashRuns isWsChar _ _ le_rfl c hc2 with hc3 | hsp
  · rcases chars_squashRuns isPunctQ _ _ le_rfl c hc3 with hc4 | hsp
    · rcases chars_applySyn_foldl c SYNONYMS _ hc4 with hc5 | hsp | ⟨p, hp, hcp⟩
      · rcases chars_foldl_typos c TYPO_CORRECTIONS _ hc5 with hc6 | ⟨p, hp, hcp⟩
        · have hc7 := chars_trimChars _ c hc6
          rcases List.mem_map.mp hc7 with ⟨d, _, hd⟩
          rw [← hd]
          exact toLower_toLower d
        · exact corr_chars_lower p hp c hcp
      · rw [hsp]; decide
      · exact syn_chars_lower p hp c (List.mem_cons_of_mem ' ' hcp)
    · rw [hsp]; decide
  · rw [hsp]; decide

theorem no_punct_normalized (q : String) :
    ∀ c ∈ (normalizeQuery q).data, isPunctQ c = false := by
  intro c hc
  rw [normalizeQuery_data] at hc
  have hc2 := chars_trimChars _ c hc
  rcases chars_squashRuns isWsChar _ _ le_rfl c hc2 with hc3 | hsp
  · exact squashRuns_no_p isPunctQ (by decide) _ _ le_rfl c hc3
  · rw [hsp]; decide

theorem wsOK_normalized (q : String) : wsOK (normalizeQuery q).data = true := by
  rw [normalizeQuery_data]
  apply wsOK_trimChars
  exact wsOK_squashRuns _ _ le_rfl

theorem map_toLower_id (l : List Char) (h : ∀ c ∈ l, Char.toLower c = c) :
    l.map Char.toLower = l := by
  induction l with
  | nil => rfl
  | cons c t ih =>
    rw [List.map_cons, h c (List.mem_cons_self c t),
      ih (fun x hx => h x (List.mem_cons_of_mem c hx))]

theorem trim_normalized (q : String) :
    trimChars (normalizeQuery q).data = (normalizeQuery q).data := by
  rw [normalizeQuery_data]
  exact trimChars_idem _

theorem applyTypos_normalized (q : String) :
    applyTypos (normalizeQuery q).data = (normalizeQuery q).data := by
  unfold applyTypos
  apply foldl_replace_id
  intro p hp
  exact ⟨(typo_table_wf p hp).2.1, typos_not_in_normalized q p hp⟩

theorem applySyn_normalized (q : String)
    (hroots : ∀ p ∈ SYNONYMS, containsSub (normalizeQuery q).data p.1.data = false) :
    applySynonyms (normalizeQuery q).data = (normalizeQuery q).data := by
  unfold applySynonyms
  exact applySyn_foldl_id SYNONYMS _ hroots

theorem squashPunct_normalized (q : String) :
    squashRuns isPunctQ (normalizeQuery q).data = (normalizeQuery q).data :=
  squashRuns_id isPunctQ _ (no_punct_normalized q)

theorem squashWs_normalized (q : String) :
    squashRuns isWsChar (normalizeQuery q).data = (normalizeQuery q).data :=
  wsOK_squash_id _ _ le_rfl (wsOK_normalized q)

theorem normalizeQuery_second_pass (q : String)
    (hroots : ∀ p ∈ SYNONYMS, containsSub (normalizeQuery q).data p.1.data = false) :
    normalizeQuery (normalizeQuery q) = normalizeQuery q := by
  rw [normalizeQuery_eq (normalizeQuery q)]
  rw [map_toLower_id _ (chars_normalizeQuery q), trim_normalized q,
    applyTypos_normalized q, applySyn_normalized q hroots,
    squashPunct_normalized q, squashWs_normalized q, trim_normalized q]

/-! ## Claim theorems -/

/-- C3 counterexample: the normalizer is not idempotent even on typo-free
input: `normalizeQuery "job"` appends the synonym list of the root "job",
and a second pass sees the root "job" again (`includes`, a substring test)
and re-appends the same synonym list, so the second pass changes the
string. -/
theorem c3_counterexample :
    normalizeQuery "job" = "job work employment position role career"
    ∧ normalizeQuery (normalizeQuery "job") ≠ normalizeQuery "job" :=
  ⟨by decide, by decide⟩

/-- C3 (amended): the normalizer is idempotent exactly on the queries whose
normalized form contains no synonym root word ("job", "project", "skill",
"contact", "education", "achievement") as a substring: for every such raw
query, a second pass applies no residual typo corrections (whole-word typo
occurrences cannot survive the first pass), appends no synonyms, and leaves
the lowercased, trimmed, punctuation- and whitespace-collapsed string
unchanged. -/
theorem c3_normalizer_second_pass :
    ∀ (q : String),
      SYNONYMS.all (fun p => !containsSub (normalizeQuery q).data p.1.data) = true →
      normalizeQuery (normalizeQuery q) = normalizeQuery q := by
  intro q hall
  apply normalizeQuery_second_pass q
  intro p hp
  have h := List.all_eq_true.mp hall p hp
  simpa using h

/-- Witness for C3. -/
theorem c3_witness :
    SYNONYMS.all
      (fun p => !containsSub (normalizeQuery "hello how are you").data p.1.data) = true
    ∧ normalizeQuery (normalizeQuery "hello how are you")
        = normalizeQuery "hello how are you" :=
  ⟨by decide, c3_normalizer_second_pass "hello how are you" (by decide)⟩

theorem respond_pattern_branch (q : String) (intents : List String) (info : String)
    (c : Ctx) (rng : Nat) (p : String)
    (hem : emergencyProjectCond (toLowerS q).data = false)
    (hp : matchQuestionPattern q = some p) :
    respond q intents info c rng = (getPatternResponse p, c, true) := by
  unfold respond
  dsimp only
  rw [if_neg (by simp [hem]), hp]

/-- C1 counterexample: the raw question "why 3d project" matches the
`avatar_inspiration` template regex, yet `generateRAGResponse` answers it
with the fixed project paragraph because the direct project handler (any
question containing "project") runs before template matching; so the
template match does not short-circuit every other branch, and the canned
template paragraph is not returned. -/
theorem c1_counterexample :
    (generateRAGResponse none "why 3d project" initState 0 0).response = projectResponseStr
    ∧ matchQuestionPattern "why 3d project" = some "avatar_inspiration"
    ∧ projectResponseStr ≠ getPatternResponse "avatar_inspiration" :=
  ⟨by decide, by decide, by decide⟩

/-- C1 (amended): for every raw question that is not answered from the cache,
whose lowercased text does not contain "project" (the direct project handler
runs first), and that matches one of the fixed template regexes,
`generateRAGResponse` returns the canned paragraph bound to the matched
pattern name verbatim, bypassing every intent-based branch and section
extraction. -/
theorem c1_template_priority :
    ∀ (loadR : Option ResumeData) (q : String) (st : RagState) (now : Int) (rng : Nat)
      (p : String),
      (getCachedResponse st.cache q now).1 = none →
      emergencyProjectCond (toLowerS q).data = false →
      matchQuestionPattern q = some p →
      (generateRAGResponse loadR q st now rng).response = getPatternResponse p := by
  intro loadR q st now rng p hcache hem hp
  unfold generateRAGResponse
  rcases hg : getCachedResponse st.cache q now with ⟨o, c'⟩
  rw [hg] at hcache
  cases o
  · dsimp only
    rw [respond_pattern_branch q _ _ _ rng p hem hp]
  · cases hcache

/-- Witness for C1. -/
theorem c1_witness :
    (getCachedResponse initState.cache "why 3d" 0).1 = none ∧
    emergencyProjectCond (toLowerS "why 3d").data = false ∧
    matchQuestionPattern "why 3d" = some "avatar_inspiration" ∧
    (generateRAGResponse none "why 3d" initState 0 0).response
      = getPatternResponse "avatar_inspiration" :=
  ⟨by decide, by decide, by decide,
    c1_template_priority none "why 3d" initState 0 0 "avatar_inspiration"
      (by decide) (by decide) (by decide)⟩

/-- C2 counterexample: the greeting branch neither reads nor writes the
response cache, so asking "hi" twice within the TTL window re-runs the whole
pipeline (second call: no cache hit, extraction re-invoked) and — because
the greeting is chosen pseudo-randomly — can even return different strings. -/
theorem c2_counterexample :
    ((generateRAGResponse none "hi"
        ((generateRAGResponse none "hi" initState 0 0).state) 1 1).cacheHit = false)
    ∧ ((generateRAGResponse none "hi"
        ((generateRAGResponse none "hi" initState 0 0).state) 1 1).extracted = true)
    ∧ (generateRAGResponse none "hi" initState 0 0).response
        ≠ (generateRAGResponse none "hi"
            ((generateRAGResponse none "hi" initState 0 0).state) 1 1).response :=
  ⟨by decide, by decide, by decide⟩

/-- C2 (amended): whenever a `generateRAGResponse` call writes the response
cache (the direct project handler, the template-pattern handler, the
"why"/motivation branch, and the smart fallback do; the greeting, follow-up
and other intent branches do not), a second call on the same question within
the 5-minute TTL returns the byte-identical response straight from the cache,
with no intent classification or section extraction re-invoked and the state
unchanged. -/
theorem c2_cache_idempotent_when_written :
    ∀ (loadR loadR2 : Option ResumeData) (q : String) (st : RagState)
      (t1 t2 : Int) (rng rng2 : Nat),
      st.cache.length ≤ 50 →
      (generateRAGResponse loadR q st t1 rng).wroteCache = true →
      0 ≤ t2 - t1 → t2 - t1 < CACHE_TTL →
      generateRAGResponse loadR2 q ((generateRAGResponse loadR q st t1 rng).state) t2 rng2
        = ⟨(generateRAGResponse loadR q st t1 rng).response,
           (generateRAGResponse loadR q st t1 rng).state, true, false, false⟩ := by
  intro loadR loadR2 q st t1 t2 rng rng2 hlen hw h0 httl
  rcases hg : getCachedResponse st.cache q t1 with ⟨o, c'⟩
  cases o with
  | some cached =>
    have hfirst : (generateRAGResponse loadR q st t1 rng).wroteCache = false := by
      unfold generateRAGResponse
      rw [hg]
    rw [hfirst] at hw
    cases hw
  | none =>
    have hfirst : generateRAGResponse loadR q st t1 rng
        = ⟨(respond q (detectIntent (normalizeQuery q))
              (extractRelevantInfo (loadR.getD fallbackResume) (normalizeQuery q) st.ctx).1
              (extractRelevantInfo (loadR.getD fallbackResume) (normalizeQuery q) st.ctx).2 rng).1,
           ⟨if (respond q (detectIntent (normalizeQuery q))
                (extractRelevantInfo (loadR.getD fallbackResume) (normalizeQuery q) st.ctx).1
                (extractRelevantInfo (loadR.getD fallbackResume) (normalizeQuery q) st.ctx).2 rng).2.2 = true
             then cacheResponse c' q
                (respond q (detectIntent (normalizeQuery q))
                  (extractRelevantInfo (loadR.getD fallbackResume) (normalizeQuery q) st.ctx).1
                  (extractRelevantInfo (loadR.getD fallbackResume) (normalizeQuery q) st.ctx).2 rng).1 t1
             else c',
            (respond q (detectIntent (normalizeQuery q))
              (extractRelevantInfo (loadR.getD fallbackResume) (normalizeQuery q) st.ctx).1
              (extractRelevantInfo (loadR.getD fallbackResume) (normalizeQuery q) st.ctx).2 rng).2.1⟩,
           false, true,
           (respond q (detectIntent (normalizeQuery q))
              (extractRelevantInfo (loadR.getD fallbackResume) (normalizeQuery q) st.ctx).1
              (extractRelevantInfo (loadR.getD fallbackResume) (normalizeQuery q) st.ctx).2 rng).2.2⟩ := by
      unfold generateRAGResponse
      rw [hg]
    have hwrote : (respond q (detectIntent (normalizeQuery q))
        (extractRelevantInfo (loadR.getD fallbackResume) (normalizeQuery q) st.ctx).1
        (extractRelevantInfo (loadR.getD fallbackResume) (normalizeQuery q) st.ctx).2 rng).2.2
          = true := by
      rw [hfirst] at hw
      exact hw
    rw [hfirst]
    simp only [hwrote, eq_self_iff_true, if_true, ite_true]
    have hc'len : c'.length ≤ 50 := by
      have h1 := getCachedResponse_snd_length_le st.cache q t1
      rw [hg] at h1
      exact Nat.le_trans h1 hlen
    have hc'fresh : lookupA c' (trimS (toLowerS q)) = none :=
      getCachedResponse_miss_lookup hg
    have hlook := lookupA_cacheResponse q
      (respond q (detectIntent (normalizeQuery q))
        (extractRelevantInfo (loadR.getD fallbackResume) (normalizeQuery q) st.ctx).1
        (extractRelevantInfo (loadR.getD fallbackResume) (normalizeQuery q) st.ctx).2 rng).1
      t1 hc'len hc'fresh
    unfold generateRAGResponse
    dsimp only
    rw [show getCachedResponse
        (cacheResponse c' q
          (respond q (detectIntent (normalizeQuery q))
            (extractRelevantInfo (loadR.getD fallbackResume) (normalizeQuery q) st.ctx).1
            (extractRelevantInfo (loadR.getD fallbackResume) (normalizeQuery q) st.ctx).2 rng).1
          t1) q t2
      = (some (respond q (detectIntent (normalizeQuery q))
            (extractRelevantInfo (loadR.getD fallbackResume) (normalizeQuery q) st.ctx).1
            (extractRelevantInfo (loadR.getD fallbackResume) (normalizeQuery q) st.ctx).2 rng).1,
         cacheResponse c' q
          (respond q (detectIntent (normalizeQuery q))
            (extractRelevantInfo (loadR.getD fallbackResume) (normalizeQuery q) st.ctx).1
            (extractRelevantInfo (loadR.getD fallbackResume) (normalizeQuery q) st.ctx).2 rng).1
          t1) from by
      unfold getCachedResponse
      dsimp only
      rw [hlook]
      dsimp only
      rw [if_pos (show t2 - t1 < CACHE_TTL by omega)]]

/-- Witness for C2: "walk me through your resume" is answered by the
template-pattern branch, which caches; the second call within the TTL is the
cached byte-identical response. -/
theorem c2_witness :
    (initState.cache.length ≤ 50
      ∧ (generateRAGResponse none "walk me through your resume" initState 0 0).wroteCache = true
      ∧ (0 : Int) ≤ 1000 - 0 ∧ (1000 : Int) - 0 < CACHE_TTL)
    ∧ generateRAGResponse none "walk me through your resume"
        ((generateRAGResponse none "walk me through your resume" initState 0 0).state) 1000 7
      = ⟨(generateRAGResponse none "walk me through your resume" initState 0 0).response,
         (generateRAGResponse none "walk me through your resume" initState 0 0).state,
         true, false, false⟩ :=
  ⟨⟨by decide, by decide, by decide, by decide⟩,
    c2_cache_idempotent_when_written none none "walk me through your resume" initState
      0 1000 0 7 (by decide) (by decide) (by decide) (by decide)⟩

/-- C4 counterexample: on the already-normalized query "passion why drive",
the classifier described by the claim (keyword scores only: motivation 5 from
"why"/"passion"/"drive", personal 2 from "passion") would return
["motivation", "personal"], but `detectIntent` returns ["personal",
"motivation"]: the fixed `/why/` regex check overwrites motivation's keyword
score with the fixed score 2, demoting it to a tie broken by first-seen
order. -/
theorem c4_counterexample :
    normalizeQuery "passion why drive" = "passion why drive"
    ∧ detectIntent "passion why drive" ≠ claimedDetect "passion why drive"
    ∧ detectIntent "passion why drive" = ["personal", "motivation"]
    ∧ claimedDetect "passion why drive" = ["motivation", "personal"] :=
  ⟨by decide, by decide, by decide, by decide⟩

/-- C4 (amended): `detectIntent` scores each taxonomy intent as the claim
states (+2 per matched keyword longer than 4 characters, +1 otherwise, +0.5
per repeated occurrence beyond the first), keeps exactly the intents with
nonzero score in first-seen order — but then a fixed battery of six regex
checks inserts or overwrites fixed-score intents (capabilities 2, detailed
1.5, process 1.5, motivation 2, timeline 1, location 1) in the score map,
and only the resulting map is sorted descending by score (stable, ties in
first-seen order). -/
theorem c4_keyword_scores_with_battery :
    ∀ (q : String), detectIntent q = amendedDetect q := by
  intro q
  unfold detectIntent amendedDetect
  dsimp only
  rw [foldl_setA_fresh (toLowerS q).data SEMANTIC_KEYWORDS [] (by decide)
    (fun p _ => rfl)]
  simp only [kwScore_eq_claim, List.nil_append]
  simp only [regexBattery, List.foldl_cons, List.foldl_nil]

/-- C5: after any sequence of put operations the response cache holds at most
50 entries, and inserting a 51st distinct key evicts exactly the oldest
inserted (first) entry, appending the new entry at the end and leaving every
other cached entry unchanged. -/
theorem c5_cache_capacity_and_eviction :
    (∀ ops : List (String × String × Int),
      (ops.foldl (fun c op => cacheResponse c op.1 op.2.1 op.2.2) ([] : Cache)).length ≤ 50)
    ∧ ∀ (c : Cache) (q resp : String) (now : Int),
        c.length = 50 → lookupA c (trimS (toLowerS q)) = none →
        cacheResponse c q resp now = c.tail ++ [(trimS (toLowerS q), ⟨resp, now⟩)] := by
  constructor
  · exact foldl_cacheResponse_length_le
  · intro c q resp now h50 hfresh
    unfold cacheResponse
    dsimp only
    rw [setA_fresh _ (lookupA_none_any_eq_false hfresh)]
    have hlen : (c ++ [(trimS (toLowerS q), (⟨resp, now⟩ : CacheEntry))]).length = 51 := by
      simp [h50]
    rw [if_pos (by rw [hlen]; omega)]
    rcases c with _ | ⟨p, t⟩
    · simp at h50
    · rfl

/-- Witness for C5: a concrete 50-entry cache and a fresh key. -/
theorem c5_witness :
    witCache.length = 50 ∧ lookupA witCache (trimS (toLowerS "ZZ")) = none ∧
    cacheResponse witCache "ZZ" "resp" 5
      = witCache.tail ++ [(trimS (toLowerS "ZZ"), ⟨"resp", 5⟩)] :=
  ⟨by decide, by decide,
    c5_cache_capacity_and_eviction.2 witCache "ZZ" "resp" 5 (by decide) (by decide)⟩

theorem projSections_none {resume : ResumeData} (q : String) (ql : List Char)
    (h : resume.projects = none) : projSections resume q ql = [] := by
  unfold projSections
  rw [h]

theorem expSections_none {resume : ResumeData} (q : String) (ql : List Char)
    (h : resume.experience = none) : expSections resume q ql = [] := by
  unfold expSections
  rw [h]

/-- C6 counterexample: with a profile lacking the `projects` field, the
question "tell me about your projects" is answered by the fixed canned
project paragraph (the direct project handler), not by a generic summary
mentioning skills — the response does not even contain the string "skill". -/
theorem c6_counterexample :
    (generateRAGResponse (some resumeNoProjects) "tell me about your projects"
        initState 0 0).response = projectResponseStr
    ∧ containsSub
        (toLowerS (generateRAGResponse (some resumeNoProjects) "tell me about your projects"
          initState 0 0).response).data "skill".data = false :=
  ⟨by decide, by decide⟩

/-- C6 (amended): when the profile document has no `projects` field, a
"tell me about your projects" query does not throw: `generateRAGResponse`
returns the fixed canned projects paragraph (via the direct project handler,
for any context, clock and random draw), while inside the extractor the
missing field is skipped silently, and — when the experience and education
fields are also absent so that no other section branch collects content —
`extractRelevantInfo` falls back to the generic summary
`extractFallback` (name, professional summary and a "Key Skills" list). -/
theorem c6_no_projects_fallback :
    ∀ (resume : ResumeData) (ctx : Ctx) (now : Int) (rng : Nat),
      resume.projects = none →
      ((generateRAGResponse (some resume) "tell me about your projects"
          ⟨[], ctx⟩ now rng).response = projectResponseStr
        ∧ (resume.experience = none → resume.education = none →
            (extractRelevantInfo resume
                (normalizeQuery "tell me about your projects") ctx).1
              = extractFallback resume)) := by
  intro resume ctx now rng hproj
  constructor
  · unfold generateRAGResponse
    have hmiss : getCachedResponse (RagState.cache ⟨[], ctx⟩)
        "tell me about your projects" now = (none, ([] : Cache)) := rfl
    rw [hmiss]
    dsimp only
    unfold respond
    dsimp only
    rw [if_pos (show emergencyProjectCond
      (toLowerS "tell me about your projects").data = true by decide)]
  · intro hexp hedu
    have hgreet : ¬(testREStart patGreetExtract
        (toLowerS (normalizeQuery "tell me about your projects")) = true) := by decide
    have hc1 : extractProjCond
        (detectIntent (normalizeQuery "tell me about your projects"))
        (toLowerS (normalizeQuery "tell me about your projects")).data = true := by decide
    have hc2 : extractExpCond
        (detectIntent (normalizeQuery "tell me about your projects"))
        (toLowerS (normalizeQuery "tell me about your projects")).data = true := by decide
    have hc3 : ¬(extractSkillCond
        (detectIntent (normalizeQuery "tell me about your projects"))
        (toLowerS (normalizeQuery "tell me about your projects")).data = true) := by decide
    have hc4 : ¬(extractEduCond
        (detectIntent (normalizeQuery "tell me about your projects"))
        (toLowerS (normalizeQuery "tell me about your projects")).data = true) := by decide
    have hc5 : ¬(extractCertCond
        (toLowerS (normalizeQuery "tell me about your projects")).data = true) := by decide
    have hc6 : ¬(extractLeadCond
        (toLowerS (normalizeQuery "tell me about your projects")).data = true) := by decide
    unfold extractRelevantInfo
    rw [if_neg hgreet]
    dsimp only
    rw [projSections_none _ _ hproj, expSections_none _ _ hexp]
    rw [if_pos hc1, if_pos hc2]
    rw [if_neg hc3, if_neg hc4, if_neg hc5, if_neg hc6]
    rfl

/-- Witness for C6. -/
theorem c6_witness :
    resumeBareC6.projects = none ∧ resumeBareC6.experience = none
      ∧ resumeBareC6.education = none ∧
    ((generateRAGResponse (some resumeBareC6) "tell me about your projects"
        ⟨[], initCtx⟩ 0 0).response = projectResponseStr
      ∧ (extractRelevantInfo resumeBareC6
          (normalizeQuery "tell me about your projects") initCtx).1
            = extractFallback resumeBareC6) := by
  refine ⟨by decide, by decide, by decide, ?main⟩
  case main =>
    have h := c6_no_projects_fallback resumeBareC6 initCtx 0 0 (by decide)
    exact ⟨h.1, h.2 (by decide) (by decide)⟩

/-- C7: after any number of pipeline calls the conversation context's topic
list has at most 10 entries, and `updateContext` appends the detected intents
evicting the oldest entries first (the new topic list is a suffix of
old topics ++ intents). -/
theorem c7_topics_bounded :
    (∀ calls : List (Option ResumeData × String × Int × Nat),
      ((calls.foldl
        (fun s c => (generateRAGResponse c.1 c.2.1 s c.2.2.1 c.2.2.2).state)
        initState).ctx.topics.length ≤ 10))
    ∧ ∀ (q : String) (intents : List String) (c : Ctx),
        (updateContext q intents c).topics.length ≤ 10 ∧
        ∃ dropped, c.topics ++ intents = dropped ++ (updateContext q intents c).topics := by
  constructor
  · intro calls
    have key : ∀ (l : List (Option ResumeData × String × Int × Nat)) (s : RagState),
        s.ctx.topics.length ≤ 10 →
        ((l.foldl (fun s c => (generateRAGResponse c.1 c.2.1 s c.2.2.1 c.2.2.2).state)
          s).ctx.topics.length ≤ 10) := by
      intro l
      induction l with
      | nil => intro s h; exact h
      | cons cl t ih =>
        intro s h
        exact ih _ (generateRAGResponse_topics_le _ _ _ _ _ h)
    exact key calls initState (by decide)
  · intro q intents c
    refine ⟨?_, ?_⟩
    · rw [updateContext_topics]
      exact lastN_length_le _
    · rw [updateContext_topics]
      exact lastN_suffix _

/-- C8: if the profile fetch fails, the pipeline substitutes the built-in
minimal default profile — the call behaves exactly as if that profile had
loaded — and (from a fresh cache) still produces a non-empty response
string; no load failure is ever propagated. -/
theorem c8_load_failure_fallback :
    ∀ (q : String) (st : RagState) (now : Int) (rng : Nat) (ctx : Ctx),
      generateRAGResponse none q st now rng
        = generateRAGResponse (some fallbackResume) q st now rng
      ∧ (generateRAGResponse none q ⟨[], ctx⟩ now rng).response ≠ "" := by
  intro q st now rng ctx
  constructor
  · unfold generateRAGResponse
    rcases getCachedResponse st.cache q now with ⟨o, c'⟩
    cases o <;> rfl
  · unfold generateRAGResponse
    have hmiss : getCachedResponse (RagState.cache ⟨[], ctx⟩) q now
        = (none, ([] : Cache)) := rfl
    rw [hmiss]
    exact respond_ne _ _ _ _ _

/-- C9 counterexample: the greeting branch chooses among five greeting
variants pseudo-randomly, so two runs from the identical context, cache state
and clock on the question "hi" can return different response strings. -/
theorem c9_counterexample :
    (generateRAGResponse none "hi" initState 0 0).response
      ≠ (generateRAGResponse none "hi" initState 0 1).response := by decide

/-- C9 (amended): the pipeline is deterministic — two runs from the same
conversation context, cache state and clock on the same question return the
same result — for every question whose lowercased trimmed text does not match
the greeting regex; greeting questions draw one of five variants at random. -/
theorem c9_deterministic_without_greeting :
    ∀ (loadR : Option ResumeData) (q : String) (st : RagState) (now : Int)
      (rng1 rng2 : Nat),
      greetingCond (toLowerS q) = false →
      generateRAGResponse loadR q st now rng1 = generateRAGResponse loadR q st now rng2 := by
  intro loadR q st now rng1 rng2 h
  unfold generateRAGResponse
  rcases getCachedResponse st.cache q now with ⟨o, c'⟩
  cases o
  · dsimp only
    rw [respond_rng_eq _ _ _ _ rng1 rng2 h]
  · rfl

/-- Witness for C9. -/
theorem c9_witness :
    greetingCond (toLowerS "what is your name") = false ∧
    generateRAGResponse none "what is your name" initState 0 0
      = generateRAGResponse none "what is your name" initState 0 1 :=
  ⟨by decide,
    c9_deterministic_without_greeting none "what is your name" initState 0 0 1 (by decide)⟩

theorem respond_info_eq (q : String) (intents : List String) (i1 i2 : String)
    (c : Ctx) (rng : Nat) : respond q intents i1 c rng = respond q intents i2 c rng := rfl

/-- C10: the string produced by `extractRelevantInfo` never flows into the
response: the response cascade gives the same output for any two values of
the extraction result, and running the full pipeline with the extraction
result replaced by an arbitrary injected string yields an identical result;
only extraction's side effects on the conversation context matter. -/
theorem c10_extraction_never_flows :
    ∀ (i1 i2 : String) (q : String) (intents : List String) (c : Ctx) (rng : Nat)
      (loadR : Option ResumeData) (st : RagState) (now : Int),
      respond q intents i1 c rng = respond q intents i2 c rng
      ∧ generateRAGResponseInjected i1 loadR q st now rng
          = generateRAGResponse loadR q st now rng := by
  intro i1 i2 q intents c rng loadR st now
  constructor
  · rfl
  · unfold generateRAGResponseInjected generateRAGResponse
    rcases getCachedResponse st.cache q now with ⟨o, c'⟩
    cases o
    · dsimp only
      rw [respond_info_eq q (detectIntent (normalizeQuery q)) i1
            ((extractRelevantInfo (loadR.getD fallbackResume) (normalizeQuery q) st.ctx).1)
            ((extractRelevantInfo (loadR.getD fallbackResume) (normalizeQuery q) st.ctx).2) rng]
    · rfl

end LocalRAG
